import Mathlib

/-!
# Simple-Onion-Routing: a shallow embedding of the onion core

The Go sources embedded here are `util/cipher.go`, `util/conversion.go`,
`interface/sTorProtocol.go`, `client/client.go`, `router/router.go`,
`coord/coord.go` and `oCheck/ocheck.go`.

Conventions of the embedding.

* A Go `[]byte` is a `List Nat`; the nil slice and the empty slice are both `[]`
  (gob does not transmit an empty byte slice, so the two are indistinguishable
  after one trip through `Encode`/`Decode`).
* The Go standard library is not part of the repository.  Its pieces are taken
  as parameters, each with the contract its documentation states: the AES block
  function (`crypto/aes`), gob (`encoding/gob`), RSA-OAEP (`crypto/rsa`), the
  randomness source (`crypto/rand`), `rand.Shuffle`, `sort.Slice`, the growth of a
  slice under `append` and the web (`net/http`).
  CFB mode (`crypto/cipher`) is written out over the block function.
* A run-time panic (slice bounds, nil dereference) is the value `none` of a pure
  function and the outcome `fault` of an RPC handler.
* RPC handlers run one at a time; a handler that relays runs the next router's
  handler inside its own run, on the one state of the overlay.
* Tracing tokens and trace actions are dropped: no decision depends on them.
-/

namespace STor

/-! ## Bytes and blocks -/

/-- Go `[]byte`. -/
abbrev Bytes := List Nat

/-- Sixteen bytes: an AES block, also the IV of one CFB stream. -/
abbrev Block := { l : List Nat // l.length = 16 }

/-- Go `copy(next[0:], c)` on a 16-byte buffer: the first `len(c)` bytes of the
buffer are overwritten, the rest stay. -/
def Block.overwrite (b : Block) (c : Bytes) : Block :=
  ⟨(c ++ b.val.drop c.length).take 16, by
    have h := b.property
    simp only [List.length_take, List.length_append, List.length_drop]
    omega⟩

/-- The call `subtle.XORBytes(dst, src, ks)`: xors `min(len(src), len(ks))` bytes. -/
def xorBytes (src ks : Bytes) : Bytes := List.zipWith Nat.xor src ks

/-! ## `crypto/cipher` CFB over a block function -/

/-- The method `(*cfb).XORKeyStream` of one stream started by `NewCFBEncrypter` (`dec = false`)
or `NewCFBDecrypter` (`dec = true`): per 16 bytes of input the buffer `next` is
encrypted into the key stream, the input is xored with it, and the ciphertext
bytes are copied into `next`.  The first argument bounds the number of rounds;
`src.length` rounds always suffice. -/
def cfbXORKeyStream (dec : Bool) (blk : Block → Block) : Nat → Block → Bytes → Bytes
  | 0, _, _ => []
  | n + 1, next, src =>
    if src = [] then []
    else
      let out := (blk next).val
      let dst := xorBytes (src.take 16) out
      let next1 := next.overwrite (if dec then src.take 16 else dst)
      dst ++ cfbXORKeyStream dec blk n next1 (src.drop 16)

/-- The call `aes.NewCipher(key)` succeeds exactly for keys of 16, 24 or 32 bytes. -/
def validAESKey (key : Bytes) : Bool :=
  key.length == 16 || key.length == 24 || key.length == 32

/-- The function `util.EncryptAES`: `nil` when `aes.NewCipher` rejects the key, otherwise the
drawn IV followed by the CFB encryption of `msg`.  `aes` is the AES block
function and `iv` the sixteen bytes read from `rand.Reader`. -/
def EncryptAES (aes : Bytes → Block → Block) (key : Bytes) (iv : Block) (msg : Bytes) : Bytes :=
  if validAESKey key then
    iv.val ++ cfbXORKeyStream false (aes key) msg.length iv msg
  else []

/-- The function `util.DecryptAES`: `nil` when `aes.NewCipher` rejects the key; a slice-bounds
panic (`none`) when the ciphertext has fewer than 16 bytes; otherwise the CFB
decryption of `ciphertext[16:]` under the IV `ciphertext[:16]`. -/
def DecryptAES (aes : Bytes → Block → Block) (key : Bytes) (ciphertext : Bytes) : Option Bytes :=
  if validAESKey key then
    if h : 16 ≤ ciphertext.length then
      let iv : Block := ⟨ciphertext.take 16, by simp [List.length_take]; omega⟩
      let ct := ciphertext.drop 16
      some (cfbXORKeyStream true (aes key) ct.length iv ct)
    else none
  else some []

/-! ## `encoding/gob` -/

/-- The gob codec at one Go type: `Encode` and `Decode` of `util/conversion.go`
with the library's contract that a value encoded by `Encode` decodes to itself.
`decode` is `none` when `gob.Decoder.Decode` returns an error.  The decoder stores
the fields of the container as it reads them, so an error met part of the way
leaves the fields read so far in the container: `onError` is the content of the
container after such a call. -/
structure Gob (α : Type) where
  /-- The bytes `gob.NewEncoder(&buf).Encode(msg)` leaves in the buffer. -/
  encode : α → Bytes
  /-- The value `gob.NewDecoder(buf).Decode(container)` stores, if it succeeds. -/
  decode : Bytes → Option α
  /-- The content of the container after a `Decode` of the stream that returns an
  error, given its content before the call. -/
  onError : α → Bytes → α
  /-- Contract of the codec. -/
  decode_encode : ∀ v, decode (encode v) = some v
  /-- The empty stream ends before anything is read: nothing is stored. -/
  onError_nil : ∀ container, onError container [] = container

/-- The function `util.Decode` into a zero-valued container whose error is ignored by every
caller in the repository: on a decoding error the container holds what the decoder
had stored in it before the error. -/
def Decode {α : Type} [Inhabited α] (g : Gob α) (buf : Bytes) : α :=
  (g.decode buf).getD (g.onError default buf)

/-- The function `util.EncodeAndEncryptAES`. -/
def EncodeAndEncryptAES {α : Type} (aes : Bytes → Block → Block) (g : Gob α)
    (k : Bytes) (iv : Block) (payload : α) : Bytes :=
  EncryptAES aes k iv (g.encode payload)

/-- The function `util.DecodeAndDecryptAES` into a zero-valued `res`; `none` is the panic of
`DecryptAES`. -/
def DecodeAndDecryptAES {α : Type} [Inhabited α] (aes : Bytes → Block → Block) (g : Gob α)
    (key : Bytes) (ciphertext : Bytes) : Option α :=
  (DecryptAES aes key ciphertext).map (Decode g)

/-! ## `crypto/rsa`, `crypto/x509`, `encoding/pem` -/

/-- Go `*rsa.PrivateKey` (key material abstracted to bytes). -/
abbrev PrivateKey := Bytes

/-- Go `*rsa.PublicKey` (key material abstracted to bytes). -/
abbrev PublicKey := Bytes

/-- The RSA library with the contract its documentation states. -/
structure RsaLib where
  /-- The field `prk.PublicKey` of a private key. -/
  publicOf : PrivateKey → PublicKey
  /-- The composite `pem.EncodeToMemory` of `x509.MarshalPKCS1PublicKey`. -/
  marshal : PublicKey → Bytes
  /-- The composite `x509.ParsePKCS1PublicKey` of `pem.Decode`; `none` when either
  yields nil. -/
  unmarshal : Bytes → Option PublicKey
  /-- The call `rsa.EncryptOAEP(sha256.New(), rand.Reader, puk, msg, nil)` with the
  randomness drawn; `none` when it returns an error (message too long). -/
  encryptOAEP : PublicKey → Block → Bytes → Option Bytes
  /-- The call `rsa.DecryptOAEP(sha256.New(), rand.Reader, prk, ciphertext, nil)`;
  `none` when it returns an error. -/
  decryptOAEP : PrivateKey → Bytes → Option Bytes
  /-- Parsing undoes marshalling. -/
  unmarshal_marshal : ∀ k, unmarshal (marshal k) = some k
  /-- Decryption with the private key undoes encryption with its public key. -/
  decrypt_encrypt : ∀ prk seed msg c,
    encryptOAEP (publicOf prk) seed msg = some c → decryptOAEP prk c = some msg

/-- The function `util.EncryptRSAPublic`: `nil` on an encryption error. -/
def EncryptRSAPublic (rsa : RsaLib) (puk : PublicKey) (seed : Block) (msg : Bytes) : Bytes :=
  (rsa.encryptOAEP puk seed msg).getD []

/-- The function `util.DecryptRSAPrivate`: `nil` on a decryption error. -/
def DecryptRSAPrivate (rsa : RsaLib) (prk : PrivateKey) (ciphertext : Bytes) : Bytes :=
  (rsa.decryptOAEP prk ciphertext).getD []

/-- The function `util.ConvertPublicKeyToBytes`. -/
def ConvertPublicKeyToBytes (rsa : RsaLib) (puk : PublicKey) : Bytes := rsa.marshal puk

/-- The function `util.EncodeAndEncryptRSA`.  `ConvertBytesToPublicKey` dereferences the nil
block or hands a nil key to `rsa.EncryptOAEP` when the bytes do not parse: the
panic is `none`. -/
def EncodeAndEncryptRSA {α : Type} (rsa : RsaLib) (g : Gob α) (puk : Bytes) (seed : Block)
    (payload : α) : Option Bytes :=
  match rsa.unmarshal puk with
  | none => none
  | some k => some (EncryptRSAPublic rsa k seed (g.encode payload))

/-- The function `util.DecodeAndDecryptRSA` into a zero-valued `res`. -/
def DecodeAndDecryptRSA {α : Type} [Inhabited α] (rsa : RsaLib) (g : Gob α) (prk : PrivateKey)
    (ciphertext : Bytes) : α :=
  Decode g (DecryptRSAPrivate rsa prk ciphertext)

/-! ## Wire types (`interface/sTorProtocol.go`) -/

/-- The struct `STorGeneralRouterPackageRequest` without its tracing token. -/
structure STorGeneralRouterPackageRequest where
  ClientId : String
  Payload : Bytes
  EncryptionType : String
deriving DecidableEq, Repr

/-- The struct `STorGeneralRouterPackageResponse` without its tracing token. -/
structure STorGeneralRouterPackageResponse where
  Payload : Bytes
deriving DecidableEq, Repr

/-- The struct `STorEncryptedRouterRequest`. -/
structure STorEncryptedRouterRequest where
  ClientId : String
  NextAddr : String
  Payload : Bytes
  EncryptionType : String
deriving DecidableEq, Repr

/-- The Go zero value. -/
instance : Inhabited STorEncryptedRouterRequest := ⟨⟨"", "", [], ""⟩⟩

/-- The struct `storprotocol.Router`, one entry of an onion ring. -/
structure Router where
  RouterId : Int
  PublicKey : Bytes
  Addr : String
deriving DecidableEq, Repr

/-- Go `http.Header`. -/
abbrev Header := List (String × List String)

/-- The struct `STorRouterHTTPRequest`. -/
structure STorRouterHTTPRequest where
  Header : Header
  Method : String
  Url : String
  Body : Bytes
deriving DecidableEq, Repr

/-- The Go zero value. -/
instance : Inhabited STorRouterHTTPRequest := ⟨⟨[], "", "", []⟩⟩

/-- The struct `STorOnionMessage` without its tracing token. -/
structure STorOnionMessage where
  ClientId : String
  Onion : Bytes
deriving DecidableEq, Repr

/-- The struct `STorRouterHTTPResponse` without its tracing token. -/
structure STorRouterHTTPResponse where
  Response : Bytes
deriving DecidableEq, Repr

/-- The struct `STorRouterReply`. -/
structure STorRouterReply where
  Payload : Bytes
  DidSucceed : Bool
  IsWebServer : Bool
  ErrMsg : String
deriving DecidableEq, Repr

/-- The Go zero value. -/
instance : Inhabited STorRouterReply := ⟨⟨[], false, false, ""⟩⟩

/-! ## The environment of a run -/

/-- What `http.Get` followed by `ioutil.ReadAll` yields for a URL. -/
inductive HttpResult where
  /-- The call `http.Get` returns an error. -/
  | getErr
  /-- The call `ioutil.ReadAll` returns an error. -/
  | readErr
  /-- The response body. -/
  | body (b : Bytes)
deriving DecidableEq, Repr

/-- Everything outside the repository that a run depends on. -/
structure Env where
  /-- The AES block function: key, then block. -/
  aes : Bytes → Block → Block
  /-- The RSA library. -/
  rsa : RsaLib
  /-- Gob at `STorEncryptedRouterRequest`. -/
  gobRequest : Gob STorEncryptedRouterRequest
  /-- Gob at `STorRouterReply`. -/
  gobReply : Gob STorRouterReply
  /-- Gob at `STorRouterHTTPRequest`. -/
  gobHTTP : Gob STorRouterHTTPRequest
  /-- The `n`-th sixteen bytes read from `rand.Reader`. -/
  rand : Nat → Block
  /-- The web as seen by the exit router. -/
  web : String → HttpResult

/-! ## Client: onionize and de-onionize (`client/client.go`) -/

/-- The loop of `deonionizeMessage`: `left` iterations remain and the next key is
`sharedkeys[i]`.  `none` is a panic (index out of range, or `DecryptAES`). -/
def deonionizeLoop (E : Env) (sharedkeys : List Bytes) :
    Nat → Nat → Bytes → Option (Except String Bytes)
  | 0, _, _ => some (.error "Something went horribly wrong.")
  | left + 1, i, onion =>
    match sharedkeys[i]? with
    | none => none
    | some key =>
      match DecodeAndDecryptAES E.aes E.gobReply key onion with
      | none => none
      | some payload =>
        if !payload.DidSucceed then some (.error payload.ErrMsg)
        else if payload.IsWebServer then some (.ok payload.Payload)
        else deonionizeLoop E sharedkeys left (i + 1) payload.Payload

/-- The function `deonionizeMessage`. -/
def deonionizeMessage (E : Env) (onion : Bytes) (sharedkeys : List Bytes) :
    Option (Except String Bytes) :=
  deonionizeLoop E sharedkeys 3 0 onion

/-- The loop of `deonionizeTeardownMessage`. -/
def deonionizeTeardownLoop (E : Env) (sharedkeys : List Bytes) :
    Nat → Nat → Bytes → Option (Except String Bytes)
  | 0, _, _ => some (.error "Something went horribly wrong.")
  | left + 1, i, onion =>
    match sharedkeys[i]? with
    | none => none
    | some key =>
      match DecodeAndDecryptAES E.aes E.gobReply key onion with
      | none => none
      | some payload =>
        if !payload.DidSucceed then some (.error payload.ErrMsg)
        else if payload.Payload = [] then some (.ok payload.Payload)
        else deonionizeTeardownLoop E sharedkeys left (i + 1) payload.Payload

/-- The function `deonionizeTeardownMessage`. -/
def deonionizeTeardownMessage (E : Env) (onion : Bytes) (sharedkeys : List Bytes) :
    Option (Except String Bytes) :=
  deonionizeTeardownLoop E sharedkeys 3 0 onion

/-- The function `onionizeMessage`; the three IVs are the draws `c`, `c + 1`, `c + 2` of the
randomness source, in the order of the three `EncodeAndEncryptAES` calls.  `none`
is an index-out-of-range panic. -/
def onionizeMessage (E : Env) (c : Nat) (httpRequest : STorRouterHTTPRequest)
    (routers : List Router) (sharedKeys : List Bytes) (clientId : String) :
    Option STorOnionMessage :=
  match routers[2]?, sharedKeys[2]?, routers[1]?, sharedKeys[1]?, sharedKeys[0]? with
  | some r2, some k2, some r1, some k1, some k0 =>
    let layerZero : STorEncryptedRouterRequest :=
      { ClientId := "", NextAddr := "", Payload := E.gobHTTP.encode httpRequest,
        EncryptionType := "" }
    let layerOne : STorEncryptedRouterRequest :=
      { ClientId := "", NextAddr := r2.Addr,
        Payload := EncodeAndEncryptAES E.aes E.gobRequest k2 (E.rand c) layerZero,
        EncryptionType := "" }
    let layerTwo : STorEncryptedRouterRequest :=
      { ClientId := "", NextAddr := r1.Addr,
        Payload := EncodeAndEncryptAES E.aes E.gobRequest k1 (E.rand (c + 1)) layerOne,
        EncryptionType := "" }
    some { ClientId := clientId,
           Onion := EncodeAndEncryptAES E.aes E.gobRequest k0 (E.rand (c + 2)) layerTwo }
  | _, _, _, _, _ => none

/-- The reply an exit router's `Send` seals around the body of the web response. -/
def webReply (body : Bytes) : STorRouterReply :=
  { Payload := body, IsWebServer := true, DidSucceed := true, ErrMsg := "" }

/-- The reply a forwarding router's `Send` seals around the downstream response. -/
def relayReply (response : Bytes) : STorRouterReply :=
  { Payload := response, IsWebServer := false, DidSucceed := true, ErrMsg := "" }

/-! ## A small concrete environment

An instance of every library parameter, so that the development can be run on
concrete inputs. -/

/-- Strings are coded by their code points. -/
instance : Encodable String :=
  Encodable.ofLeftInjection (fun s => s.data.map Char.toNat)
    (fun l => some ⟨l.map Char.ofNat⟩)
    (fun s => by simp [List.map_map, Function.comp_def])

/-- Coding of an encrypted router request by the tuple of its fields. -/
instance : Encodable STorEncryptedRouterRequest :=
  Encodable.ofLeftInjection
    (fun r => (r.ClientId, r.NextAddr, r.Payload, r.EncryptionType))
    (fun t => some ⟨t.1, t.2.1, t.2.2.1, t.2.2.2⟩)
    (fun _ => rfl)

/-- Coding of a router reply by the tuple of its fields. -/
instance : Encodable STorRouterReply :=
  Encodable.ofLeftInjection
    (fun r => (r.Payload, r.DidSucceed, r.IsWebServer, r.ErrMsg))
    (fun t => some ⟨t.1, t.2.1, t.2.2.1, t.2.2.2⟩)
    (fun _ => rfl)

/-- Coding of an HTTP tunnel request by the tuple of its fields. -/
instance : Encodable STorRouterHTTPRequest :=
  Encodable.ofLeftInjection
    (fun r => (r.Header, r.Method, r.Url, r.Body))
    (fun t => some ⟨t.1, t.2.1, t.2.2.1, t.2.2.2⟩)
    (fun _ => rfl)

/-- A codec that sends a value to the one-element stream holding its code and
stores nothing in the container when it fails. -/
def codeGob (α : Type) [Encodable α] : Gob α where
  encode v := [Encodable.encode v]
  decode b :=
    match b with
    | [n] => Encodable.decode n
    | _ => none
  onError container _ := container
  decode_encode := by intro v; simp
  onError_nil := fun _ => rfl

/-- An RSA stand-in: the ciphertext is the seed followed by the message, and
messages over 190 bytes (the OAEP limit of a 2048-bit key with SHA-256) are
refused. -/
def sampleRsa : RsaLib where
  publicOf := id
  marshal := id
  unmarshal := some
  encryptOAEP := fun _ seed msg => if msg.length ≤ 190 then some (seed.val ++ msg) else none
  decryptOAEP := fun _ c => if 16 ≤ c.length then some (c.drop 16) else none
  unmarshal_marshal := fun _ => rfl
  decrypt_encrypt := by
    intro prk seed msg c h
    have hs := seed.property
    by_cases hm : msg.length ≤ 190
    · simp only [hm, if_true, Option.some.injEq] at h
      subst h
      have h16 : 16 ≤ (seed.val ++ msg).length := by simp only [List.length_append]; omega
      simp only [h16, if_true, Option.some.injEq]
      rw [List.drop_append_of_le_length (by omega), List.drop_of_length_le (by omega)]
      simp
    · simp [hm] at h

/-- The block made of sixteen copies of one byte. -/
def Block.const (n : Nat) : Block := ⟨List.replicate 16 n, by simp⟩

/-- A concrete environment: the block function adds the first key byte to every
byte of the block, the `n`-th random block repeats the byte `n`, and every URL
answers with the body `[104, 105]`. -/
def sampleEnv : Env where
  aes := fun key b => ⟨b.val.map (fun x => (x + key.headD 0) % 256), by simp [b.property]⟩
  rsa := sampleRsa
  gobRequest := codeGob _
  gobReply := codeGob _
  gobHTTP := codeGob _
  rand := fun n => Block.const (n % 256)
  web := fun _ => HttpResult.body [104, 105]

/-- A sixteen-byte key repeating one byte. -/
def sampleKey (n : Nat) : Bytes := List.replicate 16 n

/-! ## Router processes and the network (`router/router.go`) -/

/-- The struct `SharedKey` of the router package; `TTL` is a deadline in
nanoseconds. -/
structure SharedKey where
  sk : Bytes
  TTL : Nat
deriving DecidableEq, Repr

/-- The Go zero value. -/
instance : Inhabited SharedKey := ⟨⟨[], 0⟩⟩

/-- Go `map[string]SharedKey` as an association list with at most one entry per
key; `len(m)` is the length of the list. -/
abbrev SharedKeyMap := List (String × SharedKey)

/-- Go `m[k] = v`. -/
def SharedKeyMap.set (m : SharedKeyMap) (k : String) (v : SharedKey) : SharedKeyMap :=
  (k, v) :: m.filter (fun e => e.1 != k)

/-- Go `delete(m, k)`. -/
def SharedKeyMap.delete (m : SharedKeyMap) (k : String) : SharedKeyMap :=
  m.filter (fun e => e.1 != k)

/-- Go `m[k].sk`: the key bytes of the entry, nil when there is none. -/
def SharedKeyMap.skOf (m : SharedKeyMap) (k : String) : Bytes :=
  ((m.lookup k).map (fun e => e.sk)).getD []

/-- Two to the sixty-fourth: `NumOfActiveCircuits` is a `uint64`. -/
def uint64Mod : Nat := 2 ^ 64

/-- Five minutes in nanoseconds (`5 * time.Minute`). -/
def fiveMinutes : Nat := 5 * 60 * 1000000000

namespace router

/-- The struct `Router` of the router package, cut down to the fields its RPC
handlers and its TTL sweep read or write, with the counter
`OChecker.NumOfActiveCircuits` that the heartbeat responder reports.  `crashed`
records that a handler of the process has panicked. -/
structure Router where
  RouterId : Int
  PrivateKey : PrivateKey
  SharedKeyMap : SharedKeyMap
  NumOfActiveCircuits : Nat
  crashed : Bool
deriving DecidableEq, Repr

end router

/-- The state of the overlay: the router process listening at each TCP address,
the wall clock in nanoseconds and the number of draws made from `rand.Reader`. -/
structure Net where
  routers : String → Option router.Router
  clock : Nat
  draws : Nat

/-- The call `rpc.Dial("tcp", addr)`: succeeds when a live router process listens at
the address; the empty address is refused. -/
def Net.dial (net : Net) (addr : String) : Option router.Router :=
  if addr = "" then none
  else
    match net.routers addr with
    | some r => if r.crashed then none else some r
    | none => none

/-- Replace the state of the process at `addr`. -/
def Net.put (net : Net) (addr : String) (r : router.Router) : Net :=
  { net with routers := Function.update net.routers addr (some r) }

/-- The process at `addr` dies of a panic. -/
def Net.crash (net : Net) (addr : String) : Net :=
  match net.routers addr with
  | some r => net.put addr { r with crashed := true }
  | none => net

/-- Whether the process at `addr` is gone or dead. -/
def Net.isDown (net : Net) (addr : String) : Bool :=
  match net.routers addr with
  | some r => r.crashed
  | none => true

/-- Read `rrl.R.SharedKeyMap[clientId].sk` at the process listening at `addr`. -/
def Net.skOf (net : Net) (addr clientId : String) : Bytes :=
  match net.routers addr with
  | some r => r.SharedKeyMap.skOf clientId
  | none => []

/-- The outcome of an RPC handler or of a client routine. -/
inductive Outcome (α : Type) where
  /-- It returned a nil error, with this response. -/
  | ok (response : α)
  /-- It returned a non-nil error. -/
  | err (msg : String)
  /-- It panicked. -/
  | fault
deriving DecidableEq, Repr

/-- One `util.EncodeAndEncryptAES(key, reply)` inside a handler: the IV is the next
draw of the randomness source. -/
def Net.seal (E : Env) (net : Net) (key : Bytes) (reply : STorRouterReply) : Net × Bytes :=
  ({ net with draws := net.draws + 1 },
    EncodeAndEncryptAES E.aes E.gobReply key (E.rand net.draws) reply)

/-- The error reply of the handlers. -/
def errReply (msg : String) : STorRouterReply :=
  { Payload := [], DidSucceed := false, IsWebServer := false, ErrMsg := msg }

/-- The success reply of `Init` and `Teardown`. -/
def okReply (payload : Bytes) : STorRouterReply :=
  { Payload := payload, DidSucceed := true, IsWebServer := false, ErrMsg := "" }

/-- The handler `RouterRPCListener.Init` run at the process listening at `self`.
The first argument bounds the depth of relaying; `none` means the bound was hit.
A failed dial and a failed call to the next router (it returned an error or
died) are answered with a sealed error reply. -/
def RouterRPCListener.Init (E : Env) :
    Nat → Net → String → STorGeneralRouterPackageRequest →
      Option (Net × Outcome STorGeneralRouterPackageResponse)
  | 0, _, _, _ => none
  | fuel + 1, net, self, request =>
    match net.routers self with
    | none => some (net, .fault)
    | some r =>
      let clientId := request.ClientId
      if request.EncryptionType = "AES" then
        match DecodeAndDecryptAES E.aes E.gobRequest (r.SharedKeyMap.skOf clientId)
            request.Payload with
        | none => some (net.crash self, .fault)
        | some routerArgs =>
          let nextRequest : STorGeneralRouterPackageRequest :=
            { ClientId := routerArgs.ClientId, Payload := routerArgs.Payload,
              EncryptionType := routerArgs.EncryptionType }
          match net.dial routerArgs.NextAddr with
          | none =>
            let (net1, bytes) :=
              net.seal E (net.skOf self request.ClientId) (errReply "Unable to contact next router.")
            some (net1, .ok { Payload := bytes })
          | some _ =>
            match RouterRPCListener.Init E fuel net routerArgs.NextAddr nextRequest with
            | none => none
            | some (net1, out) =>
              if net1.isDown self then some (net1, .fault)
              else
                match out with
                | .ok response =>
                  let (net2, bytes) :=
                    net1.seal E (net1.skOf self request.ClientId) (okReply response.Payload)
                  some (net2, .ok { Payload := bytes })
                | _ =>
                  let (net2, bytes) :=
                    net1.seal E (net1.skOf self request.ClientId)
                      (errReply "Unable to send to next router.")
                  some (net2, .ok { Payload := bytes })
      else
        let routerArgs := DecodeAndDecryptRSA E.rsa E.gobRequest r.PrivateKey request.Payload
        let r1 : router.Router :=
          { r with SharedKeyMap :=
              r.SharedKeyMap.set clientId ⟨routerArgs.Payload, net.clock + fiveMinutes⟩ }
        let (net1, bytes) :=
          (net.put self r1).seal E (r1.SharedKeyMap.skOf request.ClientId) (okReply [])
        let r2 : router.Router :=
          { r1 with NumOfActiveCircuits := (r1.NumOfActiveCircuits + 1) % uint64Mod }
        some (net1.put self r2, .ok { Payload := bytes })

/-- The state of a router process after the statements
`delete(rrl.R.SharedKeyMap, clientId)` and
`SetNumOfActiveCircuits(NumOfActiveCircuits - 1)` of `Teardown`; the subtraction is
that of a `uint64`. -/
def router.Router.withoutKey (r : router.Router) (clientId : String) : router.Router :=
  { r with
    SharedKeyMap := r.SharedKeyMap.delete clientId,
    NumOfActiveCircuits := (r.NumOfActiveCircuits + uint64Mod - 1) % uint64Mod }

/-- The two statements above at the process listening at `self`. -/
def Net.dropCircuit (net : Net) (self clientId : String) : Net :=
  match net.routers self with
  | some r => net.put self (r.withoutKey clientId)
  | none => net

/-- The handler `RouterRPCListener.Teardown` run at the process listening at
`self`. -/
def RouterRPCListener.Teardown (E : Env) :
    Nat → Net → String → STorGeneralRouterPackageRequest →
      Option (Net × Outcome STorGeneralRouterPackageResponse)
  | 0, _, _, _ => none
  | fuel + 1, net, self, request =>
    match net.routers self with
    | none => some (net, .fault)
    | some r =>
      let clientId := request.ClientId
      if request.EncryptionType = "AES" then
        match DecodeAndDecryptAES E.aes E.gobRequest (r.SharedKeyMap.skOf clientId)
            request.Payload with
        | none => some (net.crash self, .fault)
        | some routerArgs =>
          let nextRequest : STorGeneralRouterPackageRequest :=
            { ClientId := routerArgs.ClientId, Payload := routerArgs.Payload,
              EncryptionType := routerArgs.EncryptionType }
          if routerArgs.NextAddr = "" then
            some (net.dropCircuit self request.ClientId, .ok { Payload := [] })
          else
            match net.dial routerArgs.NextAddr with
            | none =>
              let (net1, bytes) :=
                net.seal E (net.skOf self request.ClientId)
                  (errReply "Unable to contact next router.")
              some (net1, .ok { Payload := bytes })
            | some _ =>
              match RouterRPCListener.Teardown E fuel net routerArgs.NextAddr nextRequest with
              | none => none
              | some (net1, out) =>
                if net1.isDown self then some (net1, .fault)
                else
                  match out with
                  | .ok response =>
                    let (net2, bytes) :=
                      net1.seal E (net1.skOf self request.ClientId) (okReply response.Payload)
                    some (net2.dropCircuit self request.ClientId, .ok { Payload := bytes })
                  | _ =>
                    let (net2, bytes) :=
                      net1.seal E (net1.skOf self request.ClientId)
                        (errReply "Unable to send to next router.")
                    some (net2, .ok { Payload := bytes })
      else some (net, .ok { Payload := [] })

/-- The handler `RouterRPCListener.Send` run at the process listening at `self`. -/
def RouterRPCListener.Send (E : Env) :
    Nat → Net → String → STorOnionMessage → Option (Net × Outcome STorRouterHTTPResponse)
  | 0, _, _, _ => none
  | fuel + 1, net, self, request =>
    match net.routers self with
    | none => some (net, .fault)
    | some r =>
      match r.SharedKeyMap.lookup request.ClientId with
      | none => some (net, .err "shared key does not exist in map")
      | some _ =>
        match DecodeAndDecryptAES E.aes E.gobRequest (r.SharedKeyMap.skOf request.ClientId)
            request.Onion with
        | none => some (net.crash self, .fault)
        | some encryptedRouterRequest =>
          if encryptedRouterRequest.NextAddr ≠ "" then
            let onionMessage : STorOnionMessage :=
              { ClientId := request.ClientId, Onion := encryptedRouterRequest.Payload }
            match net.dial encryptedRouterRequest.NextAddr with
            | none =>
              let (net1, bytes) :=
                net.seal E (net.skOf self request.ClientId)
                  (errReply "Unable to contact next router.")
              some (net1, .ok { Response := bytes })
            | some _ =>
              match RouterRPCListener.Send E fuel net encryptedRouterRequest.NextAddr
                  onionMessage with
              | none => none
              | some (net1, out) =>
                if net1.isDown self then some (net1, .fault)
                else
                  match out with
                  | .ok routerHTTPResponse =>
                    let (net2, bytes) :=
                      net1.seal E (net1.skOf self request.ClientId)
                        (relayReply routerHTTPResponse.Response)
                    some (net2, .ok { Response := bytes })
                  | _ =>
                    let (net2, bytes) :=
                      net1.seal E (net1.skOf self request.ClientId)
                        (errReply "Unable to send to next router.")
                    some (net2, .ok { Response := bytes })
          else
            let routerHttpRequest := Decode E.gobHTTP encryptedRouterRequest.Payload
            match E.web routerHttpRequest.Url with
            | .getErr =>
              let (net1, bytes) :=
                net.seal E (net.skOf self request.ClientId)
                  (errReply "Unable to contact the web server.")
              some (net1, .ok { Response := bytes })
            | .readErr =>
              let (net1, bytes) :=
                net.seal E (net.skOf self request.ClientId)
                  (errReply "Unable to read http response.")
              some (net1, .ok { Response := bytes })
            | .body body =>
              let (net1, bytes) := net.seal E (net.skOf self request.ClientId) (webReply body)
              some (net1, .ok { Response := bytes })

/-- One pass of the loop of `Router.TeardownAfterTTL` at the process listening at
`self`: every entry whose deadline the clock has passed is deleted. -/
def TeardownAfterTTL (net : Net) (self : String) : Net :=
  match net.routers self with
  | some r =>
    net.put self { r with SharedKeyMap := r.SharedKeyMap.filter (fun e => !(e.2.TTL < net.clock)) }
  | none => net

/-! ## Client: circuit construction and teardown (`client/client.go`) -/

/-- The `for` loop of `generateSecurePayload`, at index `i` with `left` iterations
allowed; `c` is the index of the next draw of the randomness source.  `none` is a
panic (index out of range, or a public key that does not parse). -/
def generateSecurePayloadLoop (E : Env) (clientId : String) (keys : List Bytes)
    (addr encryptionType : List String) :
    Nat → Nat → Nat → STorEncryptedRouterRequest → Option (STorEncryptedRouterRequest × Nat)
  | 0, _, c, payload => some (payload, c)
  | left + 1, i, c, payload =>
    if i + 1 < keys.length then
      match addr[i]?, encryptionType[i]?, keys[i]? with
      | some a, some t, some k =>
        let sealed : Option Bytes :=
          if t = "RSA" then EncodeAndEncryptRSA E.rsa E.gobRequest k (E.rand c) payload
          else some (EncodeAndEncryptAES E.aes E.gobRequest k (E.rand c) payload)
        match sealed with
        | none => none
        | some bytes =>
          generateSecurePayloadLoop E clientId keys addr encryptionType left (i + 1) (c + 1)
            { ClientId := clientId, NextAddr := a, Payload := bytes, EncryptionType := t }
      | _, _, _ => none
    else some (payload, c)

/-- The function `generateSecurePayload`; returns the request and the index of the
next draw. -/
def generateSecurePayload (E : Env) (c : Nat) (clientId : String) (initPayload : Bytes)
    (keys : List Bytes) (addr encryptionType : List String) :
    Option (STorGeneralRouterPackageRequest × Nat) :=
  match generateSecurePayloadLoop E clientId keys addr encryptionType keys.length 0 c
      { ClientId := clientId, NextAddr := "", Payload := initPayload, EncryptionType := "" } with
  | none => none
  | some (payload, c1) =>
    if keys.length = 0 then none
    else
      match encryptionType[keys.length - 1]?, keys[keys.length - 1]? with
      | some t, some k =>
        let sealed : Option Bytes :=
          if t = "RSA" then EncodeAndEncryptRSA E.rsa E.gobRequest k (E.rand c1) payload
          else some (EncodeAndEncryptAES E.aes E.gobRequest k (E.rand c1) payload)
        match sealed with
        | none => none
        | some bytes =>
          some ({ ClientId := clientId, Payload := bytes, EncryptionType := t }, c1 + 1)
      | _, _ => none

/-- The reply-checking loop of `SendSecurePayload`: `left` iterations remain, the
next key is `sharedKeys[i]`. -/
def checkInitReply (E : Env) (sharedKeys : List Bytes) : Nat → Nat → Bytes → Outcome Unit
  | 0, _, _ => .ok ()
  | left + 1, i, payload =>
    match sharedKeys[i]? with
    | none => .fault
    | some key =>
      match DecodeAndDecryptAES E.aes E.gobReply key payload with
      | none => .fault
      | some routerReply =>
        if !routerReply.DidSucceed then .err routerReply.ErrMsg
        else if routerReply.Payload ≠ [] then
          checkInitReply E sharedKeys left (i + 1) routerReply.Payload
        else .ok ()

/-- The function `SendSecurePayload`: one `Init` call on the connection to the guard
at `guard`, then the check of the layered reply. -/
def SendSecurePayload (E : Env) (fuel : Nat) (net : Net) (guard : String) (addr : List String)
    (sharedKeys : List Bytes) (generalRequest : STorGeneralRouterPackageRequest) :
    Option (Net × Outcome Unit) :=
  if net.isDown guard then some (net, .err "connection is shut down")
  else
    match RouterRPCListener.Init E fuel net guard generalRequest with
    | none => none
    | some (net1, .ok errPayload) =>
      some (net1, checkInitReply E sharedKeys addr.length 0 errPayload.Payload)
    | some (net1, .err msg) => some (net1, .err msg)
    | some (net1, .fault) => some (net1, .err "unexpected EOF")

/-- The function `constructCircuit` on the connection to the guard `routers[0]`.
The index of the client's next random draw is kept in `net.draws`.  An index out
of range and a public key that does not parse are panics. -/
def constructCircuit (E : Env) (fuel : Nat) (net : Net) (sharedKeys : List Bytes)
    (routers : List Router) (clientId : String) : Option (Net × Outcome Unit) :=
  match routers[0]?, sharedKeys[0]? with
  | some R0, some k0 =>
    match generateSecurePayload E net.draws clientId k0 [R0.PublicKey] [] ["RSA"] with
    | none => some (net, .fault)
    | some (payload1, c1) =>
      match SendSecurePayload E fuel { net with draws := c1 } R0.Addr [] sharedKeys payload1 with
      | none => none
      | some (net1, .ok _) =>
        match routers[1]?, sharedKeys[1]? with
        | some R1, some k1 =>
          match generateSecurePayload E net1.draws clientId k1 [R1.PublicKey, k0] [R1.Addr]
              ["RSA", "AES"] with
          | none => some (net1, .fault)
          | some (payload2, c2) =>
            match SendSecurePayload E fuel { net1 with draws := c2 } R0.Addr [R1.Addr]
                sharedKeys payload2 with
            | none => none
            | some (net2, .ok _) =>
              match routers[2]?, sharedKeys[2]? with
              | some R2, some k2 =>
                match generateSecurePayload E net2.draws clientId k2 [R2.PublicKey, k1, k0]
                    [R2.Addr, R1.Addr] ["RSA", "AES", "AES"] with
                | none => some (net2, .fault)
                | some (payload3, c3) =>
                  SendSecurePayload E fuel { net2 with draws := c3 } R0.Addr
                    [R2.Addr, R1.Addr] sharedKeys payload3
              | _, _ => some (net2, .fault)
            | some (net2, out) => some (net2, out)
        | _, _ => some (net1, .fault)
      | some (net1, out) => some (net1, out)
  | _, _ => some (net, .fault)

/-- The shared-key entry for `clientId` held by the process listening at `addr`. -/
def Net.sharedKey (net : Net) (addr clientId : String) : Option SharedKey :=
  (net.routers addr).bind (fun r => r.SharedKeyMap.lookup clientId)

/-- The active-circuit counter of the process listening at `addr`. -/
def Net.activeCircuits (net : Net) (addr : String) : Option Nat :=
  (net.routers addr).map (fun r => r.NumOfActiveCircuits)

/-- The function `constructTeardownMessage`. -/
def constructTeardownMessage (E : Env) (c : Nat) (sharedKeys : List Bytes)
    (routers : List Router) (payload : Bytes) (clientId : String) :
    Option (STorGeneralRouterPackageRequest × Nat) :=
  match sharedKeys[2]?, sharedKeys[1]?, sharedKeys[0]?, routers[2]?, routers[1]? with
  | some k2, some k1, some k0, some R2, some R1 =>
    generateSecurePayload E c clientId payload [k2, k1, k0] [R2.Addr, R1.Addr]
      ["AES", "AES", "AES"]
  | _, _, _, _, _ => none

/-- The state of a router process once the ASYM branch of `Init` has stored the key
`k` for `clientId` with deadline `ttl` and bumped the counter. -/
def router.Router.withKey (r : router.Router) (clientId : String) (k : Bytes) (ttl : Nat) :
    router.Router :=
  { r with
    SharedKeyMap := r.SharedKeyMap.set clientId ⟨k, ttl⟩,
    NumOfActiveCircuits := (r.NumOfActiveCircuits + 1) % uint64Mod }

/-- The request the client seals for the router that is to learn the key `k`. -/
def keyRequest (clientId : String) (k : Bytes) : STorEncryptedRouterRequest :=
  { ClientId := clientId, NextAddr := "", Payload := k, EncryptionType := "" }

/-- A router process with an empty key table and a zero counter. -/
def sampleRouter (id : Int) (prk : PrivateKey) : router.Router :=
  { RouterId := id, PrivateKey := prk, SharedKeyMap := [], NumOfActiveCircuits := 0,
    crashed := false }

/-- Three router processes, at the addresses `r1:1`, `r2:1` and `r3:1`. -/
def sampleNet : Net :=
  { routers := fun a =>
      if a = "r1:1" then some (sampleRouter 1 [1])
      else if a = "r2:1" then some (sampleRouter 2 [2])
      else if a = "r3:1" then some (sampleRouter 3 [3])
      else none,
    clock := 0, draws := 0 }

/-- The ring over the three processes of `sampleNet`. -/
def sampleRing : List Router := [⟨1, [1], "r1:1"⟩, ⟨2, [2], "r2:1"⟩, ⟨3, [3], "r3:1"⟩]

/-- The number of entries of `SharedKeyMap` at the process listening at `addr`. -/
def Net.numKeys (net : Net) (addr : String) : Option Nat :=
  (net.routers addr).map (fun r => r.SharedKeyMap.length)

/-! ## Coordinator (`coord/coord.go`) -/

/-- The struct `RouterInfo` of the coordinator. -/
structure RouterInfo where
  routerId : Int
  publicKey : Bytes
  clientListenAddr : String
  coordListenAddr : String
  oCheckAddr : String
  activeChainCount : Int
deriving DecidableEq, Repr

/-- The Go zero value. -/
instance : Inhabited RouterInfo := ⟨⟨0, [], "", "", "", 0⟩⟩

/-- The struct `STorRouterJoinRequest` without its tracing token. -/
structure STorRouterJoinRequest where
  Id : Int
  PublicKey : Bytes
  ClientListenAddr : String
  CoordListenAddr : String
  OCheckAddr : String
deriving DecidableEq, Repr

/-- The coordinator state the RPC handlers and the two consumers act on.  The Go
slice `c.Routers` is `Routers`, its `len` elements, together with `spare`, the
cells of its backing array between `len` and `cap` (a slice expression
`c.Routers[0:3]` may reach into them). -/
structure Coord where
  Routers : List RouterInfo
  spare : List RouterInfo
  RoutersReady : Bool
deriving DecidableEq, Repr

/-- The state `NewCoord` builds: `Routers: []RouterInfo{}` and `RoutersReady: false`. -/
def NewCoord : Coord := { Routers := [], spare := [], RoutersReady := false }

/-- The function `RouterAlreadyExists`; `bytes.Compare(a, b) == 0` is equality of
the byte strings. -/
def RouterAlreadyExists : List RouterInfo → RouterInfo → Bool
  | [], _ => false
  | router :: routers, newRouter =>
    if router.publicKey = newRouter.publicKey then true
    else RouterAlreadyExists routers newRouter

/-- The function `removeRouterInfo` on the elements of the slice: the first entry
with the id is cut out by `append(routers[0:i], routers[i+1:]...)`. -/
def removeRouterInfo : List RouterInfo → Int → List RouterInfo
  | [], _ => []
  | v :: routers, id => if v.routerId = id then routers else v :: removeRouterInfo routers id

/-- The function `routerIds`. -/
def routerIds (routers : List RouterInfo) : List Int := routers.map (fun x => x.routerId)

/-- The capacity `append` gives the backing array of `c.Routers` when a slice that
is full has to hold `needed` elements: Go doubles the capacity of a small slice
(one cell for the first element). -/
def goGrowCap (needed : Nat) : Nat := if needed ≤ 1 then 1 else 2 * (needed - 1)

/-- Go `append(c.Routers, newRouter)`: the element goes into the first spare cell
of the backing array, or, when there is none, into a fresh array of capacity
`growCap (len + 1)` whose other cells hold the zero value. -/
def Coord.append (growCap : Nat → Nat) (c : Coord) (newRouter : RouterInfo) : Coord :=
  match c.spare with
  | [] =>
    { c with
      Routers := c.Routers ++ [newRouter],
      spare := List.replicate (growCap (c.Routers.length + 1) - (c.Routers.length + 1)) default }
  | _ :: rest => { c with Routers := c.Routers ++ [newRouter], spare := rest }

/-- The handler `CoordRPCListener.RegisterRouter`. -/
def RegisterRouter (growCap : Nat → Nat) (c : Coord) (request : STorRouterJoinRequest) :
    Coord × Outcome Unit :=
  let newRouter : RouterInfo :=
    { routerId := request.Id, publicKey := request.PublicKey,
      clientListenAddr := request.ClientListenAddr, coordListenAddr := request.CoordListenAddr,
      oCheckAddr := request.OCheckAddr, activeChainCount := 0 }
  if RouterAlreadyExists c.Routers newRouter then
    (c, .err "router already exists in directory")
  else
    let c1 := c.append growCap newRouter
    if 3 ≤ c1.Routers.length then ({ c1 with RoutersReady := true }, .ok ())
    else (c1, .ok ())

/-- One iteration of `Coord.handleRouterFailures`, for a `FailureDetected` with the
router id `failedRouterId`.  When an entry is cut out, the elements after it move
down one cell and the cell at the old last index keeps its content, now beyond
`len`. -/
def handleRouterFailures (c : Coord) (failedRouterId : Int) : Coord :=
  if c.Routers.any (fun v => v.routerId = failedRouterId) then
    { c with
      Routers := removeRouterInfo c.Routers failedRouterId,
      spare := c.Routers.getLast?.toList ++ c.spare }
  else c

/-- The `for` loop of `Coord.updateActiveChainCounts` over the registry. -/
def updateCount : List RouterInfo → Int → Int → List RouterInfo
  | [], _, _ => []
  | r :: routers, id, n =>
    if r.routerId = id then
      (if r.activeChainCount ≠ n then { r with activeChainCount := n } else r) :: routers
    else r :: updateCount routers id n

/-- One iteration of `Coord.updateActiveChainCounts`, for a `RouterCircuitCount`. -/
def updateActiveChainCounts (c : Coord) (routerId : Int) (activeChainCount : Int) : Coord :=
  { c with Routers := updateCount c.Routers routerId activeChainCount }

/-- One call of `rand.Shuffle(len(c.Routers), swap)`: its outcome is a permutation
of the slice. -/
structure Shuffle where
  /-- The slice after the call. -/
  shuffle : List RouterInfo → List RouterInfo
  /-- It rearranges the elements. -/
  perm : ∀ l, (shuffle l).Perm l

/-- The call `sort.Slice(c.Routers, less)` with `less` comparing
`activeChainCount`: the slice is rearranged so that no element is less than one
before it.  The sort is not stable. -/
structure SortSlice where
  /-- The slice after the call. -/
  sort : List RouterInfo → List RouterInfo
  /-- It rearranges the elements. -/
  perm : ∀ l, (sort l).Perm l
  /-- The result is in ascending order of `activeChainCount`. -/
  sorted : ∀ l, (sort l).Pairwise (fun a b => a.activeChainCount ≤ b.activeChainCount)

/-- The ring entry `createOnionRing` makes of a registry entry. -/
def RouterInfo.toRouter (routerInfo : RouterInfo) : Router :=
  { RouterId := routerInfo.routerId, PublicKey := routerInfo.publicKey,
    Addr := routerInfo.clientListenAddr }

/-- The method `Coord.createOnionRing`: the registry is shuffled and sorted in
place and the ring is made of `c.Routers[0:3]`.  The slice expression panics
(`none`) when the capacity is below 3, and reaches into the spare cells when only
the length is. -/
def createOnionRing (sh : Shuffle) (S : SortSlice) (c : Coord) : Option (Coord × List Router) :=
  let routers := S.sort (sh.shuffle c.Routers)
  if (routers ++ c.spare).length < 3 then none
  else some ({ c with Routers := routers }, ((routers ++ c.spare).take 3).map RouterInfo.toRouter)

/-- The result of one call of `CoordRPCListener.GetOnionRing`. -/
inductive RingResult where
  /-- The call waits on `RoutersReadyCond`. -/
  | blocked
  /-- The call panics. -/
  | fault
  /-- The call returns this ring and leaves the coordinator in this state. -/
  | ring (c : Coord) (onionRing : List Router)
deriving DecidableEq, Repr

/-- The handler `CoordRPCListener.GetOnionRing`. -/
def GetOnionRing (sh : Shuffle) (S : SortSlice) (c : Coord) : RingResult :=
  if !c.RoutersReady then .blocked
  else
    match createOnionRing sh S c with
    | none => .fault
    | some (c1, onionRing) => .ring c1 onionRing

/-- One step of the coordinator. -/
inductive CoordEvent where
  /-- A `RegisterRouter` call. -/
  | register (request : STorRouterJoinRequest)
  /-- A `FailureDetected` notification consumed by `handleRouterFailures`. -/
  | failure (routerId : Int)
  /-- A `RouterCircuitCount` consumed by `updateActiveChainCounts`. -/
  | count (routerId : Int) (activeChainCount : Int)
  /-- A `GetOnionRing` call with the outcome of its shuffle and its sort. -/
  | getRing (sh : Shuffle) (S : SortSlice)

/-- The state after one step; a `GetOnionRing` call that does not return leaves
the state as it is. -/
def Coord.step (growCap : Nat → Nat) (c : Coord) : CoordEvent → Coord
  | .register request => (RegisterRouter growCap c request).1
  | .failure routerId => handleRouterFailures c routerId
  | .count routerId n => updateActiveChainCounts c routerId n
  | .getRing sh S =>
    match GetOnionRing sh S c with
    | .ring c1 _ => c1
    | _ => c

/-- The state reached from `NewCoord` by a sequence of steps. -/
def Coord.run (growCap : Nat → Nat) (events : List CoordEvent) : Coord :=
  events.foldl (Coord.step growCap) NewCoord

/-- The order `sort.Slice` establishes. -/
def accLe (a b : RouterInfo) : Prop := a.activeChainCount ≤ b.activeChainCount

instance : DecidableRel accLe := fun a b => Int.decLe a.activeChainCount b.activeChainCount

instance : IsTotal RouterInfo accLe := ⟨fun a b => Int.le_total a.activeChainCount b.activeChainCount⟩

instance : IsTrans RouterInfo accLe := ⟨fun _ _ _ h1 h2 => Int.le_trans h1 h2⟩

/-- Insertion sort, which is what `sort.Slice` runs on a slice of at most twelve
elements. -/
def insertionSortSlice : SortSlice where
  sort := List.insertionSort accLe
  perm := fun l => List.perm_insertionSort accLe l
  sorted := fun l => List.sorted_insertionSort accLe l

/-- The shuffle that leaves the slice as it is. -/
def idShuffle : Shuffle where
  shuffle := id
  perm := fun l => List.Perm.refl l

/-- The shuffle that reverses the slice. -/
def reverseShuffle : Shuffle where
  shuffle := List.reverse
  perm := fun l => List.reverse_perm l

/-- A join request of the router `id` with the one-byte public key `[id]`. -/
def sampleJoin (id : Nat) : STorRouterJoinRequest :=
  { Id := id, PublicKey := [id], ClientListenAddr := "r:c", CoordListenAddr := "r:d",
    OCheckAddr := "r:o" }

/-- The registry entry `RegisterRouter` makes of `sampleJoin id`. -/
def sampleInfo (id : Nat) : RouterInfo :=
  { routerId := id, publicKey := [id], clientListenAddr := "r:c", coordListenAddr := "r:d",
    oCheckAddr := "r:o", activeChainCount := 0 }

/-! ## The RSA helpers of `util/rsa.go` -/

/-- The function `GenerateRSAKeyPair`; `generated` is what `rsa.GenerateKey` yields,
`none` when it returns an error. -/
def GenerateRSAKeyPair (rsa : RsaLib) (generated : Option PrivateKey) :
    Option (PrivateKey × PublicKey) :=
  generated.map (fun privateKey => (privateKey, rsa.publicOf privateKey))

/-- The function `EncryptRSA`; a Go string is its bytes, and `none` is the error
return. -/
def EncryptRSA (rsa : RsaLib) (publicKey : PublicKey) (seed : Block) (content : Bytes) :
    Option Bytes :=
  rsa.encryptOAEP publicKey seed content

/-- The function `DecryptRSA`: `privateKey.Decrypt` with OAEP options is
`rsa.DecryptOAEP`; `none` is the error return. -/
def DecryptRSA (rsa : RsaLib) (privateKey : PrivateKey) (ciphertext : Bytes) : Option Bytes :=
  rsa.decryptOAEP privateKey ciphertext

/-! ## A circuit in place -/

/-- The exit reply of `Send` for what the web returned. -/
def exitReply : HttpResult → STorRouterReply
  | .getErr => errReply "Unable to contact the web server."
  | .readErr => errReply "Unable to read http response."
  | .body body => webReply body

/-- The overlay of `sampleNet` at time 200 with the circuit of the client `c` in
place (router `i` holds the key `sampleKey i` with deadline 300 and counts one
circuit), an entry of the client `old` with deadline 100 at router 1, and no
process at the address `down`. -/
def keyedNet (down : String) : Net :=
  { routers := fun a =>
      if a = down then none
      else if a = "r1:1" then
        some ⟨1, [1], [("c", ⟨sampleKey 1, 300⟩), ("old", ⟨sampleKey 9, 100⟩)], 2, false⟩
      else if a = "r2:1" then some ⟨2, [2], [("c", ⟨sampleKey 2, 300⟩)], 1, false⟩
      else if a = "r3:1" then some ⟨3, [3], [("c", ⟨sampleKey 3, 300⟩)], 1, false⟩
      else none,
    clock := 200, draws := 0 }

/-! ## Heartbeat monitor (`oCheck/ocheck.go`) -/

/-- The struct `HBeatMessage`. -/
structure HBeatMessage where
  EpochNonce : Nat
  SeqNum : Nat
deriving DecidableEq, Repr

/-- The struct `AckMessage`. -/
structure AckMessage where
  HBEatEpochNonce : Nat
  HBEatSeqNum : Nat
  HBEatNumCircuits : Nat
deriving DecidableEq, Repr

/-- What a monitor puts on its channels: a `FailureDetected` on the failure channel
or a `RouterCircuitCount` on the circuit channel. -/
inductive MonitorOutput where
  /-- The struct `FailureDetected{RouterId, Timestamp}`. -/
  | failureDetected (routerId : Int) (timestamp : Int)
  /-- The struct `RouterCircuitCount{RouterId, ActiveChainCount}`. -/
  | circuitCount (routerId : Int) (activeChainCount : Int)
deriving DecidableEq, Repr

/-- Whether an output is a `FailureDetected`. -/
def MonitorOutput.isFailure : MonitorOutput → Bool
  | .failureDetected _ _ => true
  | .circuitCount _ _ => false

/-- The value an `int64` holds after an operation whose exact result is `x`; also the
conversion of a `uint64` to `int`. -/
def wrapInt64 (x : Int) : Int := (x + 2 ^ 63) % 2 ^ 64 - 2 ^ 63

/-- The saturation of `time.Time.Sub` to the range of a `time.Duration`. -/
def satInt64 (x : Int) : Int :=
  if x < -(2 ^ 63) then -(2 ^ 63) else if 2 ^ 63 - 1 < x then 2 ^ 63 - 1 else x

/-- The call `time.Since(t)` at the time `now`, in nanoseconds. -/
def timeSince (now t : Int) : Int := satInt64 (now - t)

/-- One second as a `time.Duration`. -/
def oneSecond : Int := 1000000000

/-- The constant `minRtt` of `handleSendingHBeats`: 300 milliseconds. -/
def minRtt : Int := 300000000

/-- The function `calculateNewRtt`, called at the time `now`: the sum is an `int64`
sum and the division truncates. -/
def calculateNewRtt (now startTime prevRTT : Int) : Int :=
  Int.tdiv (wrapInt64 (prevRTT + timeSince now startTime)) 2

/-- Go `map[uint64]time.Time`, as an association list. -/
abbrev HeartBeatHistory := List (Nat × Int)

/-- Go `m[k] = v`. -/
def HeartBeatHistory.set (m : HeartBeatHistory) (k : Nat) (v : Int) : HeartBeatHistory :=
  (k, v) :: m.filter (fun e => e.1 != k)

/-- Go `delete(m, k)`. -/
def HeartBeatHistory.delete (m : HeartBeatHistory) (k : Nat) : HeartBeatHistory :=
  m.filter (fun e => e.1 != k)

/-- The local variables of one run of `handleSendingHBeats`.  `inner` tells that
control is in the inner loop, waiting for the ack of the heartbeat `hbmsgSeqNum`
sent at `startTime`; `returned` tells that the function has returned. -/
structure Monitor where
  routerId : Int
  lostMsgThresh : Int
  epochNonce : Nat
  seqNum : Nat
  failedHB : Int
  rtt : Int
  nextHeartBeatWaitTime : Int
  heartBeatHistory : HeartBeatHistory
  hbmsgSeqNum : Nat
  startTime : Int
  oldRtt : Int
  inner : Bool
  returned : Bool
deriving DecidableEq, Repr

/-- The state in which `handleSendingHBeats` enters its loop; `epochNonce` is the
value drawn by `rand.Int31`. -/
def handleSendingHBeats (routerId lostMsgThresh : Int) (epochNonce : Nat) : Monitor :=
  { routerId := routerId, lostMsgThresh := lostMsgThresh, epochNonce := epochNonce,
    seqNum := 0, failedHB := 0, rtt := oneSecond, nextHeartBeatWaitTime := 0,
    heartBeatHistory := [], hbmsgSeqNum := 0, startTime := 0, oldRtt := oneSecond,
    inner := false, returned := false }

/-- The monitor `MonitorNewRouter` starts: the loss threshold is 3. -/
def MonitorNewRouter (routerId : Int) (epochNonce : Nat) : Monitor :=
  handleSendingHBeats routerId 3 epochNonce

/-- The result of `receiveAckMessage`. -/
inductive ReadResult where
  /-- It returns an error, a timeout or another one. -/
  | error (timeout : Bool)
  /-- It decodes this ack. -/
  | ack (ack : AckMessage)
deriving DecidableEq, Repr

/-- What the monitor meets next. -/
inductive MonitorInput where
  /-- The channel `LibraryStopped` is closed. -/
  | stop
  /-- A call of `receiveAckMessage` returning at the time `now`; when control has to
  pass the head of the outer loop first, the heartbeat is sent at the time `sent`. -/
  | read (sent now : Int) (result : ReadResult)
deriving DecidableEq, Repr

/-- The head of the outer loop of `handleSendingHBeats`, run at the time `now`: the
next heartbeat is numbered, recorded in `heartBeatHistory` and sent. -/
def Monitor.sendHBeat (m : Monitor) (now : Int) : Monitor :=
  { m with
    hbmsgSeqNum := m.seqNum,
    seqNum := (m.seqNum + 1) % uint64Mod,
    startTime := now,
    heartBeatHistory := m.heartBeatHistory.set m.seqNum now,
    oldRtt := m.rtt,
    inner := true }

/-- The statements after `break inner`. -/
def Monitor.breakInner (m : Monitor) (now : Int) : Monitor :=
  { m with
    inner := false,
    nextHeartBeatWaitTime := wrapInt64 (m.oldRtt - timeSince now m.startTime) }

/-- The time at which `time.Sleep(d)`, called at the time `now`, returns: the sleep
lasts its duration, and no time when the duration is not positive. -/
def sleepUntil (now d : Int) : Int := if 0 < d then now + d else now

/-- The time at which the error branch of the inner loop counts the miss, for a read
that returns at the time `now`: at once after a timeout, and after
`time.Sleep(oldRtt - time.Since(startTime))` after any other error. -/
def Monitor.missTime (m : Monitor) (now : Int) (timeout : Bool) : Int :=
  if timeout then now else sleepUntil now (wrapInt64 (m.oldRtt - timeSince now m.startTime))

/-- One pass of the body of the inner loop of `handleSendingHBeats`, for a read that
returns at the time `now`. -/
def Monitor.readAck (m : Monitor) (now : Int) : ReadResult → Monitor × List MonitorOutput
  | .error timeout =>
    let now1 := m.missTime now timeout
    let m1 := { m with failedHB := m.failedHB + 1 }
    if m1.failedHB = m1.lostMsgThresh then
      ({ m1 with returned := true }, [.failureDetected m.routerId now1])
    else (m1.breakInner now1, [])
  | .ack ack =>
    let out := [MonitorOutput.circuitCount m.routerId (wrapInt64 ack.HBEatNumCircuits)]
    if ack.HBEatEpochNonce = m.epochNonce then
      match m.heartBeatHistory.lookup ack.HBEatSeqNum with
      | some val =>
        let rtt1 := calculateNewRtt now val m.rtt
        let m1 :=
          { m with
            failedHB := 0,
            rtt := if rtt1 < minRtt then minRtt else rtt1,
            heartBeatHistory := m.heartBeatHistory.delete ack.HBEatSeqNum }
        if ack.HBEatSeqNum = m.hbmsgSeqNum then (m1.breakInner now, out) else (m1, out)
      | none => ({ m with failedHB := 0 }, out)
    else (m, out)

/-- One step of `handleSendingHBeats`. -/
def Monitor.step (m : Monitor) : MonitorInput → Monitor × List MonitorOutput
  | .stop => if m.returned then (m, []) else ({ m with returned := true }, [])
  | .read sent now result =>
    if m.returned then (m, [])
    else (if m.inner then m else m.sendHBeat sent).readAck now result

/-- The state after a sequence of steps and everything put on the channels. -/
def Monitor.run (m : Monitor) : List MonitorInput → Monitor × List MonitorOutput
  | [] => (m, [])
  | inp :: inputs =>
    let (m1, out1) := m.step inp
    let (m2, out2) := m1.run inputs
    (m2, out1 ++ out2)

/-- The number of failed reads at the end of a sequence of inputs since the last ack
that carries the epoch nonce `epochNonce`. -/
def trailingMisses (epochNonce : Nat) (inputs : List MonitorInput) : Nat :=
  inputs.foldl
    (fun n inp =>
      match inp with
      | .read _ _ (.error _) => n + 1
      | .read _ _ (.ack ack) => if ack.HBEatEpochNonce = epochNonce then 0 else n
      | .stop => n)
    0

/-- Three reads that time out, followed by a read that would return an ack. -/
def sampleMisses : List MonitorInput :=
  [.read 0 1000 (.error true), .read 1000 2000 (.error true), .read 2000 3000 (.error false),
    .read 3000 3500 (.ack ⟨7, 2, 5⟩)]

/-! ## Samples for the teardown and decoding cases -/

/-- The `Teardown` request the middle router of `keyedNet` gets for the client `c`:
sealed under its key, naming the exit `r3:1` as the next hop. -/
def sampleTeardownAtMiddle : STorGeneralRouterPackageRequest :=
  { ClientId := "c",
    Payload := EncodeAndEncryptAES sampleEnv.aes sampleEnv.gobRequest (sampleKey 2)
      (Block.const 0) ⟨"c", "r3:1", [], "AES"⟩,
    EncryptionType := "AES" }

/-- Sixteen zero bytes: under a valid AES key they open to the empty byte string,
which is no gob stream. -/
def zeroBlockPayload : Bytes := List.replicate 16 0

/-- Whether a handler returned a nil error. -/
def Outcome.isOk {α : Type} : Outcome α → Bool
  | .ok _ => true
  | _ => false

/-! ## Client: the teardown at the end of a request (`client/client.go`) -/

/-- The trace actions `Client.handler` records around the teardown of a circuit. -/
inductive ClientAction where
  /-- The action `CircuitTeardown{ClientId}`. -/
  | CircuitTeardown (ClientId : String)
  /-- The action `CircuitTeardownComplete{ClientId}`. -/
  | CircuitTeardownComplete (ClientId : String)
  /-- The action `CircuitTeardownFailed{ClientId, ErrMsg}`. -/
  | CircuitTeardownFailed (ClientId : String) (ErrMsg : String)
deriving DecidableEq, Repr

/-- The last part of `Client.handler`, from the record of `CircuitTeardown` to the
`break` that ends the handler's loop, on the connection to the guard at `guard`:
the state of the overlay afterwards, whether the handler panicked, and the actions
recorded, in order.  These are the only statements of the handler that record a
teardown action. -/
def handlerTeardown (E : Env) (fuel : Nat) (net : Net) (guard : String)
    (sharedKeys : List Bytes) (routers : List Router) (clientId : String) :
    Option (Net × Outcome Unit × List ClientAction) :=
  match constructTeardownMessage E net.draws sharedKeys routers [] clientId with
  | none => some (net, .fault, [.CircuitTeardown clientId])
  | some (teardownMessage, c) =>
    if net.isDown guard then
      some ({ net with draws := c }, .ok (),
        [.CircuitTeardown clientId,
          .CircuitTeardownFailed clientId "Cannot contact the Guard Router in teardown"])
    else
      match RouterRPCListener.Teardown E fuel { net with draws := c } guard teardownMessage with
      | none => none
      | some (net1, .ok errPayload) =>
        match deonionizeTeardownMessage E errPayload.Payload sharedKeys with
        | none => some (net1, .fault, [.CircuitTeardown clientId])
        | some (.error errMessage) =>
          some (net1, .ok (),
            [.CircuitTeardown clientId, .CircuitTeardownFailed clientId errMessage,
              .CircuitTeardownComplete clientId])
        | some (.ok _) =>
          some (net1, .ok (), [.CircuitTeardown clientId, .CircuitTeardownComplete clientId])
      | some (net1, _) =>
        some (net1, .ok (),
          [.CircuitTeardown clientId,
            .CircuitTeardownFailed clientId "Cannot contact the Guard Router in teardown"])

/-! ## Coordinator: removal, counts and ties (`coord/coord.go`) -/

/-- Three join requests of which the first two carry the router id 1 with different
public keys. -/
def sampleJoinsSharedId : List CoordEvent :=
  [.register (sampleJoin 1), .register { sampleJoin 2 with Id := 1 }, .register (sampleJoin 3)]

/-- The fields of a registry entry other than `activeChainCount`. -/
def RouterInfo.identity (v : RouterInfo) : Int × Bytes × String × String × String :=
  (v.routerId, v.publicKey, v.clientListenAddr, v.coordListenAddr, v.oCheckAddr)

/-- The call `sort.Slice(c.Routers, less)` as a comparison sort: besides what
`SortSlice` states, the sort reads the slice only through `less`, which compares
`activeChainCount`, and moves elements only by swapping; so replacing the elements
by others with the same counts replaces them in the result. -/
structure LessSort extends SortSlice where
  /-- The result depends on the elements only through their counts. -/
  natural : ∀ f : RouterInfo → RouterInfo,
    (∀ x, (f x).activeChainCount = x.activeChainCount) →
    ∀ l, sort (l.map f) = (sort l).map f

/-- Insertion sort as a comparison sort. -/
def insertionLessSort : LessSort where
  toSortSlice := insertionSortSlice
  natural := fun f hf l =>
    (List.map_insertionSort accLe accLe f l (fun a _ b _ => by
      show a.activeChainCount ≤ b.activeChainCount
        ↔ (f a).activeChainCount ≤ (f b).activeChainCount
      rw [hf a, hf b])).symm

/-- The call of `rand.Shuffle` whose outcome on a registry that `p` rearranges is the
arrangement `p`. -/
def shuffleTo (p : List RouterInfo) : Shuffle where
  shuffle := fun l => if p.Perm l then p else l
  perm := fun l => by
    show (if p.Perm l then p else l).Perm l
    by_cases h : p.Perm l
    · rw [if_pos h]; exact h
    · rw [if_neg h]

/-- Whether `createOnionRing` returns a ring that holds the router `a`. -/
def inRing (sh : Shuffle) (S : SortSlice) (c : Coord) (a : RouterInfo) : Bool :=
  match createOnionRing sh S c with
  | some (_, onionRing) => decide (a.toRouter ∈ onionRing)
  | none => false

/-- The number of outcomes of the shuffle, that is of arrangements of the registry,
for which `createOnionRing` returns a ring that holds the router `a`. -/
def ringCount (S : SortSlice) (c : Coord) (a : RouterInfo) : Nat :=
  (c.Routers.permutations.filter (fun p => inRing (shuffleTo p) S c a)).length

/-- A registry of four routers, the first with one active circuit and the others
with none. -/
def sampleTied : Coord :=
  { Routers := [{ sampleInfo 1 with activeChainCount := 1 }, sampleInfo 2, sampleInfo 3,
      sampleInfo 4],
    spare := [], RoutersReady := true }

/-! # Theorems -/

/-! ## The AES layer is invertible -/

theorem xorBytes_length (s ks : Bytes) : (xorBytes s ks).length = min s.length ks.length := by
  simp [xorBytes]

theorem xorBytes_cancel (s ks : Bytes) (h : s.length ≤ ks.length) :
    xorBytes (xorBytes s ks) ks = s := by
  induction s generalizing ks with
  | nil => simp [xorBytes]
  | cons a s ih =>
    cases ks with
    | nil => simp at h
    | cons b ks =>
      have h1 : s.length ≤ ks.length := by simpa using h
      have := ih ks h1
      simp only [xorBytes] at this ⊢
      simp only [List.zipWith_cons_cons, List.cons.injEq]
      exact ⟨Nat.xor_cancel_right b a, this⟩

theorem cfbXORKeyStream_nil (dec : Bool) (blk : Block → Block) (n : Nat) (next : Block) :
    cfbXORKeyStream dec blk n next [] = [] := by
  cases n <;> simp [cfbXORKeyStream]

theorem cfbXORKeyStream_length (dec : Bool) (blk : Block → Block) (n : Nat) :
    ∀ (next : Block) (src : Bytes), src.length ≤ n →
      (cfbXORKeyStream dec blk n next src).length = src.length := by
  induction n with
  | zero => intro next src h; simp at h; subst h; simp [cfbXORKeyStream]
  | succ n ih =>
    intro next src h
    by_cases hs : src = []
    · subst hs; simp [cfbXORKeyStream]
    · simp only [cfbXORKeyStream, hs, if_false, List.length_append, xorBytes_length,
        List.length_take]
      have hpos : 0 < src.length := List.length_pos.mpr hs
      rw [ih _ _ (by simp only [List.length_drop]; omega)]
      have := (blk next).property
      simp only [List.length_drop]
      omega

theorem cfbXORKeyStream_roundtrip (blk : Block → Block) (n : Nat) :
    ∀ (m : Nat) (next : Block) (src : Bytes), src.length ≤ n → src.length ≤ m →
      cfbXORKeyStream true blk m next (cfbXORKeyStream false blk n next src) = src := by
  induction n with
  | zero =>
    intro m next src h _
    simp at h; subst h
    simp [cfbXORKeyStream, cfbXORKeyStream_nil]
  | succ n ih =>
    intro m next src hn hm
    by_cases hs : src = []
    · subst hs; simp [cfbXORKeyStream, cfbXORKeyStream_nil]
    · have hpos : 0 < src.length := List.length_pos.mpr hs
      obtain ⟨m, rfl⟩ : ∃ k, m = k + 1 := ⟨m - 1, by omega⟩
      have hout := (blk next).property
      have hdlen : (xorBytes (src.take 16) (blk next).val).length = min src.length 16 := by
        simp only [xorBytes_length, List.length_take]; omega
      have hsplit : (xorBytes (src.take 16) (blk next).val ++
            cfbXORKeyStream false blk n (next.overwrite (xorBytes (src.take 16) (blk next).val))
              (src.drop 16)).take 16 = xorBytes (src.take 16) (blk next).val ∧
          (xorBytes (src.take 16) (blk next).val ++
            cfbXORKeyStream false blk n (next.overwrite (xorBytes (src.take 16) (blk next).val))
              (src.drop 16)).drop 16 =
            cfbXORKeyStream false blk n (next.overwrite (xorBytes (src.take 16) (blk next).val))
              (src.drop 16) := by
        by_cases h16 : 16 ≤ src.length
        · have hl : (xorBytes (src.take 16) (blk next).val).length = 16 := by omega
          constructor
          · rw [List.take_append_of_le_length (by omega)]
            exact List.take_of_length_le (by omega)
          · rw [List.drop_append_of_le_length (by omega)]
            rw [List.drop_of_length_le (by omega)]; simp
        · have hd : src.drop 16 = [] := List.drop_of_length_le (by omega)
          rw [hd, cfbXORKeyStream_nil, List.append_nil]
          exact ⟨List.take_of_length_le (by omega), List.drop_of_length_le (by omega)⟩
      have hne : xorBytes (src.take 16) (blk next).val ++
            cfbXORKeyStream false blk n (next.overwrite (xorBytes (src.take 16) (blk next).val))
              (src.drop 16) ≠ [] := by
        intro h
        have := congrArg List.length h
        simp only [List.length_append, hdlen, List.length_nil] at this
        omega
      simp only [cfbXORKeyStream, hs, Bool.false_eq_true, if_false, if_true, hne, hsplit.1, hsplit.2]
      rw [xorBytes_cancel _ _ (by simp only [List.length_take]; omega)]
      rw [ih m _ _ (by simp only [List.length_drop]; omega) (by simp only [List.length_drop]; omega)]
      exact List.take_append_drop 16 src

/-- For a key `aes.NewCipher` accepts, `DecryptAES` undoes `EncryptAES`, whatever
the IV and whatever the block function. -/
theorem DecryptAES_EncryptAES (aes : Bytes → Block → Block) (key : Bytes) (iv : Block)
    (msg : Bytes) (hk : validAESKey key = true) :
    DecryptAES aes key (EncryptAES aes key iv msg) = some msg := by
  have hiv := iv.property
  have hlen : (cfbXORKeyStream false (aes key) msg.length iv msg).length = msg.length :=
    cfbXORKeyStream_length _ _ _ _ _ (le_refl _)
  have h16 : 16 ≤ (iv.val ++ cfbXORKeyStream false (aes key) msg.length iv msg).length := by
    simp only [List.length_append]; omega
  have htake : (iv.val ++ cfbXORKeyStream false (aes key) msg.length iv msg).take 16 = iv.val := by
    rw [List.take_append_of_le_length (by omega)]
    exact List.take_of_length_le (by omega)
  have hdrop : (iv.val ++ cfbXORKeyStream false (aes key) msg.length iv msg).drop 16 =
      cfbXORKeyStream false (aes key) msg.length iv msg := by
    rw [List.drop_append_of_le_length (by omega)]
    rw [List.drop_of_length_le (by omega)]; simp
  simp only [DecryptAES, EncryptAES, hk, if_true, h16, dite_true, Option.some.injEq]
  simp only [hdrop, hlen, htake, Subtype.coe_eta]
  exact cfbXORKeyStream_roundtrip _ _ _ _ _ (le_refl _) (le_refl _)

theorem DecodeAndDecryptAES_EncodeAndEncryptAES {α : Type} [Inhabited α]
    (aes : Bytes → Block → Block) (g : Gob α) (key : Bytes) (iv : Block) (v : α)
    (hk : validAESKey key = true) :
    DecodeAndDecryptAES aes g key (EncodeAndEncryptAES aes g key iv v) = some v := by
  simp [DecodeAndDecryptAES, EncodeAndEncryptAES, DecryptAES_EncryptAES _ _ _ _ hk, Decode,
    g.decode_encode]

theorem validAESKey_of_length {key : Bytes} (h : key.length = 16) : validAESKey key = true := by
  simp [validAESKey, h]

/-! ## C1, C2: the onion layers -/

/-- C1: for 16-byte keys `k0`, `k1`, `k2` and every body `B`, when the exit router
seals `RouterReply{Payload: B, IsWebServer: true, DidSucceed: true}` with `k2`, the
middle router seals the exit's bytes as a relay reply with `k1` and the guard does
the same with `k0`, `deonionizeMessage` on the guard's bytes with `[k0, k1, k2]`
returns `B` and no error.  The return happens in the third iteration: two
iterations of the loop fall through, and only the third layer opened carries
`IsWebServer = true`. -/
theorem deonionizeMessage_three_layers (E : Env) (k0 k1 k2 B : Bytes) (iv0 iv1 iv2 : Block)
    (h0 : k0.length = 16) (h1 : k1.length = 16) (h2 : k2.length = 16) :
    deonionizeMessage E
        (EncodeAndEncryptAES E.aes E.gobReply k0 iv0 (relayReply
          (EncodeAndEncryptAES E.aes E.gobReply k1 iv1 (relayReply
            (EncodeAndEncryptAES E.aes E.gobReply k2 iv2 (webReply B))))))
        [k0, k1, k2] = some (.ok B) ∧
      deonionizeLoop E [k0, k1, k2] 2 0
        (EncodeAndEncryptAES E.aes E.gobReply k0 iv0 (relayReply
          (EncodeAndEncryptAES E.aes E.gobReply k1 iv1 (relayReply
            (EncodeAndEncryptAES E.aes E.gobReply k2 iv2 (webReply B))))))
        = some (.error "Something went horribly wrong.") ∧
      (DecodeAndDecryptAES E.aes E.gobReply k0
        (EncodeAndEncryptAES E.aes E.gobReply k0 iv0 (relayReply
          (EncodeAndEncryptAES E.aes E.gobReply k1 iv1 (relayReply
            (EncodeAndEncryptAES E.aes E.gobReply k2 iv2 (webReply B))))))).map
              (fun r => r.IsWebServer) = some false ∧
      (DecodeAndDecryptAES E.aes E.gobReply k1
          (EncodeAndEncryptAES E.aes E.gobReply k1 iv1 (relayReply
            (EncodeAndEncryptAES E.aes E.gobReply k2 iv2 (webReply B))))).map
              (fun r => r.IsWebServer) = some false ∧
      (DecodeAndDecryptAES E.aes E.gobReply k2
            (EncodeAndEncryptAES E.aes E.gobReply k2 iv2 (webReply B))).map
              (fun r => r.IsWebServer) = some true := by
  have v0 := validAESKey_of_length h0
  have v1 := validAESKey_of_length h1
  have v2 := validAESKey_of_length h2
  simp [deonionizeMessage, deonionizeLoop, DecodeAndDecryptAES_EncodeAndEncryptAES, v0, v1, v2,
    relayReply, webReply]

/-- C1 at a concrete input: three distinct keys and the body `[104, 105]`. -/
theorem deonionizeMessage_three_layers_witness :
    (sampleKey 1).length = 16 ∧ (sampleKey 2).length = 16 ∧ (sampleKey 3).length = 16 ∧
    deonionizeMessage sampleEnv
        (EncodeAndEncryptAES sampleEnv.aes sampleEnv.gobReply (sampleKey 1) (Block.const 7)
          (relayReply
            (EncodeAndEncryptAES sampleEnv.aes sampleEnv.gobReply (sampleKey 2) (Block.const 8)
              (relayReply
                (EncodeAndEncryptAES sampleEnv.aes sampleEnv.gobReply (sampleKey 3)
                  (Block.const 9) (webReply [104, 105]))))))
        [sampleKey 1, sampleKey 2, sampleKey 3] = some (.ok [104, 105]) :=
  ⟨rfl, rfl, rfl,
    (deonionizeMessage_three_layers sampleEnv (sampleKey 1) (sampleKey 2) (sampleKey 3)
      [104, 105] (Block.const 7) (Block.const 8) (Block.const 9) rfl rfl rfl).1⟩

/-- C2: for every ring `[R0, R1, R2]`, 16-byte keys `[k0, k1, k2]` and HTTP tunnel
request `msg`, `onionizeMessage` builds an onion that peels one symmetric layer per
hop: opening `Onion` with `k0` gives a request with `NextAddr = R1.Addr`; opening its
`Payload` with `k1` gives one with `NextAddr = R2.Addr`; opening that `Payload` with
`k2` gives one with `NextAddr = ""` whose `Payload` is `Encode(msg)`. -/
theorem onionizeMessage_peels (E : Env) (c : Nat) (msg : STorRouterHTTPRequest)
    (R0 R1 R2 : Router) (k0 k1 k2 : Bytes) (clientId : String)
    (h0 : k0.length = 16) (h1 : k1.length = 16) (h2 : k2.length = 16) :
    ∃ m l2 l1 l0,
      onionizeMessage E c msg [R0, R1, R2] [k0, k1, k2] clientId = some m ∧
      m.ClientId = clientId ∧
      DecodeAndDecryptAES E.aes E.gobRequest k0 m.Onion = some l2 ∧
      l2.NextAddr = R1.Addr ∧
      DecodeAndDecryptAES E.aes E.gobRequest k1 l2.Payload = some l1 ∧
      l1.NextAddr = R2.Addr ∧
      DecodeAndDecryptAES E.aes E.gobRequest k2 l1.Payload = some l0 ∧
      l0.NextAddr = "" ∧
      l0.Payload = E.gobHTTP.encode msg := by
  have v0 := validAESKey_of_length h0
  have v1 := validAESKey_of_length h1
  have v2 := validAESKey_of_length h2
  let l0 : STorEncryptedRouterRequest := ⟨"", "", E.gobHTTP.encode msg, ""⟩
  let l1 : STorEncryptedRouterRequest :=
    ⟨"", R2.Addr, EncodeAndEncryptAES E.aes E.gobRequest k2 (E.rand c) l0, ""⟩
  let l2 : STorEncryptedRouterRequest :=
    ⟨"", R1.Addr, EncodeAndEncryptAES E.aes E.gobRequest k1 (E.rand (c + 1)) l1, ""⟩
  refine ⟨⟨clientId, EncodeAndEncryptAES E.aes E.gobRequest k0 (E.rand (c + 2)) l2⟩, l2, l1, l0,
    rfl, rfl, ?_, ?_, ?_, ?_, ?_, ?_, ?_⟩
  · exact DecodeAndDecryptAES_EncodeAndEncryptAES _ _ _ _ _ v0
  · rfl
  · exact DecodeAndDecryptAES_EncodeAndEncryptAES _ _ _ _ _ v1
  · rfl
  · exact DecodeAndDecryptAES_EncodeAndEncryptAES _ _ _ _ _ v2
  · rfl
  · rfl

/-- C2 at a concrete input. -/
theorem onionizeMessage_peels_witness :
    (sampleKey 1).length = 16 ∧ (sampleKey 2).length = 16 ∧ (sampleKey 3).length = 16 ∧
    ∃ m l2 l1 l0,
      onionizeMessage sampleEnv 0 ⟨[], "GET", "http://example/view/", []⟩
        [⟨1, [1], "r1:1"⟩, ⟨2, [2], "r2:1"⟩, ⟨3, [3], "r3:1"⟩]
        [sampleKey 1, sampleKey 2, sampleKey 3] "c" = some m ∧
      m.ClientId = "c" ∧
      DecodeAndDecryptAES sampleEnv.aes sampleEnv.gobRequest (sampleKey 1) m.Onion = some l2 ∧
      l2.NextAddr = "r2:1" ∧
      DecodeAndDecryptAES sampleEnv.aes sampleEnv.gobRequest (sampleKey 2) l2.Payload = some l1 ∧
      l1.NextAddr = "r3:1" ∧
      DecodeAndDecryptAES sampleEnv.aes sampleEnv.gobRequest (sampleKey 3) l1.Payload = some l0 ∧
      l0.NextAddr = "" ∧
      l0.Payload = sampleEnv.gobHTTP.encode ⟨[], "GET", "http://example/view/", []⟩ :=
  ⟨rfl, rfl, rfl,
    onionizeMessage_peels sampleEnv 0 ⟨[], "GET", "http://example/view/", []⟩
      ⟨1, [1], "r1:1"⟩ ⟨2, [2], "r2:1"⟩ ⟨3, [3], "r3:1"⟩
      (sampleKey 1) (sampleKey 2) (sampleKey 3) "c" rfl rfl rfl⟩

theorem SharedKeyMap.lookup_set (m : SharedKeyMap) (k : String) (v : SharedKey) :
    (m.set k v).lookup k = some v := by
  simp [SharedKeyMap.set, List.lookup]

theorem SharedKeyMap.lookup_filter_ne (m : SharedKeyMap) (k k1 : String) (h : k1 ≠ k) :
    (m.filter (fun e => e.1 != k)).lookup k1 = m.lookup k1 := by
  induction m with
  | nil => rfl
  | cons e m ih =>
    obtain ⟨a, b⟩ := e
    by_cases ha : a = k
    · subst ha
      have : (k1 == a) = false := by simpa using h
      simp [List.filter, List.lookup, this, ih]
    · have h1 : (a != k) = true := by simpa using ha
      simp only [List.filter, h1, List.lookup]
      rw [ih]

theorem SharedKeyMap.lookup_filter_self (m : SharedKeyMap) (k : String) :
    (m.filter (fun e => e.1 != k)).lookup k = none := by
  induction m with
  | nil => rfl
  | cons e m ih =>
    obtain ⟨a, b⟩ := e
    by_cases ha : a = k
    · subst ha
      simp [List.filter, ih]
    · have h1 : (a != k) = true := by simpa using ha
      have h2 : (k == a) = false := by simpa using fun h : k = a => ha h.symm
      simp only [List.filter, h1, List.lookup, h2]
      exact ih

theorem SharedKeyMap.skOf_set (m : SharedKeyMap) (k : String) (v : SharedKey) :
    (m.set k v).skOf k = v.sk := by
  simp [SharedKeyMap.skOf, SharedKeyMap.lookup_set]

theorem EncodeAndEncryptRSA_marshal {α : Type} (rsa : RsaLib) (g : Gob α) (puk : PublicKey)
    (seed : Block) (v : α) :
    EncodeAndEncryptRSA rsa g (ConvertPublicKeyToBytes rsa puk) seed v =
      some (EncryptRSAPublic rsa puk seed (g.encode v)) := by
  simp [EncodeAndEncryptRSA, ConvertPublicKeyToBytes, rsa.unmarshal_marshal]

theorem DecodeAndDecryptRSA_EncryptRSAPublic {α : Type} [Inhabited α] (rsa : RsaLib) (g : Gob α)
    (prk : PrivateKey) (seed : Block) (v : α)
    (hfit : (rsa.encryptOAEP (rsa.publicOf prk) seed (g.encode v)).isSome = true) :
    DecodeAndDecryptRSA rsa g prk (EncryptRSAPublic rsa (rsa.publicOf prk) seed (g.encode v)) = v := by
  obtain ⟨c, hc⟩ := Option.isSome_iff_exists.mp hfit
  simp [DecodeAndDecryptRSA, EncryptRSAPublic, DecryptRSAPrivate, hc,
    rsa.decrypt_encrypt prk seed _ c hc, Decode, g.decode_encode]

theorem Init_rsa (E : Env) (fuel : Nat) (net : Net) (a : String) (r : router.Router)
    (req : STorGeneralRouterPackageRequest) (hr : net.routers a = some r)
    (ht : req.EncryptionType ≠ "AES") :
    RouterRPCListener.Init E (fuel + 1) net a req =
      some (⟨Function.update net.routers a (some
          { r with
            SharedKeyMap := r.SharedKeyMap.set req.ClientId
              ⟨(DecodeAndDecryptRSA E.rsa E.gobRequest r.PrivateKey req.Payload).Payload,
                net.clock + fiveMinutes⟩,
            NumOfActiveCircuits := (r.NumOfActiveCircuits + 1) % uint64Mod }),
          net.clock, net.draws + 1⟩,
        .ok ⟨EncodeAndEncryptAES E.aes E.gobReply
          (DecodeAndDecryptRSA E.rsa E.gobRequest r.PrivateKey req.Payload).Payload
          (E.rand net.draws) (okReply [])⟩) := by
  simp [RouterRPCListener.Init, hr, ht, Net.seal, SharedKeyMap.skOf_set, Net.put]

theorem Init_aes_relay (E : Env) (fuel : Nat) (net net1 : Net) (a : String)
    (r r1 : router.Router) (req : STorGeneralRouterPackageRequest)
    (args : STorEncryptedRouterRequest) (resp : STorGeneralRouterPackageResponse)
    (hr : net.routers a = some r) (ht : req.EncryptionType = "AES")
    (hopen : DecodeAndDecryptAES E.aes E.gobRequest (r.SharedKeyMap.skOf req.ClientId)
      req.Payload = some args)
    (hdial : net.dial args.NextAddr = some r1)
    (hnext : RouterRPCListener.Init E fuel net args.NextAddr
      ⟨args.ClientId, args.Payload, args.EncryptionType⟩ = some (net1, .ok resp))
    (hup : net1.isDown a = false) :
    RouterRPCListener.Init E (fuel + 1) net a req =
      some (⟨net1.routers, net1.clock, net1.draws + 1⟩,
        .ok ⟨EncodeAndEncryptAES E.aes E.gobReply (net1.skOf a req.ClientId)
          (E.rand net1.draws) (okReply resp.Payload)⟩) := by
  simp [RouterRPCListener.Init, hr, ht, hopen, hdial, hnext, hup, Net.seal]
theorem Net.dial_eq_some {net : Net} {addr : String} {r : router.Router}
    (h : net.dial addr = some r) :
    addr ≠ "" ∧ net.routers addr = some r ∧ r.crashed = false := by
  unfold Net.dial at h
  by_cases ha : addr = ""
  · simp [ha] at h
  · simp only [ha, if_false] at h
    cases hr : net.routers addr with
    | none => simp [hr] at h
    | some r1 =>
      simp only [hr] at h
      by_cases hc : r1.crashed = true
      · simp [hc] at h
      · simp only [hc, Bool.false_eq_true, if_false, Option.some.injEq] at h
        subst h
        exact ⟨ha, rfl, by simpa using hc⟩

theorem Net.dial_of {net : Net} {addr : String} {r : router.Router}
    (ha : addr ≠ "") (hr : net.routers addr = some r) (hc : r.crashed = false) :
    net.dial addr = some r := by
  simp [Net.dial, ha, hr, hc]

theorem Net.isDown_of {net : Net} {addr : String} {r : router.Router}
    (hr : net.routers addr = some r) (hc : r.crashed = false) :
    net.isDown addr = false := by
  simp [Net.isDown, hr, hc]

theorem checkInitReply_zero (E : Env) (keys : List Bytes) (i : Nat) (p : Bytes) :
    checkInitReply E keys 0 i p = .ok () := rfl

theorem checkInitReply_ok (E : Env) (keys : List Bytes) (left i : Nat) (key iv p : Bytes)
    (hiv : iv.length = 16)
    (hkey : keys[i]? = some key) (hv : validAESKey key = true)
    (hrest : checkInitReply E keys left (i + 1) p = .ok ()) :
    checkInitReply E keys (left + 1) i
      (EncodeAndEncryptAES E.aes E.gobReply key ⟨iv, hiv⟩ (okReply p)) = .ok () := by
  simp only [checkInitReply, hkey, DecodeAndDecryptAES_EncodeAndEncryptAES _ _ _ _ _ hv, okReply,
    Bool.not_true, Bool.false_eq_true, if_false, hrest]
  split <;> rfl

theorem generateSecurePayload_init1 (E : Env) (c : Nat) (clientId : String) (k0 : Bytes)
    (puk : PublicKey) :
    generateSecurePayload E c clientId k0 [ConvertPublicKeyToBytes E.rsa puk] [] ["RSA"] =
      some (⟨clientId, EncryptRSAPublic E.rsa puk (E.rand c)
        (E.gobRequest.encode (keyRequest clientId k0)), "RSA"⟩, c + 1) := by
  simp [generateSecurePayload, generateSecurePayloadLoop, EncodeAndEncryptRSA_marshal, keyRequest]

theorem generateSecurePayload_init2 (E : Env) (c : Nat) (clientId : String) (k0 k1 : Bytes)
    (puk : PublicKey) (a1 : String) :
    generateSecurePayload E c clientId k1 [ConvertPublicKeyToBytes E.rsa puk, k0] [a1]
        ["RSA", "AES"] =
      some (⟨clientId, EncodeAndEncryptAES E.aes E.gobRequest k0 (E.rand (c + 1))
        ⟨clientId, a1, EncryptRSAPublic E.rsa puk (E.rand c)
          (E.gobRequest.encode (keyRequest clientId k1)), "RSA"⟩, "AES"⟩, c + 2) := by
  simp [generateSecurePayload, generateSecurePayloadLoop, EncodeAndEncryptRSA_marshal, keyRequest]

theorem generateSecurePayload_init3 (E : Env) (c : Nat) (clientId : String) (k0 k1 k2 : Bytes)
    (puk : PublicKey) (a1 a2 : String) :
    generateSecurePayload E c clientId k2 [ConvertPublicKeyToBytes E.rsa puk, k1, k0] [a2, a1]
        ["RSA", "AES", "AES"] =
      some (⟨clientId, EncodeAndEncryptAES E.aes E.gobRequest k0 (E.rand (c + 2))
        ⟨clientId, a1, EncodeAndEncryptAES E.aes E.gobRequest k1 (E.rand (c + 1))
          ⟨clientId, a2, EncryptRSAPublic E.rsa puk (E.rand c)
            (E.gobRequest.encode (keyRequest clientId k2)), "RSA"⟩, "AES"⟩, "AES"⟩, c + 3) := by
  simp [generateSecurePayload, generateSecurePayloadLoop, EncodeAndEncryptRSA_marshal, keyRequest]

theorem generateSecurePayload_teardown (E : Env) (c : Nat) (clientId : String)
    (k0 k1 k2 payload : Bytes) (a1 a2 : String) :
    generateSecurePayload E c clientId payload [k2, k1, k0] [a2, a1] ["AES", "AES", "AES"] =
      some (⟨clientId, EncodeAndEncryptAES E.aes E.gobRequest k0 (E.rand (c + 2))
        ⟨clientId, a1, EncodeAndEncryptAES E.aes E.gobRequest k1 (E.rand (c + 1))
          ⟨clientId, a2, EncodeAndEncryptAES E.aes E.gobRequest k2 (E.rand c)
            ⟨clientId, "", payload, ""⟩, "AES"⟩, "AES"⟩, "AES"⟩, c + 3) := by
  simp [generateSecurePayload, generateSecurePayloadLoop]
theorem Init_rsa_key (E : Env) (fuel : Nat) (net : Net) (a : String) (r : router.Router)
    (clientId reqId : String) (k : Bytes) (seed : Block) (t : String)
    (hr : net.routers a = some r) (ht : t ≠ "AES")
    (hfit : (E.rsa.encryptOAEP (E.rsa.publicOf r.PrivateKey) seed
      (E.gobRequest.encode (keyRequest reqId k))).isSome = true) :
    RouterRPCListener.Init E (fuel + 1) net a
        ⟨clientId, EncryptRSAPublic E.rsa (E.rsa.publicOf r.PrivateKey) seed
          (E.gobRequest.encode (keyRequest reqId k)), t⟩ =
      some (⟨Function.update net.routers a
          (some (r.withKey clientId k (net.clock + fiveMinutes))), net.clock, net.draws + 1⟩,
        .ok ⟨EncodeAndEncryptAES E.aes E.gobReply k (E.rand net.draws) (okReply [])⟩) := by
  rw [Init_rsa E fuel net a r _ hr ht]
  have hdec := DecodeAndDecryptRSA_EncryptRSAPublic E.rsa E.gobRequest r.PrivateKey seed
    (keyRequest reqId k) hfit
  simp only [hdec]
  rfl

theorem SendSecurePayload_init1 (E : Env) (fuel : Nat) (net : Net) (a0 : String)
    (r0 : router.Router) (clientId : String) (k0 : Bytes) (seed : Block) (keys : List Bytes)
    (hd0 : net.dial a0 = some r0)
    (hfit : (E.rsa.encryptOAEP (E.rsa.publicOf r0.PrivateKey) seed
      (E.gobRequest.encode (keyRequest clientId k0))).isSome = true) :
    SendSecurePayload E (fuel + 1) net a0 [] keys
        ⟨clientId, EncryptRSAPublic E.rsa (E.rsa.publicOf r0.PrivateKey) seed
          (E.gobRequest.encode (keyRequest clientId k0)), "RSA"⟩ =
      some (⟨Function.update net.routers a0
          (some (r0.withKey clientId k0 (net.clock + fiveMinutes))), net.clock, net.draws + 1⟩,
        .ok ()) := by
  obtain ⟨_, hr0, hc0⟩ := Net.dial_eq_some hd0
  have hne : ("RSA" : String) ≠ "AES" := by decide
  simp only [SendSecurePayload, Net.isDown_of hr0 hc0, Bool.false_eq_true, if_false]
  rw [Init_rsa_key E fuel net a0 r0 clientId clientId k0 seed "RSA" hr0 hne hfit]
  simp only [List.length_nil, checkInitReply_zero]

theorem SendSecurePayload_init2 (E : Env) (fuel : Nat) (net : Net) (a0 a1 : String)
    (r0 r1 : router.Router) (clientId : String) (k0 k1 k2 : Bytes) (seed iv : Block)
    (hd0 : net.dial a0 = some r0) (hd1 : net.dial a1 = some r1) (h01 : a0 ≠ a1)
    (hk0 : validAESKey k0 = true)
    (hsk0 : r0.SharedKeyMap.skOf clientId = k0)
    (hfit : (E.rsa.encryptOAEP (E.rsa.publicOf r1.PrivateKey) seed
      (E.gobRequest.encode (keyRequest clientId k1))).isSome = true) :
    SendSecurePayload E (fuel + 2) net a0 [a1] [k0, k1, k2]
        ⟨clientId, EncodeAndEncryptAES E.aes E.gobRequest k0 iv
          ⟨clientId, a1, EncryptRSAPublic E.rsa (E.rsa.publicOf r1.PrivateKey) seed
            (E.gobRequest.encode (keyRequest clientId k1)), "RSA"⟩, "AES"⟩ =
      some (⟨Function.update net.routers a1
          (some (r1.withKey clientId k1 (net.clock + fiveMinutes))), net.clock, net.draws + 2⟩,
        .ok ()) := by
  obtain ⟨_, hr0, hc0⟩ := Net.dial_eq_some hd0
  obtain ⟨_, hr1, hc1⟩ := Net.dial_eq_some hd1
  have hne : ("RSA" : String) ≠ "AES" := by decide
  simp only [SendSecurePayload, Net.isDown_of hr0 hc0, Bool.false_eq_true, if_false]
  have hin := Init_rsa_key E fuel net a1 r1 clientId clientId k1 seed "RSA" hr1 hne hfit
  have hup : Function.update net.routers a1
      (some (r1.withKey clientId k1 (net.clock + fiveMinutes))) a0 = some r0 := by
    rw [Function.update_noteq h01]; exact hr0
  rw [Init_aes_relay E (fuel + 1) net _ a0 r0 r1
    ⟨clientId, _, "AES"⟩ ⟨clientId, a1, _, "RSA"⟩ _ hr0 rfl
    (by rw [hsk0]; exact DecodeAndDecryptAES_EncodeAndEncryptAES _ _ _ _ _ hk0) hd1 hin
    (Net.isDown_of (show (Net.mk _ _ _).routers a0 = some r0 from hup) hc0)]
  simp only [Net.skOf, hup, hsk0, List.length_singleton]
  have := checkInitReply_ok E [k0, k1, k2] 0 0 k0 (E.rand (net.draws + 1)).val
    (EncodeAndEncryptAES E.aes E.gobReply k1 (E.rand net.draws) (okReply []))
    (E.rand (net.draws + 1)).property rfl hk0 rfl
  simp only [Subtype.coe_eta] at this
  rw [this]
theorem SendSecurePayload_init3 (E : Env) (fuel : Nat) (net : Net) (a0 a1 a2 : String)
    (r0 r1 r2 : router.Router) (clientId : String) (k0 k1 k2 : Bytes) (seed iv iv1 : Block)
    (hd0 : net.dial a0 = some r0) (hd1 : net.dial a1 = some r1) (hd2 : net.dial a2 = some r2)
    (h02 : a0 ≠ a2) (h12 : a1 ≠ a2)
    (hk0 : validAESKey k0 = true) (hk1 : validAESKey k1 = true)
    (hsk0 : r0.SharedKeyMap.skOf clientId = k0) (hsk1 : r1.SharedKeyMap.skOf clientId = k1)
    (hfit : (E.rsa.encryptOAEP (E.rsa.publicOf r2.PrivateKey) seed
      (E.gobRequest.encode (keyRequest clientId k2))).isSome = true) :
    SendSecurePayload E (fuel + 3) net a0 [a2, a1] [k0, k1, k2]
        ⟨clientId, EncodeAndEncryptAES E.aes E.gobRequest k0 iv
          ⟨clientId, a1, EncodeAndEncryptAES E.aes E.gobRequest k1 iv1
            ⟨clientId, a2, EncryptRSAPublic E.rsa (E.rsa.publicOf r2.PrivateKey) seed
              (E.gobRequest.encode (keyRequest clientId k2)), "RSA"⟩, "AES"⟩, "AES"⟩ =
      some (⟨Function.update net.routers a2
          (some (r2.withKey clientId k2 (net.clock + fiveMinutes))), net.clock, net.draws + 3⟩,
        .ok ()) := by
  obtain ⟨_, hr0, hc0⟩ := Net.dial_eq_some hd0
  obtain ⟨_, hr1, hc1⟩ := Net.dial_eq_some hd1
  obtain ⟨_, hr2, hc2⟩ := Net.dial_eq_some hd2
  have hne : ("RSA" : String) ≠ "AES" := by decide
  simp only [SendSecurePayload, Net.isDown_of hr0 hc0, Bool.false_eq_true, if_false]
  have hin := Init_rsa_key E fuel net a2 r2 clientId clientId k2 seed "RSA" hr2 hne hfit
  have hup0 : Function.update net.routers a2
      (some (r2.withKey clientId k2 (net.clock + fiveMinutes))) a0 = some r0 := by
    rw [Function.update_noteq h02]; exact hr0
  have hup1 : Function.update net.routers a2
      (some (r2.withKey clientId k2 (net.clock + fiveMinutes))) a1 = some r1 := by
    rw [Function.update_noteq h12]; exact hr1
  have hmid := Init_aes_relay E (fuel + 1) net _ a1 r1 r2
    ⟨clientId, _, "AES"⟩ ⟨clientId, a2, _, "RSA"⟩ _ hr1 rfl
    (by rw [hsk1]; exact DecodeAndDecryptAES_EncodeAndEncryptAES _ _ _ iv1 _ hk1) hd2 hin
    (Net.isDown_of (show (Net.mk _ _ _).routers a1 = some r1 from hup1) hc1)
  simp only [Net.skOf, hup1, hsk1] at hmid
  rw [Init_aes_relay E (fuel + 2) net _ a0 r0 r1
    ⟨clientId, _, "AES"⟩ ⟨clientId, a1, _, "AES"⟩ _ hr0 rfl
    (by rw [hsk0]; exact DecodeAndDecryptAES_EncodeAndEncryptAES _ _ _ iv _ hk0) hd1 hmid
    (Net.isDown_of (show (Net.mk _ _ _).routers a0 = some r0 from hup0) hc0)]
  simp only [Net.skOf, hup0, hsk0, List.length_cons, List.length_nil]
  have h1 := checkInitReply_ok E [k0, k1, k2] 0 1 k1 (E.rand (net.draws + 1)).val
    (EncodeAndEncryptAES E.aes E.gobReply k2 (E.rand net.draws) (okReply []))
    (E.rand (net.draws + 1)).property rfl hk1 rfl
  have h0 := checkInitReply_ok E [k0, k1, k2] 1 0 k0 (E.rand (net.draws + 1 + 1)).val _
    (E.rand (net.draws + 1 + 1)).property rfl hk0 h1
  simp only [Subtype.coe_eta] at h0
  rw [h0]

theorem constructCircuit_eq (E : Env) (fuel : Nat) (net : Net) (R0 R1 R2 : Router)
    (r0 r1 r2 : router.Router) (k0 k1 k2 : Bytes) (clientId : String)
    (hd0 : net.dial R0.Addr = some r0) (hd1 : net.dial R1.Addr = some r1)
    (hd2 : net.dial R2.Addr = some r2)
    (h01 : R0.Addr ≠ R1.Addr) (h02 : R0.Addr ≠ R2.Addr) (h12 : R1.Addr ≠ R2.Addr)
    (hp0 : R0.PublicKey = ConvertPublicKeyToBytes E.rsa (E.rsa.publicOf r0.PrivateKey))
    (hp1 : R1.PublicKey = ConvertPublicKeyToBytes E.rsa (E.rsa.publicOf r1.PrivateKey))
    (hp2 : R2.PublicKey = ConvertPublicKeyToBytes E.rsa (E.rsa.publicOf r2.PrivateKey))
    (hf0 : ∀ seed, (E.rsa.encryptOAEP (E.rsa.publicOf r0.PrivateKey) seed
      (E.gobRequest.encode (keyRequest clientId k0))).isSome = true)
    (hf1 : ∀ seed, (E.rsa.encryptOAEP (E.rsa.publicOf r1.PrivateKey) seed
      (E.gobRequest.encode (keyRequest clientId k1))).isSome = true)
    (hf2 : ∀ seed, (E.rsa.encryptOAEP (E.rsa.publicOf r2.PrivateKey) seed
      (E.gobRequest.encode (keyRequest clientId k2))).isSome = true)
    (hk0 : k0.length = 16) (hk1 : k1.length = 16) :
    constructCircuit E (fuel + 3) net [k0, k1, k2] [R0, R1, R2] clientId =
      some (⟨Function.update (Function.update (Function.update net.routers
          R0.Addr (some (r0.withKey clientId k0 (net.clock + fiveMinutes))))
          R1.Addr (some (r1.withKey clientId k1 (net.clock + fiveMinutes))))
          R2.Addr (some (r2.withKey clientId k2 (net.clock + fiveMinutes))),
        net.clock, net.draws + 12⟩, .ok ()) := by
  obtain ⟨hn0, hr0, hc0⟩ := Net.dial_eq_some hd0
  obtain ⟨hn1, hr1, hc1⟩ := Net.dial_eq_some hd1
  obtain ⟨hn2, hr2, hc2⟩ := Net.dial_eq_some hd2
  have v0 := validAESKey_of_length hk0
  have v1 := validAESKey_of_length hk1
  -- round one
  have s1 := SendSecurePayload_init1 E (fuel + 2) ⟨net.routers, net.clock, net.draws + 1⟩ R0.Addr
    r0 clientId k0 (E.rand net.draws) [k0, k1, k2] (Net.dial_of hn0 hr0 hc0) (hf0 _)
  -- round two
  have hr0a : Function.update net.routers R0.Addr
      (some (r0.withKey clientId k0 (net.clock + fiveMinutes))) R0.Addr =
      some (r0.withKey clientId k0 (net.clock + fiveMinutes)) := Function.update_same _ _ _
  have hr1a : Function.update net.routers R0.Addr
      (some (r0.withKey clientId k0 (net.clock + fiveMinutes))) R1.Addr = some r1 := by
    rw [Function.update_noteq h01.symm]; exact hr1
  have s2 := SendSecurePayload_init2 E (fuel + 1)
    ⟨Function.update net.routers R0.Addr
      (some (r0.withKey clientId k0 (net.clock + fiveMinutes))), net.clock, net.draws + 1 + 1 + 2⟩
    R0.Addr R1.Addr (r0.withKey clientId k0 (net.clock + fiveMinutes)) r1 clientId k0 k1 k2
    (E.rand (net.draws + 1 + 1)) (E.rand (net.draws + 1 + 1 + 1))
    (Net.dial_of hn0 hr0a hc0) (Net.dial_of hn1 hr1a hc1) h01 v0
    (SharedKeyMap.skOf_set _ _ _) (hf1 _)
  -- round three
  have hr0b : Function.update (Function.update net.routers R0.Addr
      (some (r0.withKey clientId k0 (net.clock + fiveMinutes)))) R1.Addr
      (some (r1.withKey clientId k1 (net.clock + fiveMinutes))) R0.Addr =
      some (r0.withKey clientId k0 (net.clock + fiveMinutes)) := by
    rw [Function.update_noteq h01]; exact hr0a
  have hr1b : Function.update (Function.update net.routers R0.Addr
      (some (r0.withKey clientId k0 (net.clock + fiveMinutes)))) R1.Addr
      (some (r1.withKey clientId k1 (net.clock + fiveMinutes))) R1.Addr =
      some (r1.withKey clientId k1 (net.clock + fiveMinutes)) := Function.update_same _ _ _
  have hr2b : Function.update (Function.update net.routers R0.Addr
      (some (r0.withKey clientId k0 (net.clock + fiveMinutes)))) R1.Addr
      (some (r1.withKey clientId k1 (net.clock + fiveMinutes))) R2.Addr = some r2 := by
    rw [Function.update_noteq h12.symm, Function.update_noteq h02.symm]; exact hr2
  have s3 := SendSecurePayload_init3 E fuel
    ⟨Function.update (Function.update net.routers R0.Addr
      (some (r0.withKey clientId k0 (net.clock + fiveMinutes)))) R1.Addr
      (some (r1.withKey clientId k1 (net.clock + fiveMinutes))), net.clock,
      net.draws + 1 + 1 + 2 + 2 + 3⟩
    R0.Addr R1.Addr R2.Addr (r0.withKey clientId k0 (net.clock + fiveMinutes))
    (r1.withKey clientId k1 (net.clock + fiveMinutes)) r2 clientId k0 k1 k2
    (E.rand (net.draws + 1 + 1 + 2 + 2)) (E.rand (net.draws + 1 + 1 + 2 + 2 + 2))
    (E.rand (net.draws + 1 + 1 + 2 + 2 + 1))
    (Net.dial_of hn0 hr0b hc0) (Net.dial_of hn1 hr1b hc1) (Net.dial_of hn2 hr2b hc2) h02 h12 v0 v1
    (SharedKeyMap.skOf_set _ _ _) (SharedKeyMap.skOf_set _ _ _) (hf2 _)
  simp only [constructCircuit, List.getElem?_cons_zero, List.getElem?_cons_succ, hp0, hp1, hp2,
    generateSecurePayload_init1, generateSecurePayload_init2, generateSecurePayload_init3, s1, s2,
    s3]
theorem Teardown_exit (E : Env) (fuel : Nat) (net : Net) (a : String) (r : router.Router)
    (req : STorGeneralRouterPackageRequest) (args : STorEncryptedRouterRequest)
    (hr : net.routers a = some r) (ht : req.EncryptionType = "AES")
    (hopen : DecodeAndDecryptAES E.aes E.gobRequest (r.SharedKeyMap.skOf req.ClientId)
      req.Payload = some args)
    (hexit : args.NextAddr = "") :
    RouterRPCListener.Teardown E (fuel + 1) net a req =
      some (⟨Function.update net.routers a (some (r.withoutKey req.ClientId)), net.clock,
        net.draws⟩, .ok ⟨[]⟩) := by
  simp [RouterRPCListener.Teardown, hr, ht, hopen, hexit, Net.dropCircuit, Net.put]

theorem Teardown_relay (E : Env) (fuel : Nat) (net net1 : Net) (a : String)
    (r r1 ra : router.Router) (req : STorGeneralRouterPackageRequest)
    (args : STorEncryptedRouterRequest) (resp : STorGeneralRouterPackageResponse)
    (hr : net.routers a = some r) (ht : req.EncryptionType = "AES")
    (hopen : DecodeAndDecryptAES E.aes E.gobRequest (r.SharedKeyMap.skOf req.ClientId)
      req.Payload = some args)
    (hfwd : args.NextAddr ≠ "")
    (hdial : net.dial args.NextAddr = some r1)
    (hnext : RouterRPCListener.Teardown E fuel net args.NextAddr
      ⟨args.ClientId, args.Payload, args.EncryptionType⟩ = some (net1, .ok resp))
    (hra : net1.routers a = some ra) (hup : ra.crashed = false) :
    RouterRPCListener.Teardown E (fuel + 1) net a req =
      some (⟨Function.update net1.routers a (some (ra.withoutKey req.ClientId)), net1.clock,
          net1.draws + 1⟩,
        .ok ⟨EncodeAndEncryptAES E.aes E.gobReply (ra.SharedKeyMap.skOf req.ClientId)
          (E.rand net1.draws) (okReply resp.Payload)⟩) := by
  simp [RouterRPCListener.Teardown, hr, ht, hopen, hfwd, hdial, hnext, Net.isDown_of hra hup,
    Net.seal, Net.dropCircuit, Net.put, Net.skOf, hra]

theorem Teardown_circuit_eq (E : Env) (fuel : Nat) (net : Net) (a0 a1 a2 : String)
    (r0 r1 r2 : router.Router) (clientId : String) (k0 k1 k2 payload : Bytes)
    (iv0 iv1 iv2 : Block)
    (hd0 : net.dial a0 = some r0) (hd1 : net.dial a1 = some r1) (hd2 : net.dial a2 = some r2)
    (h01 : a0 ≠ a1) (h02 : a0 ≠ a2) (h12 : a1 ≠ a2)
    (hk0 : validAESKey k0 = true) (hk1 : validAESKey k1 = true) (hk2 : validAESKey k2 = true)
    (hsk0 : r0.SharedKeyMap.skOf clientId = k0) (hsk1 : r1.SharedKeyMap.skOf clientId = k1)
    (hsk2 : r2.SharedKeyMap.skOf clientId = k2) :
    RouterRPCListener.Teardown E (fuel + 3) net a0
        ⟨clientId, EncodeAndEncryptAES E.aes E.gobRequest k0 iv0
          ⟨clientId, a1, EncodeAndEncryptAES E.aes E.gobRequest k1 iv1
            ⟨clientId, a2, EncodeAndEncryptAES E.aes E.gobRequest k2 iv2
              ⟨clientId, "", payload, ""⟩, "AES"⟩, "AES"⟩, "AES"⟩ =
      some (⟨Function.update (Function.update (Function.update net.routers
          a2 (some (r2.withoutKey clientId)))
          a1 (some (r1.withoutKey clientId)))
          a0 (some (r0.withoutKey clientId)), net.clock, net.draws + 2⟩,
        .ok ⟨EncodeAndEncryptAES E.aes E.gobReply k0 (E.rand (net.draws + 1))
          (okReply (EncodeAndEncryptAES E.aes E.gobReply k1 (E.rand net.draws) (okReply [])))⟩) := by
  obtain ⟨hn0, hr0, hc0⟩ := Net.dial_eq_some hd0
  obtain ⟨hn1, hr1, hc1⟩ := Net.dial_eq_some hd1
  obtain ⟨hn2, hr2, hc2⟩ := Net.dial_eq_some hd2
  have hexit := Teardown_exit E fuel net a2 r2
    ⟨clientId, EncodeAndEncryptAES E.aes E.gobRequest k2 iv2 ⟨clientId, "", payload, ""⟩, "AES"⟩
    ⟨clientId, "", payload, ""⟩
    hr2 rfl (by rw [hsk2]; exact DecodeAndDecryptAES_EncodeAndEncryptAES _ _ _ iv2 _ hk2) rfl
  have hup1 : Function.update net.routers a2 (some (r2.withoutKey clientId)) a1 = some r1 := by
    rw [Function.update_noteq h12]; exact hr1
  have hmid := Teardown_relay E (fuel + 1) net _ a1 r1 r2 r1
    ⟨clientId, EncodeAndEncryptAES E.aes E.gobRequest k1 iv1
      ⟨clientId, a2, EncodeAndEncryptAES E.aes E.gobRequest k2 iv2
        ⟨clientId, "", payload, ""⟩, "AES"⟩, "AES"⟩
    ⟨clientId, a2, EncodeAndEncryptAES E.aes E.gobRequest k2 iv2
        ⟨clientId, "", payload, ""⟩, "AES"⟩ _ hr1 rfl
    (by rw [hsk1]; exact DecodeAndDecryptAES_EncodeAndEncryptAES _ _ _ iv1 _ hk1) hn2 hd2 hexit
    hup1 hc1
  have hup0 : Function.update (Function.update net.routers a2 (some (r2.withoutKey clientId))) a1
      (some (r1.withoutKey clientId)) a0 = some r0 := by
    rw [Function.update_noteq h01, Function.update_noteq h02]; exact hr0
  have htop := Teardown_relay E (fuel + 2) net _ a0 r0 r1 r0
    ⟨clientId, EncodeAndEncryptAES E.aes E.gobRequest k0 iv0
      ⟨clientId, a1, EncodeAndEncryptAES E.aes E.gobRequest k1 iv1
        ⟨clientId, a2, EncodeAndEncryptAES E.aes E.gobRequest k2 iv2
          ⟨clientId, "", payload, ""⟩, "AES"⟩, "AES"⟩, "AES"⟩
    ⟨clientId, a1, EncodeAndEncryptAES E.aes E.gobRequest k1 iv1
        ⟨clientId, a2, EncodeAndEncryptAES E.aes E.gobRequest k2 iv2
          ⟨clientId, "", payload, ""⟩, "AES"⟩, "AES"⟩ _ hr0 rfl
    (by rw [hsk0]; exact DecodeAndDecryptAES_EncodeAndEncryptAES _ _ _ iv0 _ hk0) hn1 hd1 hmid
    hup0 hc0
  rw [htop]
  simp only [hsk0, hsk1]

theorem withKey_withoutKey_counter (r : router.Router) (clientId : String) (k : Bytes) (ttl : Nat)
    (h : r.NumOfActiveCircuits < uint64Mod) :
    ((r.withKey clientId k ttl).withoutKey clientId).NumOfActiveCircuits =
      r.NumOfActiveCircuits := by
  simp only [router.Router.withKey, router.Router.withoutKey, uint64Mod] at *
  omega

theorem withoutKey_lookup (r : router.Router) (clientId : String) :
    (r.withoutKey clientId).SharedKeyMap.lookup clientId = none := by
  simp only [router.Router.withoutKey, SharedKeyMap.delete]
  exact SharedKeyMap.lookup_filter_self _ _

/-! ## C3, C4: building and tearing down a circuit -/

/-- C3: for a ring `[R0, R1, R2]` of three different reachable routers, each entry
carrying its router's own public key, and keys `[k0, k1, k2]` with `k0` and `k1` of
16 bytes, `constructCircuit` (three `Init` requests delivered to `R0` and relayed
by the `Init` handlers, relaying depth at least 3) returns no error and leaves
`SharedKeyMap[clientId].sk = k_i` at `R_i`.  The three key requests are assumed to
fit RSA-OAEP.  Whether a router held an entry for `clientId` before does not
matter, nor does the length of `k2`. -/
theorem constructCircuit_installs_keys (E : Env) (fuel : Nat) (net : Net) (R0 R1 R2 : Router)
    (r0 r1 r2 : router.Router) (k0 k1 k2 : Bytes) (clientId : String)
    (hfuel : 3 ≤ fuel)
    (hd0 : net.dial R0.Addr = some r0) (hd1 : net.dial R1.Addr = some r1)
    (hd2 : net.dial R2.Addr = some r2)
    (h01 : R0.Addr ≠ R1.Addr) (h02 : R0.Addr ≠ R2.Addr) (h12 : R1.Addr ≠ R2.Addr)
    (hp0 : R0.PublicKey = ConvertPublicKeyToBytes E.rsa (E.rsa.publicOf r0.PrivateKey))
    (hp1 : R1.PublicKey = ConvertPublicKeyToBytes E.rsa (E.rsa.publicOf r1.PrivateKey))
    (hp2 : R2.PublicKey = ConvertPublicKeyToBytes E.rsa (E.rsa.publicOf r2.PrivateKey))
    (hf0 : ∀ seed, (E.rsa.encryptOAEP (E.rsa.publicOf r0.PrivateKey) seed
      (E.gobRequest.encode (keyRequest clientId k0))).isSome = true)
    (hf1 : ∀ seed, (E.rsa.encryptOAEP (E.rsa.publicOf r1.PrivateKey) seed
      (E.gobRequest.encode (keyRequest clientId k1))).isSome = true)
    (hf2 : ∀ seed, (E.rsa.encryptOAEP (E.rsa.publicOf r2.PrivateKey) seed
      (E.gobRequest.encode (keyRequest clientId k2))).isSome = true)
    (hk0 : k0.length = 16) (hk1 : k1.length = 16) :
    ∃ net1, constructCircuit E fuel net [k0, k1, k2] [R0, R1, R2] clientId = some (net1, .ok ()) ∧
      (net1.sharedKey R0.Addr clientId).map (fun e => e.sk) = some k0 ∧
      (net1.sharedKey R1.Addr clientId).map (fun e => e.sk) = some k1 ∧
      (net1.sharedKey R2.Addr clientId).map (fun e => e.sk) = some k2 := by
  obtain ⟨f, rfl⟩ : ∃ f, fuel = f + 3 := ⟨fuel - 3, by omega⟩
  refine ⟨_, constructCircuit_eq E f net R0 R1 R2 r0 r1 r2 k0 k1 k2 clientId hd0 hd1 hd2 h01 h02
    h12 hp0 hp1 hp2 hf0 hf1 hf2 hk0 hk1, ?_, ?_, ?_⟩
  · simp [Net.sharedKey, Function.update_apply, h01, h02, router.Router.withKey,
      SharedKeyMap.lookup_set]
  · simp [Net.sharedKey, Function.update_apply, h12, router.Router.withKey,
      SharedKeyMap.lookup_set]
  · simp [Net.sharedKey, Function.update_apply, router.Router.withKey, SharedKeyMap.lookup_set]

theorem sample_dial1 : sampleNet.dial "r1:1" = some (sampleRouter 1 [1]) := by decide
theorem sample_dial2 : sampleNet.dial "r2:1" = some (sampleRouter 2 [2]) := by decide
theorem sample_dial3 : sampleNet.dial "r3:1" = some (sampleRouter 3 [3]) := by decide

theorem sample_fits (prk : PrivateKey) (clientId : String) (k : Bytes) (seed : Block) :
    (sampleEnv.rsa.encryptOAEP (sampleEnv.rsa.publicOf prk) seed
      (sampleEnv.gobRequest.encode (keyRequest clientId k))).isSome = true := by
  simp [sampleEnv, sampleRsa, codeGob]

/-- C3 at a concrete input: the three processes of `sampleNet`. -/
theorem constructCircuit_installs_keys_witness :
    ∃ net1, constructCircuit sampleEnv 3 sampleNet [sampleKey 1, sampleKey 2, sampleKey 3]
        sampleRing "c" = some (net1, .ok ()) ∧
      (net1.sharedKey "r1:1" "c").map (fun e => e.sk) = some (sampleKey 1) ∧
      (net1.sharedKey "r2:1" "c").map (fun e => e.sk) = some (sampleKey 2) ∧
      (net1.sharedKey "r3:1" "c").map (fun e => e.sk) = some (sampleKey 3) :=
  constructCircuit_installs_keys sampleEnv 3 sampleNet ⟨1, [1], "r1:1"⟩ ⟨2, [2], "r2:1"⟩
    ⟨3, [3], "r3:1"⟩ (sampleRouter 1 [1]) (sampleRouter 2 [2]) (sampleRouter 3 [3])
    (sampleKey 1) (sampleKey 2) (sampleKey 3) "c" (le_refl 3)
    sample_dial1 sample_dial2 sample_dial3 (by decide) (by decide) (by decide) rfl rfl rfl
    (sample_fits _ _ _) (sample_fits _ _ _) (sample_fits _ _ _) rfl rfl
/-- C4: for a circuit established for `clientId` over three different reachable
routers `R0`, `R1`, `R2` (by `constructCircuit`, with 16-byte keys), after the
client's teardown message (`constructTeardownMessage` with a nil payload) is handled
by `Teardown` at `R0` and relayed through `R1` to `R2`, none of the three routers
holds an entry for `clientId`, no other router has gained one, and every router's
active-circuit counter equals the value it had before the circuit was constructed. -/
theorem teardown_restores_routers (E : Env) (fuel : Nat) (net : Net) (R0 R1 R2 : Router)
    (r0 r1 r2 : router.Router) (k0 k1 k2 : Bytes) (clientId : String)
    (hfuel : 3 ≤ fuel)
    (hd0 : net.dial R0.Addr = some r0) (hd1 : net.dial R1.Addr = some r1)
    (hd2 : net.dial R2.Addr = some r2)
    (h01 : R0.Addr ≠ R1.Addr) (h02 : R0.Addr ≠ R2.Addr) (h12 : R1.Addr ≠ R2.Addr)
    (hp0 : R0.PublicKey = ConvertPublicKeyToBytes E.rsa (E.rsa.publicOf r0.PrivateKey))
    (hp1 : R1.PublicKey = ConvertPublicKeyToBytes E.rsa (E.rsa.publicOf r1.PrivateKey))
    (hp2 : R2.PublicKey = ConvertPublicKeyToBytes E.rsa (E.rsa.publicOf r2.PrivateKey))
    (hf0 : ∀ seed, (E.rsa.encryptOAEP (E.rsa.publicOf r0.PrivateKey) seed
      (E.gobRequest.encode (keyRequest clientId k0))).isSome = true)
    (hf1 : ∀ seed, (E.rsa.encryptOAEP (E.rsa.publicOf r1.PrivateKey) seed
      (E.gobRequest.encode (keyRequest clientId k1))).isSome = true)
    (hf2 : ∀ seed, (E.rsa.encryptOAEP (E.rsa.publicOf r2.PrivateKey) seed
      (E.gobRequest.encode (keyRequest clientId k2))).isSome = true)
    (hk0 : k0.length = 16) (hk1 : k1.length = 16) (hk2 : k2.length = 16)
    (hc0 : r0.NumOfActiveCircuits < uint64Mod) (hc1 : r1.NumOfActiveCircuits < uint64Mod)
    (hc2 : r2.NumOfActiveCircuits < uint64Mod) :
    ∃ net1 msg c net2 response,
      constructCircuit E fuel net [k0, k1, k2] [R0, R1, R2] clientId = some (net1, .ok ()) ∧
      constructTeardownMessage E net1.draws [k0, k1, k2] [R0, R1, R2] [] clientId =
        some (msg, c) ∧
      RouterRPCListener.Teardown E fuel ⟨net1.routers, net1.clock, c⟩ R0.Addr msg =
        some (net2, .ok response) ∧
      net2.sharedKey R0.Addr clientId = none ∧
      net2.sharedKey R1.Addr clientId = none ∧
      net2.sharedKey R2.Addr clientId = none ∧
      (∀ a, net.sharedKey a clientId = none → net2.sharedKey a clientId = none) ∧
      (∀ a, net2.activeCircuits a = net.activeCircuits a) := by
  obtain ⟨f, rfl⟩ : ∃ f, fuel = f + 3 := ⟨fuel - 3, by omega⟩
  obtain ⟨hn0, hr0, hl0⟩ := Net.dial_eq_some hd0
  obtain ⟨hn1, hr1, hl1⟩ := Net.dial_eq_some hd1
  obtain ⟨hn2, hr2, hl2⟩ := Net.dial_eq_some hd2
  have hcc := constructCircuit_eq E f net R0 R1 R2 r0 r1 r2 k0 k1 k2 clientId hd0 hd1 hd2 h01 h02
    h12 hp0 hp1 hp2 hf0 hf1 hf2 hk0 hk1
  have hmsg := generateSecurePayload_teardown E (net.draws + 12) clientId k0 k1 k2 [] R1.Addr
    R2.Addr
  have e0 : Function.update (Function.update (Function.update net.routers
      R0.Addr (some (r0.withKey clientId k0 (net.clock + fiveMinutes))))
      R1.Addr (some (r1.withKey clientId k1 (net.clock + fiveMinutes))))
      R2.Addr (some (r2.withKey clientId k2 (net.clock + fiveMinutes))) R0.Addr =
      some (r0.withKey clientId k0 (net.clock + fiveMinutes)) := by
    rw [Function.update_noteq h02, Function.update_noteq h01, Function.update_same]
  have e1 : Function.update (Function.update (Function.update net.routers
      R0.Addr (some (r0.withKey clientId k0 (net.clock + fiveMinutes))))
      R1.Addr (some (r1.withKey clientId k1 (net.clock + fiveMinutes))))
      R2.Addr (some (r2.withKey clientId k2 (net.clock + fiveMinutes))) R1.Addr =
      some (r1.withKey clientId k1 (net.clock + fiveMinutes)) := by
    rw [Function.update_noteq h12, Function.update_same]
  have e2 : Function.update (Function.update (Function.update net.routers
      R0.Addr (some (r0.withKey clientId k0 (net.clock + fiveMinutes))))
      R1.Addr (some (r1.withKey clientId k1 (net.clock + fiveMinutes))))
      R2.Addr (some (r2.withKey clientId k2 (net.clock + fiveMinutes))) R2.Addr =
      some (r2.withKey clientId k2 (net.clock + fiveMinutes)) := Function.update_same _ _ _
  have htd := Teardown_circuit_eq E f
    ⟨Function.update (Function.update (Function.update net.routers
      R0.Addr (some (r0.withKey clientId k0 (net.clock + fiveMinutes))))
      R1.Addr (some (r1.withKey clientId k1 (net.clock + fiveMinutes))))
      R2.Addr (some (r2.withKey clientId k2 (net.clock + fiveMinutes))), net.clock,
      net.draws + 12 + 3⟩
    R0.Addr R1.Addr R2.Addr _ _ _ clientId k0 k1 k2 []
    (E.rand (net.draws + 12 + 2)) (E.rand (net.draws + 12 + 1)) (E.rand (net.draws + 12))
    (Net.dial_of hn0 e0 hl0) (Net.dial_of hn1 e1 hl1) (Net.dial_of hn2 e2 hl2) h01 h02 h12
    (validAESKey_of_length hk0) (validAESKey_of_length hk1) (validAESKey_of_length hk2)
    (SharedKeyMap.skOf_set _ _ _) (SharedKeyMap.skOf_set _ _ _) (SharedKeyMap.skOf_set _ _ _)
  refine ⟨_, _, _, _, _, hcc, ?_, htd, ?_, ?_, ?_, ?_, ?_⟩
  · simp only [constructTeardownMessage, List.getElem?_cons_zero, List.getElem?_cons_succ, hmsg]
  · simp [Net.sharedKey, Function.update_apply, withoutKey_lookup]
  · simp [Net.sharedKey, Function.update_apply, h01.symm, withoutKey_lookup]
  · simp [Net.sharedKey, Function.update_apply, h02.symm, h12.symm, withoutKey_lookup]
  · intro a ha
    simp only [Net.sharedKey, Function.update_apply] at ha ⊢
    by_cases a0 : a = R0.Addr
    · simp [a0, withoutKey_lookup]
    · by_cases a1 : a = R1.Addr
      · simp [a1, h01.symm, withoutKey_lookup]
      · by_cases a2 : a = R2.Addr
        · simp [a2, h02.symm, h12.symm, withoutKey_lookup]
        · simpa [a0, a1, a2] using ha
  · intro a
    simp only [Net.activeCircuits, Function.update_apply]
    by_cases a0 : a = R0.Addr
    · simp [a0, hr0, withKey_withoutKey_counter _ _ _ _ hc0]
    · by_cases a1 : a = R1.Addr
      · simp [a1, h01.symm, hr1, withKey_withoutKey_counter _ _ _ _ hc1]
      · by_cases a2 : a = R2.Addr
        · simp [a2, h02.symm, h12.symm, hr2, withKey_withoutKey_counter _ _ _ _ hc2]
        · simp [a0, a1, a2]

/-- C4 at a concrete input: the three processes of `sampleNet`. -/
theorem teardown_restores_routers_witness :
    ∃ net1 msg c net2 response,
      constructCircuit sampleEnv 3 sampleNet [sampleKey 1, sampleKey 2, sampleKey 3]
        sampleRing "c" = some (net1, .ok ()) ∧
      constructTeardownMessage sampleEnv net1.draws [sampleKey 1, sampleKey 2, sampleKey 3]
        sampleRing [] "c" = some (msg, c) ∧
      RouterRPCListener.Teardown sampleEnv 3 ⟨net1.routers, net1.clock, c⟩ "r1:1" msg =
        some (net2, .ok response) ∧
      net2.sharedKey "r1:1" "c" = none ∧
      net2.sharedKey "r2:1" "c" = none ∧
      net2.sharedKey "r3:1" "c" = none ∧
      (∀ a, sampleNet.sharedKey a "c" = none → net2.sharedKey a "c" = none) ∧
      (∀ a, net2.activeCircuits a = sampleNet.activeCircuits a) :=
  teardown_restores_routers sampleEnv 3 sampleNet ⟨1, [1], "r1:1"⟩ ⟨2, [2], "r2:1"⟩
    ⟨3, [3], "r3:1"⟩ (sampleRouter 1 [1]) (sampleRouter 2 [2]) (sampleRouter 3 [3])
    (sampleKey 1) (sampleKey 2) (sampleKey 3) "c" (le_refl 3)
    sample_dial1 sample_dial2 sample_dial3 (by decide) (by decide) (by decide) rfl rfl rfl
    (sample_fits _ _ _) (sample_fits _ _ _) (sample_fits _ _ _) rfl rfl rfl
    (by decide) (by decide) (by decide)

/-! ## C5-C9: the coordinator -/

theorem createOnionRing_sorted (sh : Shuffle) (S : SortSlice) (c : Coord)
    (h3 : 3 ≤ c.Routers.length) :
    ∃ g m e rest,
      createOnionRing sh S c =
        some ({ c with Routers := g :: m :: e :: rest },
          [g.toRouter, m.toRouter, e.toRouter]) ∧
      (g :: m :: e :: rest).Perm c.Routers ∧
      g.activeChainCount ≤ m.activeChainCount ∧
      m.activeChainCount ≤ e.activeChainCount ∧
      ∀ x ∈ rest, ∀ y ∈ [g, m, e], y.activeChainCount ≤ x.activeChainCount := by
  have hperm : (S.sort (sh.shuffle c.Routers)).Perm c.Routers :=
    (S.perm _).trans (sh.perm _)
  have hsorted := S.sorted (sh.shuffle c.Routers)
  have hlen : (S.sort (sh.shuffle c.Routers)).length = c.Routers.length := hperm.length_eq
  unfold createOnionRing
  generalize S.sort (sh.shuffle c.Routers) = l at hperm hsorted hlen
  match l, hperm, hsorted, hlen with
  | g :: m :: e :: rest, hperm, hsorted, hlen =>
    refine ⟨g, m, e, rest, ?_, hperm, ?_, ?_, ?_⟩
    · simp
    · exact (List.pairwise_cons.mp hsorted).1 m (by simp)
    · exact (List.pairwise_cons.mp (List.pairwise_cons.mp hsorted).2).1 e (by simp)
    · intro x hx y hy
      have hg := (List.pairwise_cons.mp hsorted).1
      have hm := (List.pairwise_cons.mp (List.pairwise_cons.mp hsorted).2).1
      have he := (List.pairwise_cons.mp
        (List.pairwise_cons.mp (List.pairwise_cons.mp hsorted).2).2).1
      simp only [List.mem_cons, List.mem_singleton, List.not_mem_nil, or_false] at hy
      rcases hy with rfl | rfl | rfl
      · exact hg x (by simp [hx])
      · exact hm x (by simp [hx])
      · exact he x hx
  | [], _, _, hlen => simp at hlen; omega
  | [_], _, _, hlen => simp at hlen; omega
  | [_, _], _, _, hlen => simp at hlen; omega

theorem createOnionRing_example (sh : Shuffle) (S : SortSlice) (spare : List RouterInfo)
    (ready : Bool) (r1 r2 r3 r4 : RouterInfo)
    (h1 : r1.activeChainCount = 5) (h2 : r2.activeChainCount = 0)
    (h3 : r3.activeChainCount = 0) (h4 : r4.activeChainCount = 3) :
    ∃ c1 onionRing,
      createOnionRing sh S ⟨[r1, r2, r3, r4], spare, ready⟩ = some (c1, onionRing) ∧
      onionRing.Perm [r2.toRouter, r3.toRouter, r4.toRouter] := by
  obtain ⟨g, m, e, rest, hco, hperm, _, _, hrest⟩ :=
    createOnionRing_sorted sh S ⟨[r1, r2, r3, r4], spare, ready⟩ (by simp)
  refine ⟨_, _, hco, ?_⟩
  have hlen := hperm.length_eq
  simp only [List.length_cons, List.length_nil] at hlen
  obtain ⟨x, rfl⟩ : ∃ x, rest = [x] := by
    match rest, hlen with
    | [x], _ => exact ⟨x, rfl⟩
    | [], h => simp at h
    | _ :: _ :: _, h => simp at h
  have hxmem : x ∈ [r1, r2, r3, r4] := hperm.subset (by simp)
  have hr1mem : r1 ∈ [g, m, e, x] := hperm.symm.subset (by simp)
  have hx5 : 5 ≤ x.activeChainCount := by
    simp only [List.mem_cons, List.mem_singleton, List.not_mem_nil, or_false] at hr1mem
    rcases hr1mem with h | h | h | h
    · have := hrest x (by simp) g (by simp); rw [← h, h1] at this; exact this
    · have := hrest x (by simp) m (by simp); rw [← h, h1] at this; exact this
    · have := hrest x (by simp) e (by simp); rw [← h, h1] at this; exact this
    · rw [← h, h1]
  have hx : x = r1 := by
    simp only [List.mem_cons, List.mem_singleton, List.not_mem_nil, or_false] at hxmem
    rcases hxmem with h | h | h | h
    · exact h
    · rw [h, h2] at hx5; omega
    · rw [h, h3] at hx5; omega
    · rw [h, h4] at hx5; omega
  subst hx
  have hp : ([g, m, e] ++ [x]).Perm (x :: [r2, r3, r4]) := hperm
  have hp2 : (x :: [g, m, e]).Perm (x :: [r2, r3, r4]) :=
    (@List.perm_append_comm _ [x] [g, m, e]).trans hp
  exact (hp2.cons_inv).map RouterInfo.toRouter

/-- C5: for every registry of at least three routers and every outcome of the
shuffle (and of the unstable sort), `createOnionRing` returns as
`[guard, middle, exit]` the ring entries of three registry entries in ascending
order of `activeChainCount`, and every registry entry left out has a count greater
than or equal to that of each of the three.  For counts `[5, 0, 0, 3]` the ring is
made of the routers with counts 0, 0 and 3. -/
theorem createOnionRing_least_loaded (sh : Shuffle) (S : SortSlice) :
    (∀ c : Coord, 3 ≤ c.Routers.length →
      ∃ g m e rest,
        createOnionRing sh S c =
          some ({ c with Routers := g :: m :: e :: rest },
            [g.toRouter, m.toRouter, e.toRouter]) ∧
        (g :: m :: e :: rest).Perm c.Routers ∧
        g.activeChainCount ≤ m.activeChainCount ∧
        m.activeChainCount ≤ e.activeChainCount ∧
        ∀ x ∈ rest, ∀ y ∈ [g, m, e], y.activeChainCount ≤ x.activeChainCount) ∧
    (∀ (spare : List RouterInfo) (ready : Bool) (r1 r2 r3 r4 : RouterInfo),
      r1.activeChainCount = 5 → r2.activeChainCount = 0 →
      r3.activeChainCount = 0 → r4.activeChainCount = 3 →
      ∃ c1 onionRing,
        createOnionRing sh S ⟨[r1, r2, r3, r4], spare, ready⟩ = some (c1, onionRing) ∧
        onionRing.Perm [r2.toRouter, r3.toRouter, r4.toRouter]) :=
  ⟨fun c h3 => createOnionRing_sorted sh S c h3,
    fun spare ready r1 r2 r3 r4 h1 h2 h3 h4 =>
      createOnionRing_example sh S spare ready r1 r2 r3 r4 h1 h2 h3 h4⟩

/-- C5 at a concrete input: four routers with counts 5, 0, 0, 3, the shuffle that
reverses the registry and insertion sort. -/
theorem createOnionRing_least_loaded_witness :
    ∃ c1 onionRing,
      createOnionRing reverseShuffle insertionSortSlice
        ⟨[⟨1, [1], "a", "", "", 5⟩, ⟨2, [2], "b", "", "", 0⟩, ⟨3, [3], "c", "", "", 0⟩,
          ⟨4, [4], "d", "", "", 3⟩], [], true⟩ = some (c1, onionRing) ∧
      onionRing.Perm [⟨2, [2], "b"⟩, ⟨3, [3], "c"⟩, ⟨4, [4], "d"⟩] :=
  (createOnionRing_least_loaded reverseShuffle insertionSortSlice).2 [] true
    ⟨1, [1], "a", "", "", 5⟩ ⟨2, [2], "b", "", "", 0⟩ ⟨3, [3], "c", "", "", 0⟩
    ⟨4, [4], "d", "", "", 3⟩ rfl rfl rfl rfl

/-- C6, the code at a failing input: three routers register (the registry is
ready, its backing array has four cells), then router 1 is reported failed.  Two
routers remain registered, `RoutersReady` is still true, and `GetOnionRing`
returns a ring of three entries in which router 3 appears twice, the second time
read from the cell beyond the length of the slice.  When router 3 is the one that
failed, the ring returned still contains it. -/
theorem GetOnionRing_after_failure :
    Coord.run goGrowCap
      [.register (sampleJoin 1), .register (sampleJoin 2), .register (sampleJoin 3),
        .failure 1] = ⟨[sampleInfo 2, sampleInfo 3], [sampleInfo 3, default], true⟩ ∧
    GetOnionRing idShuffle insertionSortSlice
        ⟨[sampleInfo 2, sampleInfo 3], [sampleInfo 3, default], true⟩ =
      .ring ⟨[sampleInfo 2, sampleInfo 3], [sampleInfo 3, default], true⟩
        [(sampleInfo 2).toRouter, (sampleInfo 3).toRouter, (sampleInfo 3).toRouter] ∧
    Coord.run goGrowCap
      [.register (sampleJoin 1), .register (sampleJoin 2), .register (sampleJoin 3),
        .failure 3] = ⟨[sampleInfo 1, sampleInfo 2], [sampleInfo 3, default], true⟩ ∧
    GetOnionRing idShuffle insertionSortSlice
        ⟨[sampleInfo 1, sampleInfo 2], [sampleInfo 3, default], true⟩ =
      .ring ⟨[sampleInfo 1, sampleInfo 2], [sampleInfo 3, default], true⟩
        [(sampleInfo 1).toRouter, (sampleInfo 2).toRouter, (sampleInfo 3).toRouter] := by
  refine ⟨by decide, by decide, by decide, by decide⟩

theorem RouterAlreadyExists_iff (routers : List RouterInfo) (newRouter : RouterInfo) :
    RouterAlreadyExists routers newRouter = true ↔
      ∃ r ∈ routers, r.publicKey = newRouter.publicKey := by
  induction routers with
  | nil => simp [RouterAlreadyExists]
  | cons r routers ih =>
    by_cases h : r.publicKey = newRouter.publicKey
    · simp [RouterAlreadyExists, h]
    · simp [RouterAlreadyExists, h, ih]

/-- C7: `RegisterRouter` with a request whose `PublicKey` is byte-equal to that of
a router already in the registry returns an error and leaves the coordinator state
(the registry entries, their order and number, the spare cells and the ready
flag) unchanged. -/
theorem RegisterRouter_duplicate (growCap : Nat → Nat) (c : Coord)
    (request : STorRouterJoinRequest)
    (h : ∃ r ∈ c.Routers, r.publicKey = request.PublicKey) :
    RegisterRouter growCap c request = (c, .err "router already exists in directory") := by
  have hex : RouterAlreadyExists c.Routers
      { routerId := request.Id, publicKey := request.PublicKey,
        clientListenAddr := request.ClientListenAddr,
        coordListenAddr := request.CoordListenAddr,
        oCheckAddr := request.OCheckAddr, activeChainCount := 0 } = true :=
    (RouterAlreadyExists_iff _ _).mpr h
  simp only [RegisterRouter, hex, if_true]

/-- C7 at a concrete input: router 2 registers again with its key. -/
theorem RegisterRouter_duplicate_witness :
    RegisterRouter goGrowCap ⟨[sampleInfo 1, sampleInfo 2], [], false⟩ (sampleJoin 2) =
      (⟨[sampleInfo 1, sampleInfo 2], [], false⟩, .err "router already exists in directory") :=
  RegisterRouter_duplicate goGrowCap ⟨[sampleInfo 1, sampleInfo 2], [], false⟩ (sampleJoin 2)
    ⟨sampleInfo 2, by decide, rfl⟩

theorem removeRouterInfo_sublist (routers : List RouterInfo) (id : Int) :
    (removeRouterInfo routers id).Sublist routers := by
  induction routers with
  | nil => exact List.Sublist.refl _
  | cons v routers ih =>
    by_cases h : v.routerId = id
    · simp only [removeRouterInfo, h, if_true]
      exact List.sublist_cons_self _ _
    · simp only [removeRouterInfo, h, if_false]
      exact ih.cons₂ v

theorem updateCount_publicKey (routers : List RouterInfo) (id n : Int) :
    (updateCount routers id n).map (fun r => r.publicKey) =
      routers.map (fun r => r.publicKey) := by
  induction routers with
  | nil => rfl
  | cons r routers ih =>
    by_cases h : r.routerId = id
    · by_cases hn : r.activeChainCount = n <;> simp [updateCount, h, hn]
    · simp [updateCount, h, ih]

theorem updateCount_length (routers : List RouterInfo) (id n : Int) :
    (updateCount routers id n).length = routers.length := by
  have := congrArg List.length (updateCount_publicKey routers id n)
  simpa using this

theorem Coord.append_Routers (growCap : Nat → Nat) (c : Coord) (x : RouterInfo) :
    (c.append growCap x).Routers = c.Routers ++ [x] := by
  unfold Coord.append
  split <;> rfl

theorem Coord.append_RoutersReady (growCap : Nat → Nat) (c : Coord) (x : RouterInfo) :
    (c.append growCap x).RoutersReady = c.RoutersReady := by
  unfold Coord.append
  split <;> rfl

theorem GetOnionRing_ring (sh : Shuffle) (S : SortSlice) (c c1 : Coord) (ring : List Router)
    (h : GetOnionRing sh S c = .ring c1 ring) :
    c1.Routers = S.sort (sh.shuffle c.Routers) ∧ c1.RoutersReady = c.RoutersReady ∧
      c.RoutersReady = true := by
  unfold GetOnionRing at h
  by_cases hr : c.RoutersReady = true
  · simp only [hr, Bool.not_true, Bool.false_eq_true, if_false] at h
    unfold createOnionRing at h
    split at h
    · exact absurd h (by simp)
    · rename_i c2 ring2 hopt
      simp only [RingResult.ring.injEq] at h
      obtain ⟨h1, _⟩ := h
      subst h1
      by_cases hl : (S.sort (sh.shuffle c.Routers) ++ c.spare).length < 3
      · simp only [hl, if_true] at hopt
        exact absurd hopt (by simp)
      · simp only [hl, if_false, Option.some.injEq, Prod.mk.injEq] at hopt
        obtain ⟨h2, _⟩ := hopt
        subst h2
        exact ⟨rfl, rfl, hr⟩
  · simp [hr] at h

theorem Coord.step_nodup (growCap : Nat → Nat) (c : Coord) (e : CoordEvent)
    (h : (c.Routers.map (fun r => r.publicKey)).Nodup) :
    (((c.step growCap e)).Routers.map (fun r => r.publicKey)).Nodup := by
  cases e with
  | register request =>
    simp only [Coord.step, RegisterRouter]
    split
    · exact h
    · rename_i hex
      have hnot : ¬ ∃ r ∈ c.Routers, r.publicKey = request.PublicKey := by
        intro hc
        exact hex ((RouterAlreadyExists_iff _ _).mpr hc)
      have hnd : ((c.Routers ++ [(⟨request.Id, request.PublicKey, request.ClientListenAddr,
          request.CoordListenAddr, request.OCheckAddr, 0⟩ : RouterInfo)]).map
            (fun r => r.publicKey)).Nodup := by
        simp only [List.map_append, List.map_cons, List.map_nil]
        refine List.Nodup.append h (List.nodup_singleton _) ?_
        intro k hk hk2
        simp only [List.mem_singleton] at hk2
        obtain ⟨r, hr, hrk⟩ := List.mem_map.mp hk
        exact hnot ⟨r, hr, by rw [hrk, hk2]⟩
      split <;> simpa [Coord.append_Routers] using hnd
  | failure routerId =>
    simp only [Coord.step, handleRouterFailures]
    split
    · exact h.sublist ((removeRouterInfo_sublist _ _).map _)
    · exact h
  | count routerId n =>
    simp only [Coord.step, updateActiveChainCounts, updateCount_publicKey]
    exact h
  | getRing sh S =>
    simp only [Coord.step]
    split
    · rename_i c1 ring hg
      obtain ⟨h1, _, _⟩ := GetOnionRing_ring sh S c c1 ring hg
      rw [h1]
      exact (((S.perm _).trans (sh.perm _)).map _).nodup_iff.mpr h
    · exact h

theorem Coord.foldl_nodup (growCap : Nat → Nat) (events : List CoordEvent) (c : Coord)
    (h : (c.Routers.map (fun r => r.publicKey)).Nodup) :
    (((events.foldl (Coord.step growCap) c)).Routers.map (fun r => r.publicKey)).Nodup := by
  induction events generalizing c with
  | nil => exact h
  | cons e events ih => exact ih _ (Coord.step_nodup growCap c e h)

/-- C8: in every coordinator state reached from the empty registry by
`RegisterRouter` calls, failure removals (`removeRouterInfo`), active-chain-count
updates and `GetOnionRing` calls (`createOnionRing`), no two registry entries have
the same `publicKey`. -/
theorem registry_publicKeys_nodup (growCap : Nat → Nat) (events : List CoordEvent) :
    ((Coord.run growCap events).Routers.map (fun r => r.publicKey)).Nodup :=
  Coord.foldl_nodup growCap events NewCoord (by simp [NewCoord])

theorem Coord.step_ready (growCap : Nat → Nat) (c : Coord) (e : CoordEvent)
    (hinv : 3 ≤ c.Routers.length → c.RoutersReady = true) :
    ((c.step growCap e).RoutersReady = true ↔
      c.RoutersReady = true ∨ 3 ≤ (c.step growCap e).Routers.length) := by
  cases e with
  | register request =>
    simp only [Coord.step, RegisterRouter]
    split
    · constructor
      · intro h; exact Or.inl h
      · rintro (h | h)
        · exact h
        · exact hinv h
    · split
      · rename_i h3
        simp only [true_iff]
        exact Or.inr h3
      · rename_i h3
        simp only [Coord.append_RoutersReady]
        constructor
        · intro h; exact Or.inl h
        · rintro (h | h)
          · exact h
          · exact absurd h h3
  | failure routerId =>
    simp only [Coord.step, handleRouterFailures]
    split
    · constructor
      · intro h; exact Or.inl h
      · rintro (h | h)
        · exact h
        · exact hinv (le_trans h (removeRouterInfo_sublist _ _).length_le)
    · constructor
      · intro h; exact Or.inl h
      · rintro (h | h)
        · exact h
        · exact hinv h
  | count routerId n =>
    simp only [Coord.step, updateActiveChainCounts, updateCount_length]
    constructor
    · intro h; exact Or.inl h
    · rintro (h | h)
      · exact h
      · exact hinv h
  | getRing sh S =>
    simp only [Coord.step]
    split
    · rename_i c1 ring hg
      obtain ⟨_, h2, h3⟩ := GetOnionRing_ring sh S c c1 ring hg
      rw [h2]
      simp [h3]
    · constructor
      · intro h; exact Or.inl h
      · rintro (h | h)
        · exact h
        · exact hinv h

/-- C9 as stated fails: after three registrations and the removal of router 1
the ready flag is true while two routers are in the registry. -/
theorem RoutersReady_after_removal :
    ¬ ((Coord.run goGrowCap
        [.register (sampleJoin 1), .register (sampleJoin 2), .register (sampleJoin 3),
          .failure 1]).RoutersReady = true ↔
      3 ≤ (Coord.run goGrowCap
        [.register (sampleJoin 1), .register (sampleJoin 2), .register (sampleJoin 3),
          .failure 1]).Routers.length) := by
  decide

/-- C9 as amended: in every reachable coordinator state, `RoutersReady` is true if
and only if at least three routers were in the registry at some moment of the
run so far (the flag is set by the registration that brings the registry to three
entries and is never cleared, also not by a failure removal); in particular it
is true whenever at least three routers are in the registry. -/
theorem RoutersReady_iff_reached_three (growCap : Nat → Nat) (events : List CoordEvent) :
    ((Coord.run growCap events).RoutersReady = true ↔
      ∃ p, p <+: events ∧ 3 ≤ (Coord.run growCap p).Routers.length) ∧
    (3 ≤ (Coord.run growCap events).Routers.length →
      (Coord.run growCap events).RoutersReady = true) := by
  have key : ∀ events : List CoordEvent,
      ((Coord.run growCap events).RoutersReady = true ↔
        ∃ p, p <+: events ∧ 3 ≤ (Coord.run growCap p).Routers.length) := by
    intro events
    induction events using List.reverseRecOn with
    | nil =>
      constructor
      · intro h; simp [Coord.run, NewCoord] at h
      · rintro ⟨p, hp, h3⟩
        have : p = [] := List.prefix_nil.mp hp
        subst this
        simp [Coord.run, NewCoord] at h3
    | append_singleton l e ih =>
      have hrun : Coord.run growCap (l ++ [e]) = (Coord.run growCap l).step growCap e := by
        simp [Coord.run, List.foldl_append]
      have hinv : 3 ≤ (Coord.run growCap l).Routers.length →
          (Coord.run growCap l).RoutersReady = true :=
        fun h => ih.mpr ⟨l, List.prefix_refl l, h⟩
      rw [hrun, Coord.step_ready growCap _ e hinv, ih]
      constructor
      · rintro (⟨p, hp, h3⟩ | h3)
        · exact ⟨p, hp.trans (List.prefix_append l [e]), h3⟩
        · exact ⟨l ++ [e], List.prefix_refl _, by rw [hrun]; exact h3⟩
      · rintro ⟨p, hp, h3⟩
        rcases List.prefix_concat_iff.mp hp with h | h
        · subst h
          right
          rw [← hrun]; exact h3
        · exact Or.inl ⟨p, h, h3⟩
  exact ⟨key events, fun h => (key events).mpr ⟨events, List.prefix_refl _, h⟩⟩

/-- C9 as amended, at a concrete run: three registrations, then the removal of
router 1. -/
theorem RoutersReady_iff_reached_three_witness :
    (Coord.run goGrowCap
      [.register (sampleJoin 1), .register (sampleJoin 2), .register (sampleJoin 3),
        .failure 1]).RoutersReady = true :=
  (RoutersReady_iff_reached_three goGrowCap
    [.register (sampleJoin 1), .register (sampleJoin 2), .register (sampleJoin 3),
      .failure 1]).1.mpr
    ⟨[.register (sampleJoin 1), .register (sampleJoin 2), .register (sampleJoin 3)],
      ⟨[.failure 1], rfl⟩, by decide⟩

/-! ## C10: shared-key entries and the active-circuit counter -/

/-- C10, the code at a failing input: router 1 of `sampleNet` (no entry, counter 0)
handles an ASYM `Init` for the client `c` at time 0; it then holds one entry and
reports one active circuit.  One pass of the TTL sweep after the deadline of five
minutes deletes the entry and leaves the counter at 1: zero entries, one reported
circuit. -/
theorem TeardownAfterTTL_leaves_counter :
    ∃ net1 response,
      RouterRPCListener.Init sampleEnv 1 sampleNet "r1:1"
        ⟨"c", EncryptRSAPublic sampleEnv.rsa (sampleEnv.rsa.publicOf [1]) (Block.const 0)
          (sampleEnv.gobRequest.encode (keyRequest "c" (sampleKey 1))), "RSA"⟩ =
        some (net1, .ok response) ∧
      net1.numKeys "r1:1" = some 1 ∧
      net1.activeCircuits "r1:1" = some 1 ∧
      (TeardownAfterTTL ⟨net1.routers, fiveMinutes + 1, net1.draws⟩ "r1:1").numKeys "r1:1" =
        some 0 ∧
      (TeardownAfterTTL ⟨net1.routers, fiveMinutes + 1, net1.draws⟩ "r1:1").activeCircuits
        "r1:1" = some 1 := by
  have hr : sampleNet.routers "r1:1" = some (sampleRouter 1 [1]) := by decide
  have hne : ("RSA" : String) ≠ "AES" := by decide
  have hinit := Init_rsa_key sampleEnv 0 sampleNet "r1:1" (sampleRouter 1 [1]) "c" "c"
    (sampleKey 1) (Block.const 0) "RSA" hr hne (sample_fits _ _ _ _)
  refine ⟨_, _, hinit, ?_, ?_, ?_, ?_⟩
  · simp [Net.numKeys, router.Router.withKey, SharedKeyMap.set, sampleRouter]
  · simp [Net.activeCircuits, router.Router.withKey, sampleRouter, uint64Mod]
  · simp [Net.numKeys, TeardownAfterTTL, Net.put, router.Router.withKey, SharedKeyMap.set,
      sampleRouter, sampleNet]
  · simp [Net.activeCircuits, TeardownAfterTTL, Net.put, router.Router.withKey, sampleRouter,
      uint64Mod]

/-! ## C15-C17: the crypto helpers -/

/-- C15: for every 16-byte key and every encodable value `v`,
`DecodeAndDecryptAES(key, EncodeAndEncryptAES(key, v), &out)` sets `out = v`,
whatever IV was drawn; and `DecryptAES(key, EncryptAES(key, m)) = m` for every byte
string `m`. -/
theorem AES_seal_then_open {α : Type} [Inhabited α] (aes : Bytes → Block → Block) (g : Gob α)
    (key : Bytes) (hkey : key.length = 16) :
    (∀ (iv : Block) (v : α),
      DecodeAndDecryptAES aes g key (EncodeAndEncryptAES aes g key iv v) = some v) ∧
    (∀ (iv : Block) (m : Bytes), DecryptAES aes key (EncryptAES aes key iv m) = some m) :=
  ⟨fun iv v => DecodeAndDecryptAES_EncodeAndEncryptAES aes g key iv v
      (validAESKey_of_length hkey),
    fun iv m => DecryptAES_EncryptAES aes key iv m (validAESKey_of_length hkey)⟩

/-- C15 at a concrete input: the key of sixteen bytes 1 and the codec of router
replies of `sampleEnv`. -/
theorem AES_seal_then_open_witness :
    (∀ (iv : Block) (v : STorRouterReply),
      DecodeAndDecryptAES sampleEnv.aes sampleEnv.gobReply (sampleKey 1)
        (EncodeAndEncryptAES sampleEnv.aes sampleEnv.gobReply (sampleKey 1) iv v) = some v) ∧
    (∀ (iv : Block) (m : Bytes),
      DecryptAES sampleEnv.aes (sampleKey 1) (EncryptAES sampleEnv.aes (sampleKey 1) iv m) =
        some m) :=
  AES_seal_then_open sampleEnv.aes sampleEnv.gobReply (sampleKey 1) rfl

/-- C16: for a key pair produced by `GenerateRSAKeyPair` and messages within the
OAEP size limit (`rsa.EncryptOAEP` returns no error on them),
`DecodeAndDecryptRSA(priv, EncodeAndEncryptRSA(ConvertPublicKeyToBytes(pub), v), &out)`
sets `out = v`, and `DecryptRSA(priv, EncryptRSA(pub, m))` returns `m` with no
error. -/
theorem RSA_seal_then_open {α : Type} [Inhabited α] (rsa : RsaLib) (g : Gob α)
    (generated : Option PrivateKey) (privateKey : PrivateKey) (publicKey : PublicKey)
    (seed : Block) (v : α) (m : Bytes)
    (hgen : GenerateRSAKeyPair rsa generated = some (privateKey, publicKey))
    (hv : (rsa.encryptOAEP publicKey seed (g.encode v)).isSome = true)
    (hm : (rsa.encryptOAEP publicKey seed m).isSome = true) :
    (∃ c, EncodeAndEncryptRSA rsa g (ConvertPublicKeyToBytes rsa publicKey) seed v = some c ∧
      DecodeAndDecryptRSA rsa g privateKey c = v) ∧
    (∃ c, EncryptRSA rsa publicKey seed m = some c ∧
      DecryptRSA rsa privateKey c = some m) := by
  have hpub : publicKey = rsa.publicOf privateKey := by
    cases generated with
    | none => simp [GenerateRSAKeyPair] at hgen
    | some prk =>
      simp only [GenerateRSAKeyPair, Option.map_some', Option.some.injEq, Prod.mk.injEq] at hgen
      rw [← hgen.1, ← hgen.2]
  subst hpub
  constructor
  · exact ⟨_, EncodeAndEncryptRSA_marshal rsa g _ seed v,
      DecodeAndDecryptRSA_EncryptRSAPublic rsa g privateKey seed v hv⟩
  · obtain ⟨c, hc⟩ := Option.isSome_iff_exists.mp hm
    exact ⟨c, hc, rsa.decrypt_encrypt privateKey seed m c hc⟩

/-- C16 at a concrete input: the stand-in RSA of `sampleEnv`, a router reply and the
message `[1, 2, 3]`. -/
theorem RSA_seal_then_open_witness :
    (∃ c, EncodeAndEncryptRSA sampleRsa (codeGob STorRouterReply)
        (ConvertPublicKeyToBytes sampleRsa [7]) (Block.const 0) (okReply []) = some c ∧
      DecodeAndDecryptRSA sampleRsa (codeGob STorRouterReply) [7] c = okReply []) ∧
    (∃ c, EncryptRSA sampleRsa [7] (Block.const 0) [1, 2, 3] = some c ∧
      DecryptRSA sampleRsa [7] c = some [1, 2, 3]) :=
  RSA_seal_then_open sampleRsa (codeGob STorRouterReply) (some [7]) [7] [7] (Block.const 0)
    (okReply []) [1, 2, 3] rfl (by simp [sampleRsa, codeGob]) (by simp [sampleRsa])

/-- C17: for a 16-byte key and every message `m`, `EncryptAES` returns exactly
`16 + len(m)` bytes, the first 16 of which are the IV the CFB stream is started
with; and `DecryptAES` on a ciphertext `c` of at least 16 bytes runs the CFB
stream with `c[0:16]` as IV over `c[16:]` and returns `len(c) - 16` bytes. -/
theorem AES_layout (aes : Bytes → Block → Block) (key : Bytes) (hkey : key.length = 16) :
    (∀ (iv : Block) (m : Bytes),
      (EncryptAES aes key iv m).length = 16 + m.length ∧
      (EncryptAES aes key iv m).take 16 = iv.val ∧
      (EncryptAES aes key iv m).drop 16 = cfbXORKeyStream false (aes key) m.length iv m) ∧
    (∀ (c : Bytes) (hc : 16 ≤ c.length),
      DecryptAES aes key c =
        some (cfbXORKeyStream true (aes key) (c.drop 16).length
          ⟨c.take 16, by simp [List.length_take]; omega⟩ (c.drop 16)) ∧
      ∃ out, DecryptAES aes key c = some out ∧ out.length = c.length - 16) := by
  have hv := validAESKey_of_length hkey
  constructor
  · intro iv m
    have hiv := iv.property
    have hlen : (cfbXORKeyStream false (aes key) m.length iv m).length = m.length :=
      cfbXORKeyStream_length _ _ _ _ _ (le_refl _)
    simp only [EncryptAES, hv, if_true]
    refine ⟨?_, ?_, ?_⟩
    · simp only [List.length_append, hlen, hiv]
    · rw [List.take_append_of_le_length (by omega)]
      exact List.take_of_length_le (by omega)
    · rw [List.drop_append_of_le_length (by omega), List.drop_of_length_le (by omega)]
      simp
  · intro c hc
    have hd : DecryptAES aes key c =
        some (cfbXORKeyStream true (aes key) (c.drop 16).length
          ⟨c.take 16, by simp [List.length_take]; omega⟩ (c.drop 16)) := by
      simp only [DecryptAES, hv, if_true, hc, dite_true]
    refine ⟨hd, _, hd, ?_⟩
    rw [cfbXORKeyStream_length _ _ _ _ _ (le_refl _)]
    simp

/-- C17 at a concrete input: the key of sixteen bytes 1 and the block function of
`sampleEnv`. -/
theorem AES_layout_witness :
    (∀ (iv : Block) (m : Bytes),
      (EncryptAES sampleEnv.aes (sampleKey 1) iv m).length = 16 + m.length ∧
      (EncryptAES sampleEnv.aes (sampleKey 1) iv m).take 16 = iv.val ∧
      (EncryptAES sampleEnv.aes (sampleKey 1) iv m).drop 16 =
        cfbXORKeyStream false (sampleEnv.aes (sampleKey 1)) m.length iv m) ∧
    (∀ (c : Bytes) (hc : 16 ≤ c.length),
      DecryptAES sampleEnv.aes (sampleKey 1) c =
        some (cfbXORKeyStream true (sampleEnv.aes (sampleKey 1)) (c.drop 16).length
          ⟨c.take 16, by simp [List.length_take]; omega⟩ (c.drop 16)) ∧
      ∃ out, DecryptAES sampleEnv.aes (sampleKey 1) c = some out ∧
        out.length = c.length - 16) :=
  AES_layout sampleEnv.aes (sampleKey 1) rfl

/-! ## C18, C19: the ASYM branch of `Init` and the TTL sweep -/

/-- C18: for an `Init` request whose `EncryptionType` is not `"AES"` and whose
payload opens under the router's private key to an encrypted router request with
`Payload = key`, a 16-byte key, `Init` stores
`SharedKeyMap[request.ClientId] = {key, now + 5 minutes}`, increases
`NumOfActiveCircuits` by exactly one (as a `uint64`), and returns nil with a reply
that opens under `key` to `RouterReply{DidSucceed: true, Payload: nil}`. -/
theorem Init_asym_stores_key (E : Env) (fuel : Nat) (net : Net) (self : String)
    (r : router.Router) (request : STorGeneralRouterPackageRequest) (key : Bytes)
    (hr : net.routers self = some r) (ht : request.EncryptionType ≠ "AES")
    (hopen : (DecodeAndDecryptRSA E.rsa E.gobRequest r.PrivateKey request.Payload).Payload = key)
    (hkey : key.length = 16) :
    ∃ net1 response,
      RouterRPCListener.Init E (fuel + 1) net self request = some (net1, .ok response) ∧
      net1.sharedKey self request.ClientId = some ⟨key, net.clock + fiveMinutes⟩ ∧
      net1.activeCircuits self = some ((r.NumOfActiveCircuits + 1) % uint64Mod) ∧
      (r.NumOfActiveCircuits + 1 < uint64Mod →
        net1.activeCircuits self = some (r.NumOfActiveCircuits + 1)) ∧
      DecodeAndDecryptAES E.aes E.gobReply key response.Payload =
        some { Payload := [], DidSucceed := true, IsWebServer := false, ErrMsg := "" } := by
  refine ⟨_, _, Init_rsa E fuel net self r request hr ht, ?_, ?_, ?_, ?_⟩
  · simp [Net.sharedKey, SharedKeyMap.lookup_set, hopen]
  · simp [Net.activeCircuits]
  · intro hlt
    simp [Net.activeCircuits, Nat.mod_eq_of_lt hlt]
  · rw [hopen]
    exact DecodeAndDecryptAES_EncodeAndEncryptAES _ _ _ _ _ (validAESKey_of_length hkey)

/-- C18 at a concrete input: router 1 of `sampleNet` and a key request sealed under
its public key. -/
theorem Init_asym_stores_key_witness :
    ∃ net1 response,
      RouterRPCListener.Init sampleEnv 1 sampleNet "r1:1"
        ⟨"c", EncryptRSAPublic sampleEnv.rsa (sampleEnv.rsa.publicOf [1]) (Block.const 0)
          (sampleEnv.gobRequest.encode (keyRequest "c" (sampleKey 1))), "RSA"⟩ =
        some (net1, .ok response) ∧
      net1.sharedKey "r1:1" "c" = some ⟨sampleKey 1, sampleNet.clock + fiveMinutes⟩ ∧
      net1.activeCircuits "r1:1" = some ((0 + 1) % uint64Mod) ∧
      (0 + 1 < uint64Mod → net1.activeCircuits "r1:1" = some (0 + 1)) ∧
      DecodeAndDecryptAES sampleEnv.aes sampleEnv.gobReply (sampleKey 1) response.Payload =
        some { Payload := [], DidSucceed := true, IsWebServer := false, ErrMsg := "" } :=
  Init_asym_stores_key sampleEnv 0 sampleNet "r1:1" (sampleRouter 1 [1])
    ⟨"c", EncryptRSAPublic sampleEnv.rsa (sampleEnv.rsa.publicOf [1]) (Block.const 0)
      (sampleEnv.gobRequest.encode (keyRequest "c" (sampleKey 1))), "RSA"⟩ (sampleKey 1)
    (by decide) (by decide)
    (by
      have h := DecodeAndDecryptRSA_EncryptRSAPublic sampleEnv.rsa sampleEnv.gobRequest [1]
        (Block.const 0) (keyRequest "c" (sampleKey 1)) (sample_fits _ _ _ _)
      exact congrArg (fun a => a.Payload) h)
    rfl

theorem SharedKeyMap.lookup_filter_keep (m : SharedKeyMap) (p : String × SharedKey → Bool)
    (k : String) (h : ∀ e ∈ m, e.1 = k → p e = true) :
    (m.filter p).lookup k = m.lookup k := by
  induction m with
  | nil => rfl
  | cons e m ih =>
    obtain ⟨a, b⟩ := e
    have ih1 := ih (fun e he hk => h e (List.mem_cons_of_mem _ he) hk)
    by_cases ha : k = a
    · subst ha
      have hp : p (k, b) = true := h (k, b) (List.mem_cons_self _ _) rfl
      simp [List.filter, hp, List.lookup]
    · have hk : (k == a) = false := by simpa using ha
      by_cases hp : p (a, b) = true
      · simp only [List.filter, hp, List.lookup, hk]
        exact ih1
      · have hp1 : p (a, b) = false := by simpa using hp
        simp only [List.filter, hp1, List.lookup, hk]
        exact ih1

theorem SharedKeyMap.lookup_filter_drop (m : SharedKeyMap) (p : String × SharedKey → Bool)
    (k : String) (h : ∀ e ∈ m, e.1 = k → p e = false) :
    (m.filter p).lookup k = none := by
  induction m with
  | nil => rfl
  | cons e m ih =>
    obtain ⟨a, b⟩ := e
    have ih1 := ih (fun e he hk => h e (List.mem_cons_of_mem _ he) hk)
    by_cases ha : k = a
    · subst ha
      have hp : p (k, b) = false := h (k, b) (List.mem_cons_self _ _) rfl
      simp only [List.filter, hp]
      exact ih1
    · have hk : (k == a) = false := by simpa using ha
      by_cases hp : p (a, b) = true
      · simp only [List.filter, hp, List.lookup, hk]
        exact ih1
      · have hp1 : p (a, b) = false := by simpa using hp
        simp only [List.filter, hp1]
        exact ih1

/-- C19: one pass of the TTL sweep of `TeardownAfterTTL` at time `now` (the clock of
the overlay) removes from `SharedKeyMap` exactly the entries whose deadline is
strictly before `now`: the entries kept are those not before `now`, in their order,
each with its key and its TTL; a client whose entry has expired has none
afterwards; the counter, the other fields, the other routers and the clock are
unchanged. -/
theorem TeardownAfterTTL_sweeps (net : Net) (self : String) (r : router.Router)
    (hr : net.routers self = some r) :
    (TeardownAfterTTL net self).routers self =
      some { r with SharedKeyMap := r.SharedKeyMap.filter (fun e => !(e.2.TTL < net.clock)) } ∧
    (∀ e, e ∈ r.SharedKeyMap.filter (fun e => !(e.2.TTL < net.clock)) ↔
      e ∈ r.SharedKeyMap ∧ ¬ e.2.TTL < net.clock) ∧
    (r.SharedKeyMap.filter (fun e => !(e.2.TTL < net.clock))).Sublist r.SharedKeyMap ∧
    (∀ clientId, (∀ e ∈ r.SharedKeyMap, e.1 = clientId → ¬ e.2.TTL < net.clock) →
      (TeardownAfterTTL net self).sharedKey self clientId = net.sharedKey self clientId) ∧
    (∀ clientId, (∀ e ∈ r.SharedKeyMap, e.1 = clientId → e.2.TTL < net.clock) →
      (TeardownAfterTTL net self).sharedKey self clientId = none) ∧
    (∀ a, a ≠ self → (TeardownAfterTTL net self).routers a = net.routers a) ∧
    (TeardownAfterTTL net self).clock = net.clock := by
  have hsw : (TeardownAfterTTL net self).routers self =
      some { r with SharedKeyMap :=
        r.SharedKeyMap.filter (fun e => !(e.2.TTL < net.clock)) } := by
    simp [TeardownAfterTTL, hr, Net.put]
  refine ⟨hsw, ?_, List.filter_sublist _, ?_, ?_, ?_, ?_⟩
  · intro e
    simp [List.mem_filter]
  · intro clientId h
    simp only [Net.sharedKey, hsw, hr, Option.some_bind]
    exact SharedKeyMap.lookup_filter_keep _ _ _ (fun e he hk => by simpa using h e he hk)
  · intro clientId h
    simp only [Net.sharedKey, hsw, Option.some_bind]
    exact SharedKeyMap.lookup_filter_drop _ _ _ (fun e he hk => by simpa using h e he hk)
  · intro a ha
    simp [TeardownAfterTTL, hr, Net.put, Function.update_noteq ha]
  · simp [TeardownAfterTTL, hr, Net.put]

/-- C19 at a concrete input: router 1 of `keyedNet` at time 200 holds the entry of
`old` (deadline 100) and the entry of `c` (deadline 300). -/
theorem TeardownAfterTTL_sweeps_witness :
    (TeardownAfterTTL (keyedNet "") "r1:1").sharedKey "r1:1" "old" = none ∧
    (TeardownAfterTTL (keyedNet "") "r1:1").sharedKey "r1:1" "c" =
      (keyedNet "").sharedKey "r1:1" "c" :=
  ⟨(TeardownAfterTTL_sweeps (keyedNet "") "r1:1"
      ⟨1, [1], [("c", ⟨sampleKey 1, 300⟩), ("old", ⟨sampleKey 9, 100⟩)], 2, false⟩
      (by decide)).2.2.2.2.1 "old" (by decide),
    (TeardownAfterTTL_sweeps (keyedNet "") "r1:1"
      ⟨1, [1], [("c", ⟨sampleKey 1, 300⟩), ("old", ⟨sampleKey 9, 100⟩)], 2, false⟩
      (by decide)).2.2.2.1 "c" (by decide)⟩

/-! ## C11, C20: `Send` -/

theorem Send_no_entry (E : Env) (fuel : Nat) (net : Net) (self : String) (r : router.Router)
    (request : STorOnionMessage) (hr : net.routers self = some r)
    (hno : r.SharedKeyMap.lookup request.ClientId = none) :
    RouterRPCListener.Send E (fuel + 1) net self request =
      some (net, .err "shared key does not exist in map") := by
  simp [RouterRPCListener.Send, hr, hno]

theorem SharedKeyMap.skOf_of_lookup {m : SharedKeyMap} {k : String} {e : SharedKey}
    (h : m.lookup k = some e) : m.skOf k = e.sk := by
  simp [SharedKeyMap.skOf, h]

theorem Send_dial_none (E : Env) (fuel : Nat) (net : Net) (self : String) (r : router.Router)
    (request : STorOnionMessage) (e : SharedKey) (args : STorEncryptedRouterRequest)
    (hr : net.routers self = some r)
    (hsk : r.SharedKeyMap.lookup request.ClientId = some e)
    (hopen : DecodeAndDecryptAES E.aes E.gobRequest e.sk request.Onion = some args)
    (hfwd : args.NextAddr ≠ "") (hdial : net.dial args.NextAddr = none) :
    RouterRPCListener.Send E (fuel + 1) net self request =
      some (⟨net.routers, net.clock, net.draws + 1⟩,
        .ok ⟨EncodeAndEncryptAES E.aes E.gobReply e.sk (E.rand net.draws)
          (errReply "Unable to contact next router.")⟩) := by
  simp [RouterRPCListener.Send, hr, hsk, SharedKeyMap.skOf_of_lookup hsk, hopen, hfwd, hdial,
    Net.seal, Net.skOf]

theorem Send_exit (E : Env) (fuel : Nat) (net : Net) (self : String) (r : router.Router)
    (request : STorOnionMessage) (e : SharedKey) (args : STorEncryptedRouterRequest)
    (hr : net.routers self = some r)
    (hsk : r.SharedKeyMap.lookup request.ClientId = some e)
    (hopen : DecodeAndDecryptAES E.aes E.gobRequest e.sk request.Onion = some args)
    (hexit : args.NextAddr = "") :
    RouterRPCListener.Send E (fuel + 1) net self request =
      some (⟨net.routers, net.clock, net.draws + 1⟩,
        .ok ⟨EncodeAndEncryptAES E.aes E.gobReply e.sk (E.rand net.draws)
          (exitReply (E.web (Decode E.gobHTTP args.Payload).Url))⟩) := by
  simp only [RouterRPCListener.Send, hr, hsk, SharedKeyMap.skOf_of_lookup hsk, hopen, hexit,
    ne_eq, not_true_eq_false, if_false, Net.seal, Net.skOf]
  cases E.web (Decode E.gobHTTP args.Payload).Url <;> rfl

theorem Send_relay (E : Env) (fuel : Nat) (net net1 : Net) (self : String)
    (r r1 ra : router.Router) (request : STorOnionMessage) (e : SharedKey)
    (args : STorEncryptedRouterRequest) (resp : STorRouterHTTPResponse)
    (hr : net.routers self = some r)
    (hsk : r.SharedKeyMap.lookup request.ClientId = some e)
    (hopen : DecodeAndDecryptAES E.aes E.gobRequest e.sk request.Onion = some args)
    (hfwd : args.NextAddr ≠ "") (hdial : net.dial args.NextAddr = some r1)
    (hnext : RouterRPCListener.Send E fuel net args.NextAddr ⟨request.ClientId, args.Payload⟩ =
      some (net1, .ok resp))
    (hra : net1.routers self = some ra) (hup : ra.crashed = false) :
    RouterRPCListener.Send E (fuel + 1) net self request =
      some (⟨net1.routers, net1.clock, net1.draws + 1⟩,
        .ok ⟨EncodeAndEncryptAES E.aes E.gobReply (ra.SharedKeyMap.skOf request.ClientId)
          (E.rand net1.draws) (relayReply resp.Response)⟩) := by
  simp [RouterRPCListener.Send, hr, hsk, SharedKeyMap.skOf_of_lookup hsk, hopen, hfwd, hdial,
    hnext, Net.isDown_of hra hup, Net.seal, Net.skOf, hra]

theorem Net.seal_fst (E : Env) (net : Net) (key : Bytes) (reply : STorRouterReply) :
    (net.seal E key reply).1 = ⟨net.routers, net.clock, net.draws + 1⟩ := rfl

theorem Net.seal_snd (E : Env) (net : Net) (key : Bytes) (reply : STorRouterReply) :
    (net.seal E key reply).2 = EncodeAndEncryptAES E.aes E.gobReply key (E.rand net.draws) reply :=
  rfl

theorem Send_returns (E : Env) (fuel : Nat) (net net1 : Net) (self : String)
    (r : router.Router) (request : STorOnionMessage)
    (out : Outcome STorRouterHTTPResponse)
    (hr : net.routers self = some r)
    (h : RouterRPCListener.Send E (fuel + 1) net self request = some (net1, out)) :
    (out = .err "shared key does not exist in map" ∧
      r.SharedKeyMap.lookup request.ClientId = none) ∨
    (out = .fault ∧ r.SharedKeyMap.lookup request.ClientId ≠ none) ∨
    (r.SharedKeyMap.lookup request.ClientId ≠ none ∧
      ∃ reply iv, out = .ok ⟨EncodeAndEncryptAES E.aes E.gobReply
        (net1.skOf self request.ClientId) iv reply⟩) := by
  simp only [RouterRPCListener.Send, hr] at h
  split at h
  · simp only [Option.some.injEq, Prod.mk.injEq] at h
    rename_i hno
    exact Or.inl ⟨h.2.symm, hno⟩
  · rename_i e hsk
    have hne : r.SharedKeyMap.lookup request.ClientId ≠ none := by simp [hsk]
    split at h
    · simp only [Option.some.injEq, Prod.mk.injEq] at h
      exact Or.inr (Or.inl ⟨h.2.symm, hne⟩)
    · split at h
      · split at h
        · simp only [Option.some.injEq, Prod.mk.injEq] at h
          obtain ⟨h1, h2⟩ := h
          subst h1 h2
          exact Or.inr (Or.inr ⟨hne, _, _, rfl⟩)
        · split at h
          · exact absurd h (by simp)
          · split at h
            · simp only [Option.some.injEq, Prod.mk.injEq] at h
              exact Or.inr (Or.inl ⟨h.2.symm, hne⟩)
            · split at h
              · simp only [Option.some.injEq, Prod.mk.injEq] at h
                obtain ⟨h1, h2⟩ := h
                subst h1 h2
                exact Or.inr (Or.inr ⟨hne, _, _, rfl⟩)
              · simp only [Option.some.injEq, Prod.mk.injEq] at h
                obtain ⟨h1, h2⟩ := h
                subst h1 h2
                exact Or.inr (Or.inr ⟨hne, _, _, rfl⟩)
      · split at h <;>
        · simp only [Option.some.injEq, Prod.mk.injEq] at h
          obtain ⟨h1, h2⟩ := h
          subst h1 h2
          exact Or.inr (Or.inr ⟨hne, _, _, rfl⟩)

/-- C11, the code at a failing input: router 1 of `keyedNet` holds a 16-byte key for
the client `c`; a `Send` for `c` with a nil onion, or with an onion of 15 bytes,
neither returns an error nor a reply: `DecryptAES` panics on the slice
`ciphertext[:16]`. -/
theorem Send_short_onion_faults :
    (keyedNet "").sharedKey "r1:1" "c" = some ⟨sampleKey 1, 300⟩ ∧
    (RouterRPCListener.Send sampleEnv 1 (keyedNet "") "r1:1" ⟨"c", []⟩).map (fun x => x.2) =
      some Outcome.fault ∧
    (RouterRPCListener.Send sampleEnv 1 (keyedNet "") "r1:1"
      ⟨"c", List.replicate 15 0⟩).map (fun x => x.2) = some Outcome.fault := by
  refine ⟨by decide, by decide, by decide⟩

/-- The returns of `Send`: it returns an RPC error if and only if `SharedKeyMap` has
no entry for `request.ClientId`.  When there is an entry and the handler returns, it
returns nil together with the output of `EncodeAndEncryptAES` for a `RouterReply`
under the key held for the client; a next-hop dial failure and the exit hop, also
on a web-server error, are such returns. -/
theorem Send_error_iff_no_entry (E : Env) (fuel : Nat) (net : Net) (self : String)
    (r : router.Router) (request : STorOnionMessage) (hr : net.routers self = some r) :
    (r.SharedKeyMap.lookup request.ClientId = none →
      RouterRPCListener.Send E (fuel + 1) net self request =
        some (net, .err "shared key does not exist in map")) ∧
    (∀ net1 out, RouterRPCListener.Send E (fuel + 1) net self request = some (net1, out) →
      ((∃ msg, out = .err msg) ↔ r.SharedKeyMap.lookup request.ClientId = none) ∧
      (∀ response, out = .ok response →
        ∃ reply iv, response.Response =
          EncodeAndEncryptAES E.aes E.gobReply (net1.skOf self request.ClientId) iv reply)) ∧
    (∀ e args, r.SharedKeyMap.lookup request.ClientId = some e →
      DecodeAndDecryptAES E.aes E.gobRequest e.sk request.Onion = some args →
      args.NextAddr ≠ "" → net.dial args.NextAddr = none →
      RouterRPCListener.Send E (fuel + 1) net self request =
        some (⟨net.routers, net.clock, net.draws + 1⟩,
          .ok ⟨EncodeAndEncryptAES E.aes E.gobReply e.sk (E.rand net.draws)
            (errReply "Unable to contact next router.")⟩)) ∧
    (∀ e args, r.SharedKeyMap.lookup request.ClientId = some e →
      DecodeAndDecryptAES E.aes E.gobRequest e.sk request.Onion = some args →
      args.NextAddr = "" →
      RouterRPCListener.Send E (fuel + 1) net self request =
        some (⟨net.routers, net.clock, net.draws + 1⟩,
          .ok ⟨EncodeAndEncryptAES E.aes E.gobReply e.sk (E.rand net.draws)
            (exitReply (E.web (Decode E.gobHTTP args.Payload).Url))⟩)) := by
  refine ⟨Send_no_entry E fuel net self r request hr, ?_, ?_, ?_⟩
  · intro net1 out h
    rcases Send_returns E fuel net net1 self r request out hr h with
      ⟨ho, hno⟩ | ⟨ho, hne⟩ | ⟨hne, reply, iv, ho⟩
    · subst ho
      exact ⟨⟨fun _ => hno, fun _ => ⟨_, rfl⟩⟩, fun response hresp => by simp at hresp⟩
    · subst ho
      refine ⟨⟨fun ⟨msg, hm⟩ => by simp at hm, fun hno => absurd hno hne⟩, ?_⟩
      intro response hresp
      simp at hresp
    · subst ho
      refine ⟨⟨fun ⟨msg, hm⟩ => by simp at hm, fun hno => absurd hno hne⟩, ?_⟩
      intro response hresp
      simp only [Outcome.ok.injEq] at hresp
      subst hresp
      exact ⟨reply, iv, rfl⟩
  · intro e args hsk hopen hfwd hdial
    exact Send_dial_none E fuel net self r request e args hr hsk hopen hfwd hdial
  · intro e args hsk hopen hexit
    exact Send_exit E fuel net self r request e args hr hsk hopen hexit

/-- The returns of `Send` at a concrete input: router 1 of `keyedNet` holds no entry
for the client `nobody`. -/
theorem Send_error_iff_no_entry_witness :
    RouterRPCListener.Send sampleEnv 1 (keyedNet "") "r1:1" ⟨"nobody", []⟩ =
      some (keyedNet "", .err "shared key does not exist in map") :=
  (Send_error_iff_no_entry sampleEnv 0 (keyedNet "") "r1:1"
    ⟨1, [1], [("c", ⟨sampleKey 1, 300⟩), ("old", ⟨sampleKey 9, 100⟩)], 2, false⟩
    ⟨"nobody", []⟩ (by decide)).1 (by decide)

/-- C20: during `Send` over an established circuit with 16-byte keys `k0`, `k1`
(the guard holds `k0` and the middle router `k1` for the client; the ring
addresses are not empty), if the guard cannot dial the middle router, or the middle
router cannot dial the exit, then `Send` at the guard returns nil and
`deonionizeMessage` on the bytes returned, with `[k0, k1, k2]`, yields no payload
and the error `"Unable to contact next router."`. -/
theorem Send_dial_failure_reaches_client (E : Env) (fuel c : Nat) (net : Net)
    (R0 R1 R2 : Router) (r0 : router.Router) (e0 : SharedKey) (k1 k2 : Bytes)
    (clientId : String) (msg : STorRouterHTTPRequest)
    (hfuel : 2 ≤ fuel)
    (hd0 : net.dial R0.Addr = some r0)
    (hs0 : r0.SharedKeyMap.lookup clientId = some e0)
    (hk0 : e0.sk.length = 16) (hk1 : k1.length = 16)
    (hn1 : R1.Addr ≠ "") (hn2 : R2.Addr ≠ "")
    (hfail : net.dial R1.Addr = none ∨
      (∃ r1 e1, net.dial R1.Addr = some r1 ∧ r1.SharedKeyMap.lookup clientId = some e1 ∧
        e1.sk = k1 ∧ net.dial R2.Addr = none)) :
    ∃ onion net1 response,
      onionizeMessage E c msg [R0, R1, R2] [e0.sk, k1, k2] clientId = some onion ∧
      RouterRPCListener.Send E fuel net R0.Addr onion = some (net1, .ok response) ∧
      deonionizeMessage E response.Response [e0.sk, k1, k2] =
        some (.error "Unable to contact next router.") := by
  obtain ⟨f, rfl⟩ : ∃ f, fuel = f + 2 := ⟨fuel - 2, by omega⟩
  obtain ⟨_, hr0, hc0⟩ := Net.dial_eq_some hd0
  have v0 := validAESKey_of_length hk0
  have v1 := validAESKey_of_length hk1
  let l0 : STorEncryptedRouterRequest := ⟨"", "", E.gobHTTP.encode msg, ""⟩
  let l1 : STorEncryptedRouterRequest :=
    ⟨"", R2.Addr, EncodeAndEncryptAES E.aes E.gobRequest k2 (E.rand c) l0, ""⟩
  let l2 : STorEncryptedRouterRequest :=
    ⟨"", R1.Addr, EncodeAndEncryptAES E.aes E.gobRequest k1 (E.rand (c + 1)) l1, ""⟩
  have hon : onionizeMessage E c msg [R0, R1, R2] [e0.sk, k1, k2] clientId =
      some ⟨clientId, EncodeAndEncryptAES E.aes E.gobRequest e0.sk (E.rand (c + 2)) l2⟩ := rfl
  have hopen0 : DecodeAndDecryptAES E.aes E.gobRequest e0.sk
      (EncodeAndEncryptAES E.aes E.gobRequest e0.sk (E.rand (c + 2)) l2) = some l2 :=
    DecodeAndDecryptAES_EncodeAndEncryptAES _ _ _ _ _ v0
  rcases hfail with hd1 | ⟨r1, e1, hd1, hs1, he1, hd2⟩
  · refine ⟨_, _, _, hon, Send_dial_none E (f + 1) net R0.Addr r0
      ⟨clientId, _⟩ e0 l2 hr0 hs0 hopen0 hn1 hd1, ?_⟩
    simp [deonionizeMessage, deonionizeLoop, DecodeAndDecryptAES_EncodeAndEncryptAES, v0,
      errReply]
  · obtain ⟨_, hr1, hc1⟩ := Net.dial_eq_some hd1
    subst he1
    have hopen1 : DecodeAndDecryptAES E.aes E.gobRequest e1.sk
        (EncodeAndEncryptAES E.aes E.gobRequest e1.sk (E.rand (c + 1)) l1) = some l1 :=
      DecodeAndDecryptAES_EncodeAndEncryptAES _ _ _ _ _ v1
    have hmid := Send_dial_none E f net R1.Addr r1
      ⟨clientId, EncodeAndEncryptAES E.aes E.gobRequest e1.sk (E.rand (c + 1)) l1⟩ e1 l1 hr1 hs1
      hopen1 hn2 hd2
    have htop := Send_relay E (f + 1) net _ R0.Addr r0 r1 r0
      ⟨clientId, EncodeAndEncryptAES E.aes E.gobRequest e0.sk (E.rand (c + 2)) l2⟩ e0 l2 _
      hr0 hs0 hopen0 hn1 hd1 hmid hr0 hc0
    refine ⟨_, _, _, hon, htop, ?_⟩
    simp [deonionizeMessage, deonionizeLoop, DecodeAndDecryptAES_EncodeAndEncryptAES, v0, v1,
      errReply, relayReply, SharedKeyMap.skOf_of_lookup hs0]

/-- C20 at a concrete input: the circuit of `keyedNet` with no process at the
address of the middle router. -/
theorem Send_dial_failure_reaches_client_witness :
    ∃ onion net1 response,
      onionizeMessage sampleEnv 0 ⟨[], "GET", "http://example/view/", []⟩
        [⟨1, [1], "r1:1"⟩, ⟨2, [2], "r2:1"⟩, ⟨3, [3], "r3:1"⟩]
        [sampleKey 1, sampleKey 2, sampleKey 3] "c" = some onion ∧
      RouterRPCListener.Send sampleEnv 2 (keyedNet "r2:1") "r1:1" onion =
        some (net1, .ok response) ∧
      deonionizeMessage sampleEnv response.Response [sampleKey 1, sampleKey 2, sampleKey 3] =
        some (.error "Unable to contact next router.") :=
  Send_dial_failure_reaches_client sampleEnv 2 0 (keyedNet "r2:1")
    ⟨1, [1], "r1:1"⟩ ⟨2, [2], "r2:1"⟩ ⟨3, [3], "r3:1"⟩
    ⟨1, [1], [("c", ⟨sampleKey 1, 300⟩), ("old", ⟨sampleKey 9, 100⟩)], 2, false⟩
    ⟨sampleKey 1, 300⟩ (sampleKey 2) (sampleKey 3) "c" ⟨[], "GET", "http://example/view/", []⟩
    (le_refl 2) (by decide) (by decide) rfl rfl (by decide) (by decide) (Or.inl (by decide))

/-! ## The heartbeat monitor -/

/-- An `int64` that is in range is not changed by wrapping. -/
theorem wrapInt64_of_range (x : Int) (hlo : -(2 ^ 63) ≤ x) (hhi : x < 2 ^ 63) :
    wrapInt64 x = x := by
  unfold wrapInt64
  rw [Int.emod_eq_of_lt (by omega) (by omega)]
  omega

/-- A difference of times that is in range is not changed by saturation. -/
theorem satInt64_of_range (x : Int) (hlo : -(2 ^ 63) ≤ x) (hhi : x < 2 ^ 63) :
    satInt64 x = x := by
  unfold satInt64
  rw [if_neg (by omega), if_neg (by omega)]

/-- Sending a heartbeat changes neither the counters nor the round-trip time. -/
theorem Monitor.sendHBeat_fields (m : Monitor) (sent : Int) :
    (if m.inner then m else m.sendHBeat sent).failedHB = m.failedHB
    ∧ (if m.inner then m else m.sendHBeat sent).lostMsgThresh = m.lostMsgThresh
    ∧ (if m.inner then m else m.sendHBeat sent).epochNonce = m.epochNonce
    ∧ (if m.inner then m else m.sendHBeat sent).routerId = m.routerId
    ∧ (if m.inner then m else m.sendHBeat sent).returned = m.returned
    ∧ (if m.inner then m else m.sendHBeat sent).rtt = m.rtt := by
  cases m.inner <;> simp [Monitor.sendHBeat]

/-- The inner loop body keeps the round-trip time at or above `minRtt`. -/
theorem Monitor.readAck_minRtt (m : Monitor) (now : Int) (result : ReadResult)
    (h : minRtt ≤ m.rtt) : minRtt ≤ (m.readAck now result).1.rtt := by
  cases result with
  | error t =>
    simp only [Monitor.readAck]
    split <;> simpa [Monitor.breakInner] using h
  | ack ack =>
    simp only [Monitor.readAck]
    split
    · split
      · split <;> (simp only [Monitor.breakInner]; split <;> omega)
      · simpa using h
    · exact h

/-- A step keeps the round-trip time at or above `minRtt`. -/
theorem Monitor.step_minRtt (m : Monitor) (inp : MonitorInput) (h : minRtt ≤ m.rtt) :
    minRtt ≤ (m.step inp).1.rtt := by
  cases inp with
  | stop =>
    simp only [Monitor.step]
    split <;> simpa using h
  | read sent now result =>
    simp only [Monitor.step]
    split
    · exact h
    · exact Monitor.readAck_minRtt _ now result (by rw [(m.sendHBeat_fields sent).2.2.2.2.2]; exact h)

/-- A run keeps the round-trip time at or above `minRtt`. -/
theorem Monitor.run_minRtt (inputs : List MonitorInput) :
    ∀ m : Monitor, minRtt ≤ m.rtt → minRtt ≤ (m.run inputs).1.rtt := by
  induction inputs with
  | nil => intro m h; exact h
  | cons inp inputs ih =>
    intro m h
    simp only [Monitor.run]
    exact ih _ (m.step_minRtt inp h)

/-- The round-trip time after the inner loop body has read an ack of the monitor's
epoch for a heartbeat in flight. -/
theorem Monitor.readAck_rtt (m : Monitor) (now : Int) (ack : AckMessage) (val : Int)
    (hepoch : ack.HBEatEpochNonce = m.epochNonce)
    (hval : m.heartBeatHistory.lookup ack.HBEatSeqNum = some val) :
    (m.readAck now (.ack ack)).1.rtt
      = if calculateNewRtt now val m.rtt < minRtt then minRtt
        else calculateNewRtt now val m.rtt := by
  simp only [Monitor.readAck, if_pos hepoch, hval]
  split <;> rfl

/-- C14: when the monitor reads an ack that carries its epoch nonce and the sequence
number of a heartbeat in flight, sent at `val`, the new round-trip time is the larger
of `minRtt` (300 ms) and the value of `calculateNewRtt`, which is
`(rtt + elapsed) / 2` with `elapsed = now - val` as long as the sum fits an `int64`;
and in every state a monitor reaches from its start, with `rtt` one second, the
round-trip time is at least `minRtt`. -/
theorem readAck_rtt_update (m : Monitor) (sent now val : Int) (ack : AckMessage)
    (hret : m.returned = false)
    (hepoch : ack.HBEatEpochNonce = m.epochNonce)
    (hval : (if m.inner then m else m.sendHBeat sent).heartBeatHistory.lookup
      ack.HBEatSeqNum = some val)
    (hrtt : 0 ≤ m.rtt) (helapsed : 0 ≤ now - val)
    (hsum : m.rtt + (now - val) < 2 ^ 63) :
    (m.step (.read sent now (.ack ack))).1.rtt = max minRtt ((m.rtt + (now - val)) / 2)
    ∧ minRtt = 300000000
    ∧ ∀ (routerId lostMsgThresh : Int) (epochNonce : Nat) (inputs : List MonitorInput),
        (handleSendingHBeats routerId lostMsgThresh epochNonce).rtt = 1000000000
        ∧ minRtt ≤ ((handleSendingHBeats routerId lostMsgThresh epochNonce).run inputs).1.rtt := by
  have hcalc : calculateNewRtt now val m.rtt = (m.rtt + (now - val)) / 2 := by
    unfold calculateNewRtt timeSince
    rw [satInt64_of_range _ (by omega) (by omega), wrapInt64_of_range _ (by omega) (by omega)]
    exact Int.tdiv_eq_ediv (by omega) (by decide)
  obtain ⟨_, _, he, _, _, hr⟩ := m.sendHBeat_fields sent
  refine ⟨?_, rfl, fun routerId lostMsgThresh epochNonce inputs => ⟨rfl, ?_⟩⟩
  · simp only [Monitor.step, hret, Bool.false_eq_true, if_false]
    rw [Monitor.readAck_rtt _ now ack val (by rw [he]; exact hepoch) hval, hr, hcalc]
    rcases lt_or_le ((m.rtt + (now - val)) / 2) minRtt with hlt | hge
    · rw [max_eq_left hlt.le, if_pos hlt]
    · rw [max_eq_right hge, if_neg (not_lt.mpr hge)]
  · exact Monitor.run_minRtt inputs _ (show minRtt ≤ oneSecond by decide)

/-- C14 at a monitor that has sent heartbeat 0 at time 0, with the ack read 200 ms
later: the new round-trip time is 600 ms. -/
theorem readAck_rtt_update_witness :
    ((MonitorNewRouter 1 7).step (.read 0 200000000 (.ack ⟨7, 0, 4⟩))).1.rtt
      = max minRtt ((oneSecond + (200000000 - 0)) / 2)
    ∧ minRtt = 300000000
    ∧ ∀ (routerId lostMsgThresh : Int) (epochNonce : Nat) (inputs : List MonitorInput),
        (handleSendingHBeats routerId lostMsgThresh epochNonce).rtt = 1000000000
        ∧ minRtt ≤ ((handleSendingHBeats routerId lostMsgThresh epochNonce).run inputs).1.rtt :=
  readAck_rtt_update (MonitorNewRouter 1 7) 0 200000000 0 ⟨7, 0, 4⟩ rfl rfl (by decide)
    (by decide) (by decide) (by decide)

/-- C13, as stated, fails: a monitor with epoch nonce 7 that reads an ack with epoch
nonce 8 puts a `RouterCircuitCount` on the circuit channel; and a monitor whose
failed count is 1 and whose heartbeat 0 is no longer in flight resets the failed
count to 0 when it reads a second ack of heartbeat 0. -/
theorem readAck_stale_emits_and_resets :
    ((MonitorNewRouter 1 7).step (.read 0 10 (.ack ⟨8, 0, 5⟩))).2
      = [.circuitCount 1 5]
    ∧ ((MonitorNewRouter 1 7).run
        [.read 0 10 (.ack ⟨7, 0, 5⟩), .read 1000 2000 (.error true)]).1.failedHB = 1
    ∧ ((MonitorNewRouter 1 7).run
        [.read 0 10 (.ack ⟨7, 0, 5⟩), .read 1000 2000 (.error true)]).1.heartBeatHistory.lookup 0
        = none
    ∧ ((MonitorNewRouter 1 7).run
        [.read 0 10 (.ack ⟨7, 0, 5⟩), .read 1000 2000 (.error true),
          .read 3000 3500 (.ack ⟨7, 0, 5⟩)]).1.failedHB = 0 := by
  decide

/-- C13, amended: the inner loop body of the monitor, reading an ack whose epoch
differs from the monitor's epoch nonce, leaves the whole state unchanged; reading an
ack of the monitor's epoch whose sequence number is not in `heartBeatHistory`, it
changes nothing but the failed count, which becomes 0.  In both cases it puts one
`RouterCircuitCount` with the ack's count on the circuit channel and no
`FailureDetected`. -/
theorem readAck_stale_frame (m : Monitor) (now : Int) (ack : AckMessage)
    (hstale : ack.HBEatEpochNonce ≠ m.epochNonce
      ∨ m.heartBeatHistory.lookup ack.HBEatSeqNum = none) :
    (m.readAck now (.ack ack)).2
      = [.circuitCount m.routerId (wrapInt64 ack.HBEatNumCircuits)]
    ∧ (m.readAck now (.ack ack)).1
      = (if ack.HBEatEpochNonce = m.epochNonce then { m with failedHB := 0 } else m)
    ∧ (m.readAck now (.ack ack)).1.rtt = m.rtt
    ∧ (m.readAck now (.ack ack)).1.heartBeatHistory = m.heartBeatHistory
    ∧ (ack.HBEatEpochNonce ≠ m.epochNonce →
        (m.readAck now (.ack ack)).1.failedHB = m.failedHB) := by
  by_cases hepoch : ack.HBEatEpochNonce = m.epochNonce
  · have hnone : m.heartBeatHistory.lookup ack.HBEatSeqNum = none := by
      rcases hstale with h | h
      · exact absurd hepoch h
      · exact h
    simp [Monitor.readAck, hepoch, hnone]
  · simp [Monitor.readAck, hepoch]

/-- C13, amended, at a monitor with epoch nonce 7 that has heartbeat 0 in flight and
reads an ack with epoch nonce 8. -/
theorem readAck_stale_frame_witness :
    (((MonitorNewRouter 1 7).sendHBeat 0).readAck 10 (.ack ⟨8, 0, 5⟩)).2
      = [.circuitCount ((MonitorNewRouter 1 7).sendHBeat 0).routerId
          (wrapInt64 (5 : Nat))]
    ∧ (((MonitorNewRouter 1 7).sendHBeat 0).readAck 10 (.ack ⟨8, 0, 5⟩)).1
      = (if (8 : Nat) = ((MonitorNewRouter 1 7).sendHBeat 0).epochNonce then
          { (MonitorNewRouter 1 7).sendHBeat 0 with failedHB := 0 }
        else (MonitorNewRouter 1 7).sendHBeat 0)
    ∧ (((MonitorNewRouter 1 7).sendHBeat 0).readAck 10 (.ack ⟨8, 0, 5⟩)).1.rtt
      = ((MonitorNewRouter 1 7).sendHBeat 0).rtt
    ∧ (((MonitorNewRouter 1 7).sendHBeat 0).readAck 10 (.ack ⟨8, 0, 5⟩)).1.heartBeatHistory
      = ((MonitorNewRouter 1 7).sendHBeat 0).heartBeatHistory
    ∧ ((8 : Nat) ≠ ((MonitorNewRouter 1 7).sendHBeat 0).epochNonce →
        (((MonitorNewRouter 1 7).sendHBeat 0).readAck 10 (.ack ⟨8, 0, 5⟩)).1.failedHB
          = ((MonitorNewRouter 1 7).sendHBeat 0).failedHB) :=
  readAck_stale_frame ((MonitorNewRouter 1 7).sendHBeat 0) 10 ⟨8, 0, 5⟩ (Or.inl (by decide))

/-- C12, as stated, fails: heartbeat 0 is acknowledged; heartbeats 1 and 2 time out;
while heartbeat 3 is in flight a second ack of heartbeat 0 arrives, which matches no
heartbeat in flight, and then the read times out.  Three heartbeats in a row went
unacknowledged, and the monitor has emitted no `FailureDetected`, has not returned,
and counts one failure. -/
theorem third_miss_after_duplicate_ack :
    (((MonitorNewRouter 1 7).run
        [.read 0 10 (.ack ⟨7, 0, 5⟩), .read 1000 2000 (.error true),
          .read 3000 4000 (.error true)]).1.heartBeatHistory.lookup 0 = none)
    ∧ (((MonitorNewRouter 1 7).run
        [.read 0 10 (.ack ⟨7, 0, 5⟩), .read 1000 2000 (.error true),
          .read 3000 4000 (.error true), .read 5000 5500 (.ack ⟨7, 0, 5⟩),
          .read 5000 6000 (.error true)]).2.filter MonitorOutput.isFailure = [])
    ∧ (((MonitorNewRouter 1 7).run
        [.read 0 10 (.ack ⟨7, 0, 5⟩), .read 1000 2000 (.error true),
          .read 3000 4000 (.error true), .read 5000 5500 (.ack ⟨7, 0, 5⟩),
          .read 5000 6000 (.error true)]).1.returned = false)
    ∧ (((MonitorNewRouter 1 7).run
        [.read 0 10 (.ack ⟨7, 0, 5⟩), .read 1000 2000 (.error true),
          .read 3000 4000 (.error true), .read 5000 5500 (.ack ⟨7, 0, 5⟩),
          .read 5000 6000 (.error true)]).1.failedHB = 1)
    ∧ (((MonitorNewRouter 1 7).run
        [.read 0 10 (.ack ⟨7, 0, 5⟩), .read 1000 2000 (.error true),
          .read 3000 4000 (.error true), .read 5000 5500 (.ack ⟨7, 0, 5⟩),
          .read 5000 6000 (.error true)]).1.heartBeatHistory.map Prod.fst = [3, 2, 1]) := by
  decide

/-- A run over two sequences of inputs is the run over the first followed by the run
over the second. -/
theorem Monitor.run_append (l1 l2 : List MonitorInput) :
    ∀ m : Monitor,
      m.run (l1 ++ l2)
        = (((m.run l1).1.run l2).1, (m.run l1).2 ++ ((m.run l1).1.run l2).2) := by
  induction l1 with
  | nil => intro m; simp [Monitor.run]
  | cons inp l1 ih =>
    intro m
    rw [List.cons_append]
    simp only [Monitor.run]
    rw [ih (m.step inp).1, List.append_assoc]

/-- A run over one more input is one more step. -/
theorem Monitor.run_concat (l : List MonitorInput) (inp : MonitorInput) (m : Monitor) :
    m.run (l ++ [inp])
      = (((m.run l).1.step inp).1, (m.run l).2 ++ ((m.run l).1.step inp).2) := by
  rw [Monitor.run_append]
  simp [Monitor.run]

/-- The failed reads at the end of a sequence with one more input. -/
theorem trailingMisses_concat (epochNonce : Nat) (l : List MonitorInput)
    (inp : MonitorInput) :
    trailingMisses epochNonce (l ++ [inp])
      = match inp with
        | .read _ _ (.error _) => trailingMisses epochNonce l + 1
        | .read _ _ (.ack ack) =>
          if ack.HBEatEpochNonce = epochNonce then 0 else trailingMisses epochNonce l
        | .stop => trailingMisses epochNonce l := by
  simp only [trailingMisses, List.foldl_append, List.foldl_cons, List.foldl_nil]

/-- What one read does to a monitor that has not returned, whose threshold is 3 and
whose failed count is below 3. -/
theorem Monitor.step_read (m : Monitor) (sent now : Int) (result : ReadResult) (n : Nat)
    (hret : m.returned = false) (hthresh : m.lostMsgThresh = 3)
    (hfailed : m.failedHB = n) :
    (m.step (.read sent now result)).1.lostMsgThresh = 3
    ∧ (m.step (.read sent now result)).1.epochNonce = m.epochNonce
    ∧ (m.step (.read sent now result)).1.routerId = m.routerId
    ∧ (match result with
      | .error _ =>
        if n + 1 = 3 then
          (m.step (.read sent now result)).1.returned = true
          ∧ ∃ ts, (m.step (.read sent now result)).2 = [.failureDetected m.routerId ts]
        else
          (m.step (.read sent now result)).1.returned = false
          ∧ (m.step (.read sent now result)).1.failedHB = ((n + 1 : Nat) : Int)
          ∧ (m.step (.read sent now result)).2 = []
      | .ack ack =>
        (m.step (.read sent now result)).1.returned = false
        ∧ (m.step (.read sent now result)).1.failedHB
            = (if ack.HBEatEpochNonce = m.epochNonce then 0 else (n : Int))
        ∧ (m.step (.read sent now result)).2
            = [.circuitCount m.routerId (wrapInt64 ack.HBEatNumCircuits)]) := by
  have hstep : m.step (.read sent now result)
      = (if m.inner then m else m.sendHBeat sent).readAck now result := by
    simp [Monitor.step, hret]
  rw [hstep]
  obtain ⟨hf, ht, he, hi, hr, _⟩ := m.sendHBeat_fields sent
  generalize (if m.inner then m else m.sendHBeat sent) = m1 at hf ht he hi hr
  rw [hfailed] at hf
  rw [hthresh] at ht
  rw [hret] at hr
  cases result with
  | error t =>
    by_cases h3 : n + 1 = 3
    · have hc : (n : Int) + 1 = 3 := by omega
      simp [Monitor.readAck, hc, h3, ht, he, hi, hf]
    · have hc : ¬ (n : Int) + 1 = 3 := by omega
      simp [Monitor.readAck, hc, h3, ht, he, hi, hr, hf, Monitor.breakInner]
  | ack ack =>
    by_cases hepoch : ack.HBEatEpochNonce = m1.epochNonce
    · have hepoch2 : ack.HBEatEpochNonce = m.epochNonce := by rw [← he]; exact hepoch
      cases hlook : m1.heartBeatHistory.lookup ack.HBEatSeqNum with
      | none => simp [Monitor.readAck, hepoch, hepoch2, hlook, ht, he, hi, hr]
      | some val =>
        by_cases hseq : ack.HBEatSeqNum = m1.hbmsgSeqNum
        · have hlook2 := hlook
          rw [hseq] at hlook2
          simp [Monitor.readAck, hepoch, hepoch2, hlook2, hseq, ht, he, hi, hr,
            Monitor.breakInner]
        · simp [Monitor.readAck, hepoch, hepoch2, hlook, hseq, ht, he, hi, hr]
    · have hepoch2 : ¬ ack.HBEatEpochNonce = m.epochNonce := by rw [← he]; exact hepoch
      simp [Monitor.readAck, hepoch, hepoch2, ht, he, hi, hr, hf]

/-- What holds of a monitor started by `MonitorNewRouter` after any inputs without a
stop: either it has not returned, counts the failed reads since the last ack of its
epoch, fewer than 3, and has emitted no failure; or it has returned and has emitted
one failure, at the first read that brought the count to 3. -/
theorem Monitor.run_invariant (routerId : Int) (epochNonce : Nat)
    (inputs : List MonitorInput) (hrun : ∀ inp ∈ inputs, inp ≠ MonitorInput.stop) :
    ((MonitorNewRouter routerId epochNonce).run inputs).1.lostMsgThresh = 3
    ∧ ((MonitorNewRouter routerId epochNonce).run inputs).1.epochNonce = epochNonce
    ∧ ((MonitorNewRouter routerId epochNonce).run inputs).1.routerId = routerId
    ∧ ((((MonitorNewRouter routerId epochNonce).run inputs).1.returned = false
        ∧ ((MonitorNewRouter routerId epochNonce).run inputs).1.failedHB
            = ((trailingMisses epochNonce inputs : Nat) : Int)
        ∧ trailingMisses epochNonce inputs < 3
        ∧ ((MonitorNewRouter routerId epochNonce).run inputs).2.filter
            MonitorOutput.isFailure = []
        ∧ ∀ p, p <+: inputs → trailingMisses epochNonce p ≠ 3)
      ∨ (((MonitorNewRouter routerId epochNonce).run inputs).1.returned = true
        ∧ ∃ p sent now t, (p ++ [MonitorInput.read sent now (.error t)]) <+: inputs
          ∧ trailingMisses epochNonce (p ++ [MonitorInput.read sent now (.error t)]) = 3
          ∧ (∀ q, q <+: p → trailingMisses epochNonce q ≠ 3)
          ∧ ∃ ts, ((MonitorNewRouter routerId epochNonce).run inputs).2.filter
              MonitorOutput.isFailure = [.failureDetected routerId ts])) := by
  induction inputs using List.reverseRecOn with
  | nil =>
    refine ⟨rfl, rfl, rfl, Or.inl ⟨rfl, rfl, by simp [trailingMisses], rfl, ?_⟩⟩
    intro p hp
    have : p = [] := List.prefix_nil.mp hp
    subst this
    simp [trailingMisses]
  | append_singleton l x ih =>
    have hl : ∀ inp ∈ l, inp ≠ MonitorInput.stop := fun inp hinp =>
      hrun inp (List.mem_append_left _ hinp)
    have hx : x ≠ MonitorInput.stop := hrun x (by simp)
    obtain ⟨ht, he, hi, hcase⟩ := ih hl
    rw [Monitor.run_concat]
    generalize hm : ((MonitorNewRouter routerId epochNonce).run l).1 = m at ht he hi hcase
    generalize hout : ((MonitorNewRouter routerId epochNonce).run l).2 = out at hcase
    rcases hcase with ⟨hret, hfailed, hlt, hnone, hfirst⟩ |
      ⟨hret, p, sent, now, t, hp, h3, hq, ts, hone⟩
    · cases x with
      | stop => exact absurd rfl hx
      | read sent now result =>
        obtain ⟨ht2, he2, hi2, hres⟩ :=
          m.step_read sent now result (trailingMisses epochNonce l) hret ht hfailed
        refine ⟨ht2, he2.trans he, hi2.trans hi, ?_⟩
        cases result with
        | error t =>
          simp only at hres
          by_cases hthree : trailingMisses epochNonce l + 1 = 3
          · rw [if_pos hthree] at hres
            obtain ⟨hret2, ts, hts⟩ := hres
            refine Or.inr ⟨hret2, l, sent, now, t, List.prefix_refl _, ?_, hfirst, ts, ?_⟩
            · rw [trailingMisses_concat]; exact hthree
            · rw [hts, List.filter_append, hnone, hi]; rfl
          · rw [if_neg hthree] at hres
            have hmiss : trailingMisses epochNonce (l ++ [MonitorInput.read sent now (.error t)])
                = trailingMisses epochNonce l + 1 := by rw [trailingMisses_concat]
            refine Or.inl ⟨hres.1, ?_, ?_, ?_, ?_⟩
            · rw [hres.2.1, hmiss]
            · rw [hmiss]; omega
            · rw [hres.2.2, List.append_nil]; exact hnone
            · intro q hq
              rcases List.prefix_concat_iff.mp hq with h | h
              · rw [h, hmiss]; exact hthree
              · exact hfirst q h
        | ack ack =>
          simp only at hres
          have hmiss : trailingMisses epochNonce (l ++ [MonitorInput.read sent now (.ack ack)])
              = if ack.HBEatEpochNonce = epochNonce then 0
                else trailingMisses epochNonce l := by rw [trailingMisses_concat]
          refine Or.inl ⟨hres.1, ?_, ?_, ?_, ?_⟩
          · rw [hres.2.1, hmiss, he]
            split <;> simp
          · rw [hmiss]; split <;> omega
          · rw [hres.2.2, List.filter_append, hnone]; rfl
          · intro q hq
            rcases List.prefix_concat_iff.mp hq with h | h
            · rw [h, hmiss]; split <;> omega
            · exact hfirst q h
    · have hstep : m.step x = (m, []) := by
        cases x with
        | stop => exact absurd rfl hx
        | read sent2 now2 result => simp [Monitor.step, hret]
      rw [hstep]
      refine ⟨ht, he, hi, Or.inr ⟨hret, p, sent, now, t, ?_, h3, hq, ts, ?_⟩⟩
      · exact hp.trans (List.prefix_append _ _)
      · rw [List.append_nil]; exact hone

/-- C12, amended: a monitor started by `MonitorNewRouter` (threshold 3) that is not
stopped emits `FailureDetected` exactly at the third failed read in a row with no ack
carrying its epoch nonce in between, whether or not the sequence number of such an
ack is in flight.  At every moment of a run: as long as no read so far has completed
three such failed reads, the monitor has not returned, has emitted no failure, and
its failed count is the number of failed reads since the last ack of its epoch; once
a read has completed three, the monitor has returned and has emitted one failure. -/
theorem FailureDetected_at_third_miss (routerId : Int) (epochNonce : Nat)
    (inputs : List MonitorInput) (hrun : ∀ inp ∈ inputs, inp ≠ MonitorInput.stop) :
    ∀ p, p <+: inputs →
      ((∀ q, q <+: p → trailingMisses epochNonce q ≠ 3) →
        ((MonitorNewRouter routerId epochNonce).run p).1.returned = false
        ∧ ((MonitorNewRouter routerId epochNonce).run p).2.filter MonitorOutput.isFailure = []
        ∧ ((MonitorNewRouter routerId epochNonce).run p).1.failedHB
            = ((trailingMisses epochNonce p : Nat) : Int))
      ∧ ((∃ q, q <+: p ∧ trailingMisses epochNonce q = 3) →
        ((MonitorNewRouter routerId epochNonce).run p).1.returned = true
        ∧ ∃ ts, ((MonitorNewRouter routerId epochNonce).run p).2.filter MonitorOutput.isFailure
            = [.failureDetected routerId ts]) := by
  intro p hp
  have hrunp : ∀ inp ∈ p, inp ≠ MonitorInput.stop := fun inp hinp =>
    hrun inp (hp.subset hinp)
  obtain ⟨_, _, _, hcase⟩ := Monitor.run_invariant routerId epochNonce p hrunp
  refine ⟨?_, ?_⟩
  · intro hno
    rcases hcase with ⟨hret, hfailed, _, hnone, _⟩ | ⟨_, q, sent, now, t, hq, h3, _, _⟩
    · exact ⟨hret, hnone, hfailed⟩
    · exact absurd h3 (hno _ hq)
  · rintro ⟨q, hq, h3⟩
    rcases hcase with ⟨_, _, _, _, hfirst⟩ | ⟨hret, _, _, _, _, _, _, _, ts, hone⟩
    · exact absurd h3 (hfirst _ hq)
    · exact ⟨hret, ts, hone⟩

/-- C12, amended, at three failed reads followed by one more read: after the third
read, and still after the fourth, the monitor has returned and has emitted one
failure. -/
theorem FailureDetected_at_third_miss_witness :
    (∀ inp ∈ sampleMisses, inp ≠ MonitorInput.stop)
    ∧ (((MonitorNewRouter 1 7).run sampleMisses).1.returned = true
      ∧ ∃ ts, ((MonitorNewRouter 1 7).run sampleMisses).2.filter MonitorOutput.isFailure
          = [.failureDetected 1 ts]) :=
  ⟨by decide,
    ((FailureDetected_at_third_miss 1 7 sampleMisses (by decide)) sampleMisses
      (List.prefix_refl _)).2
      ⟨[.read 0 1000 (.error true), .read 1000 2000 (.error true),
          .read 2000 3000 (.error false)],
        ⟨[.read 3000 3500 (.ack ⟨7, 2, 5⟩)], rfl⟩, by decide⟩⟩

/-! ## C22, C23, C28: teardown, the counter and repeated `Init` -/

theorem Teardown_dial_none (E : Env) (fuel : Nat) (net : Net) (self : String)
    (r : router.Router) (req : STorGeneralRouterPackageRequest)
    (args : STorEncryptedRouterRequest)
    (hr : net.routers self = some r) (ht : req.EncryptionType = "AES")
    (hopen : DecodeAndDecryptAES E.aes E.gobRequest (r.SharedKeyMap.skOf req.ClientId)
      req.Payload = some args)
    (hfwd : args.NextAddr ≠ "") (hdial : net.dial args.NextAddr = none) :
    RouterRPCListener.Teardown E (fuel + 1) net self req =
      some (⟨net.routers, net.clock, net.draws + 1⟩,
        .ok ⟨EncodeAndEncryptAES E.aes E.gobReply (r.SharedKeyMap.skOf req.ClientId)
          (E.rand net.draws) (errReply "Unable to contact next router.")⟩) := by
  simp [RouterRPCListener.Teardown, hr, ht, hopen, hfwd, hdial, Net.seal, Net.skOf]

/-- C22, the code at a failing input: the middle router of `keyedNet` holds the key
of the client `c` and reports one active circuit; nothing listens at the address of
the exit.  Its `Teardown` handler, given a well-sealed request naming the exit as the
next hop, returns nil with a reply that opens to `DidSucceed = false` and
`"Unable to contact next router."`, and returns before the `delete` and the
decrement: the entry for `c` is still there and the counter is still 1. -/
theorem Teardown_dial_failure_keeps_entry :
    ∃ net1 response,
      RouterRPCListener.Teardown sampleEnv 1 (keyedNet "r3:1") "r2:1" sampleTeardownAtMiddle =
        some (net1, .ok response) ∧
      DecodeAndDecryptAES sampleEnv.aes sampleEnv.gobReply (sampleKey 2) response.Payload =
        some (errReply "Unable to contact next router.") ∧
      (keyedNet "r3:1").sharedKey "r2:1" "c" = some ⟨sampleKey 2, 300⟩ ∧
      (keyedNet "r3:1").activeCircuits "r2:1" = some 1 ∧
      net1.sharedKey "r2:1" "c" = some ⟨sampleKey 2, 300⟩ ∧
      net1.activeCircuits "r2:1" = some 1 := by
  have hr : (keyedNet "r3:1").routers "r2:1" =
      some ⟨2, [2], [("c", ⟨sampleKey 2, 300⟩)], 1, false⟩ := by decide
  have hv : validAESKey (sampleKey 2) = true := by decide
  have h := Teardown_dial_none sampleEnv 0 (keyedNet "r3:1") "r2:1" _ sampleTeardownAtMiddle
    ⟨"c", "r3:1", [], "AES"⟩ hr rfl
    (DecodeAndDecryptAES_EncodeAndEncryptAES _ _ _ (Block.const 0) _ hv) (by decide) (by decide)
  refine ⟨_, _, h, ?_, by decide, by decide, by decide, by decide⟩
  exact DecodeAndDecryptAES_EncodeAndEncryptAES _ _ _ _ _ hv

/-- C23, the code at two failing inputs.  Router 1 of `sampleNet` holds no entry and
its counter is 0: a `Teardown` with `EncryptionType` `"AES"` for the client `c`
deletes nothing and sets the counter to 2^64 - 1.  The middle router of `keyedNet`
holds one entry, for `c`, and its counter is 1: a `Teardown` for the client `x`
deletes nothing, the entry for `c` stays, and the counter drops to 0. -/
theorem Teardown_without_entry_decrements :
    sampleNet.numKeys "r1:1" = some 0
    ∧ sampleNet.activeCircuits "r1:1" = some 0
    ∧ (RouterRPCListener.Teardown sampleEnv 1 sampleNet "r1:1" ⟨"c", [], "AES"⟩).map
        (fun x => (x.1.numKeys "r1:1", x.1.activeCircuits "r1:1", x.2))
      = some (some 0, some 18446744073709551615, .ok ⟨[]⟩)
    ∧ (keyedNet "").numKeys "r2:1" = some 1
    ∧ (keyedNet "").activeCircuits "r2:1" = some 1
    ∧ (RouterRPCListener.Teardown sampleEnv 1 (keyedNet "") "r2:1" ⟨"x", [], "AES"⟩).map
        (fun x => (x.1.sharedKey "r2:1" "c", x.1.numKeys "r2:1", x.1.activeCircuits "r2:1", x.2))
      = some (some ⟨sampleKey 2, 300⟩, some 1, some 0, .ok ⟨[]⟩) := by
  refine ⟨by decide, by decide, by decide, by decide, by decide, by decide⟩

theorem SharedKeyMap.filter_ne_of_not_mem (m : SharedKeyMap) (k : String)
    (h : k ∉ m.map Prod.fst) : m.filter (fun e => e.1 != k) = m := by
  rw [List.filter_eq_self]
  intro e he
  have : e.1 ≠ k := fun hk => h (hk ▸ List.mem_map_of_mem Prod.fst he)
  simpa using this

theorem SharedKeyMap.length_set (m : SharedKeyMap) (k : String) (e v : SharedKey)
    (hnodup : (m.map Prod.fst).Nodup) (hlook : m.lookup k = some e) :
    (m.set k v).length = m.length := by
  induction m with
  | nil => simp at hlook
  | cons x t ih =>
    obtain ⟨k1, v1⟩ := x
    simp only [List.map_cons, List.nodup_cons] at hnodup
    by_cases hk : k1 = k
    · subst hk
      have := SharedKeyMap.filter_ne_of_not_mem t k1 hnodup.1
      simp only [SharedKeyMap.set] at *
      simp [List.filter_cons, this]
    · have hk2 : (k == k1) = false := by simpa using fun h => hk h.symm
      have hlook2 : List.lookup k t = some e := by
        simpa [List.lookup, hk2] using hlook
      have := ih hnodup.2 hlook2
      simp only [SharedKeyMap.set, List.length_cons] at *
      simp [List.filter_cons, hk, this]

/-- C28: an ASYM `Init` (`EncryptionType` other than `"AES"`) for a client id that
already has an entry in `SharedKeyMap` increments `NumOfActiveCircuits` again, as a
`uint64`, and leaves the number of entries of `SharedKeyMap` as it was: the entry is
overwritten. -/
theorem Init_asym_again (E : Env) (fuel : Nat) (net : Net) (self : String)
    (r : router.Router) (request : STorGeneralRouterPackageRequest) (e : SharedKey)
    (hr : net.routers self = some r) (ht : request.EncryptionType ≠ "AES")
    (hnodup : (r.SharedKeyMap.map Prod.fst).Nodup)
    (hentry : r.SharedKeyMap.lookup request.ClientId = some e) :
    ∃ net1 response,
      RouterRPCListener.Init E (fuel + 1) net self request = some (net1, .ok response) ∧
      net1.activeCircuits self = some ((r.NumOfActiveCircuits + 1) % uint64Mod) ∧
      (r.NumOfActiveCircuits + 1 < uint64Mod →
        net1.activeCircuits self = some (r.NumOfActiveCircuits + 1)) ∧
      net1.numKeys self = some r.SharedKeyMap.length ∧
      net1.numKeys self = net.numKeys self ∧
      net1.sharedKey self request.ClientId =
        some ⟨(DecodeAndDecryptRSA E.rsa E.gobRequest r.PrivateKey request.Payload).Payload,
          net.clock + fiveMinutes⟩ := by
  refine ⟨_, _, Init_rsa E fuel net self r request hr ht, ?_, ?_, ?_, ?_, ?_⟩
  · simp [Net.activeCircuits]
  · intro hlt
    simp [Net.activeCircuits, Nat.mod_eq_of_lt hlt]
  · simp [Net.numKeys, SharedKeyMap.length_set _ _ e _ hnodup hentry]
  · simp [Net.numKeys, hr, SharedKeyMap.length_set _ _ e _ hnodup hentry]
  · simp [Net.sharedKey, SharedKeyMap.lookup_set]

/-- C28 at a concrete input: the guard of `keyedNet` holds entries for `c` and `old`
and reports 2 circuits; after another ASYM `Init` for `c` it holds 2 entries and
reports 3. -/
theorem Init_asym_again_witness :
    ∃ net1 response,
      RouterRPCListener.Init sampleEnv 1 (keyedNet "") "r1:1" ⟨"c", [], "RSA"⟩ =
        some (net1, .ok response) ∧
      net1.activeCircuits "r1:1" = some ((2 + 1) % uint64Mod) ∧
      (2 + 1 < uint64Mod → net1.activeCircuits "r1:1" = some (2 + 1)) ∧
      net1.numKeys "r1:1" = some 2 ∧
      net1.numKeys "r1:1" = (keyedNet "").numKeys "r1:1" ∧
      net1.sharedKey "r1:1" "c" =
        some ⟨(DecodeAndDecryptRSA sampleEnv.rsa sampleEnv.gobRequest [1] []).Payload,
          (keyedNet "").clock + fiveMinutes⟩ :=
  Init_asym_again sampleEnv 0 (keyedNet "") "r1:1"
    ⟨1, [1], [("c", ⟨sampleKey 1, 300⟩), ("old", ⟨sampleKey 9, 100⟩)], 2, false⟩
    ⟨"c", [], "RSA"⟩ ⟨sampleKey 1, 300⟩ (by decide) (by decide) (by decide) (by decide)

/-! ## C21: payloads that do not decode -/

theorem DecodeAndDecryptAES_undecodable {α : Type} [Inhabited α] (aes : Bytes → Block → Block)
    (g : Gob α) (key ciphertext p : Bytes) (hopen : DecryptAES aes key ciphertext = some p)
    (hdec : g.decode p = none) :
    DecodeAndDecryptAES aes g key ciphertext = some (g.onError default p) := by
  simp [DecodeAndDecryptAES, hopen, Decode, hdec]

theorem DecodeAndDecryptRSA_undecodable {α : Type} [Inhabited α] (rsa : RsaLib) (g : Gob α)
    (prk : PrivateKey) (ciphertext : Bytes)
    (hdec : g.decode (DecryptRSAPrivate rsa prk ciphertext) = none) :
    DecodeAndDecryptRSA rsa g prk ciphertext
      = g.onError default (DecryptRSAPrivate rsa prk ciphertext) := by
  simp [DecodeAndDecryptRSA, Decode, hdec]

theorem Init_dial_none (E : Env) (fuel : Nat) (net : Net) (self : String)
    (r : router.Router) (req : STorGeneralRouterPackageRequest)
    (args : STorEncryptedRouterRequest)
    (hr : net.routers self = some r) (ht : req.EncryptionType = "AES")
    (hopen : DecodeAndDecryptAES E.aes E.gobRequest (r.SharedKeyMap.skOf req.ClientId)
      req.Payload = some args)
    (hdial : net.dial args.NextAddr = none) :
    RouterRPCListener.Init E (fuel + 1) net self req =
      some (⟨net.routers, net.clock, net.draws + 1⟩,
        .ok ⟨EncodeAndEncryptAES E.aes E.gobReply (r.SharedKeyMap.skOf req.ClientId)
          (E.rand net.draws) (errReply "Unable to contact next router.")⟩) := by
  simp [RouterRPCListener.Init, hr, ht, hopen, hdial, Net.seal, Net.skOf]

theorem Init_never_err (E : Env) (fuel : Nat) (net net1 : Net) (self : String)
    (request : STorGeneralRouterPackageRequest) (msg : String) :
    RouterRPCListener.Init E fuel net self request ≠ some (net1, .err msg) := by
  intro h
  cases fuel with
  | zero => simp [RouterRPCListener.Init] at h
  | succ f =>
    simp only [RouterRPCListener.Init] at h
    repeat' split at h
    all_goals simp [Net.seal] at h

theorem Teardown_never_err (E : Env) (fuel : Nat) (net net1 : Net) (self : String)
    (request : STorGeneralRouterPackageRequest) (msg : String) :
    RouterRPCListener.Teardown E fuel net self request ≠ some (net1, .err msg) := by
  intro h
  cases fuel with
  | zero => simp [RouterRPCListener.Teardown] at h
  | succ f =>
    simp only [RouterRPCListener.Teardown] at h
    repeat' split at h
    all_goals simp [Net.seal] at h

/-- C21, as stated, fails: no handler fails the RPC on a payload that does not
decode.  The empty payload does not open under the private key of router 1 of
`sampleNet`, and its ASYM `Init` returns nil; sixteen zero bytes open under the AES
key of the middle router of `keyedNet` to the empty byte string, which does not
decode, and its `Init`, `Teardown` and `Send` return nil. -/
theorem undecodable_payload_returns_nil :
    sampleEnv.rsa.decryptOAEP [1] [] = none
    ∧ (RouterRPCListener.Init sampleEnv 1 sampleNet "r1:1" ⟨"c", [], "RSA"⟩).map
        (fun x => x.2) = some (.ok ⟨[]⟩)
    ∧ DecryptAES sampleEnv.aes (sampleKey 2) zeroBlockPayload = some []
    ∧ sampleEnv.gobRequest.decode [] = none
    ∧ (RouterRPCListener.Init sampleEnv 1 (keyedNet "") "r2:1"
        ⟨"c", zeroBlockPayload, "AES"⟩).map (fun x => x.2.isOk) = some true
    ∧ (RouterRPCListener.Teardown sampleEnv 1 (keyedNet "") "r2:1"
        ⟨"c", zeroBlockPayload, "AES"⟩).map (fun x => x.2) = some (.ok ⟨[]⟩)
    ∧ (RouterRPCListener.Send sampleEnv 1 (keyedNet "") "r2:1"
        ⟨"c", zeroBlockPayload⟩).map (fun x => x.2.isOk) = some true := by
  refine ⟨by decide, by decide, by decide, by decide, by decide, by decide, by decide⟩

/-- C21, amended: a handler does not fail the RPC on a payload that opens but does not
decode to an encrypted router request.  `DecodeAndDecryptRSA` and
`DecodeAndDecryptAES` drop the decoding error and the handler goes on with the
request as the decoder left it.  `Init` and `Teardown` return no error on any path,
and `Send` returns one only when `SharedKeyMap` has no entry for the client.  With
such a payload the ASYM branch of `Init` stores the payload field of that request as
the key, bumps the counter and returns nil; the AES branch of `Init`, `Teardown` and
`Send` return nil with a sealed `"Unable to contact next router."` when the next
address of that request cannot be dialled, and `Teardown` and `Send` act as the exit
does when that address is empty. -/
theorem handlers_on_undecodable_payload (E : Env) (fuel : Nat) (net : Net) (self : String)
    (r : router.Router) (hr : net.routers self = some r) :
    (∀ (request : STorGeneralRouterPackageRequest) (net1 : Net) (msg : String),
      RouterRPCListener.Init E fuel net self request ≠ some (net1, .err msg))
    ∧ (∀ (request : STorGeneralRouterPackageRequest) (net1 : Net) (msg : String),
      RouterRPCListener.Teardown E fuel net self request ≠ some (net1, .err msg))
    ∧ (∀ (request : STorOnionMessage) (net1 : Net) (msg : String),
      RouterRPCListener.Send E (fuel + 1) net self request = some (net1, .err msg) →
      r.SharedKeyMap.lookup request.ClientId = none)
    ∧ (∀ request : STorGeneralRouterPackageRequest, request.EncryptionType ≠ "AES" →
      E.gobRequest.decode (DecryptRSAPrivate E.rsa r.PrivateKey request.Payload) = none →
      RouterRPCListener.Init E (fuel + 1) net self request =
        some (⟨Function.update net.routers self
            (some (r.withKey request.ClientId
              (E.gobRequest.onError default
                (DecryptRSAPrivate E.rsa r.PrivateKey request.Payload)).Payload
              (net.clock + fiveMinutes))),
          net.clock, net.draws + 1⟩,
          .ok ⟨EncodeAndEncryptAES E.aes E.gobReply
            (E.gobRequest.onError default
              (DecryptRSAPrivate E.rsa r.PrivateKey request.Payload)).Payload
            (E.rand net.draws) (okReply [])⟩))
    ∧ (∀ (request : STorGeneralRouterPackageRequest) (p : Bytes),
      request.EncryptionType = "AES" →
      DecryptAES E.aes (r.SharedKeyMap.skOf request.ClientId) request.Payload = some p →
      E.gobRequest.decode p = none →
      (net.dial (E.gobRequest.onError default p).NextAddr = none →
        RouterRPCListener.Init E (fuel + 1) net self request =
          some (⟨net.routers, net.clock, net.draws + 1⟩,
            .ok ⟨EncodeAndEncryptAES E.aes E.gobReply (r.SharedKeyMap.skOf request.ClientId)
              (E.rand net.draws) (errReply "Unable to contact next router.")⟩))
      ∧ ((E.gobRequest.onError default p).NextAddr = "" →
        RouterRPCListener.Teardown E (fuel + 1) net self request =
          some (⟨Function.update net.routers self (some (r.withoutKey request.ClientId)),
            net.clock, net.draws⟩, .ok ⟨[]⟩))
      ∧ ((E.gobRequest.onError default p).NextAddr ≠ "" →
        net.dial (E.gobRequest.onError default p).NextAddr = none →
        RouterRPCListener.Teardown E (fuel + 1) net self request =
          some (⟨net.routers, net.clock, net.draws + 1⟩,
            .ok ⟨EncodeAndEncryptAES E.aes E.gobReply (r.SharedKeyMap.skOf request.ClientId)
              (E.rand net.draws) (errReply "Unable to contact next router.")⟩)))
    ∧ (∀ (request : STorOnionMessage) (e : SharedKey) (p : Bytes),
      r.SharedKeyMap.lookup request.ClientId = some e →
      DecryptAES E.aes e.sk request.Onion = some p →
      E.gobRequest.decode p = none →
      ((E.gobRequest.onError default p).NextAddr = "" →
        RouterRPCListener.Send E (fuel + 1) net self request =
          some (⟨net.routers, net.clock, net.draws + 1⟩,
            .ok ⟨EncodeAndEncryptAES E.aes E.gobReply e.sk (E.rand net.draws)
              (exitReply (E.web
                (Decode E.gobHTTP (E.gobRequest.onError default p).Payload).Url))⟩))
      ∧ ((E.gobRequest.onError default p).NextAddr ≠ "" →
        net.dial (E.gobRequest.onError default p).NextAddr = none →
        RouterRPCListener.Send E (fuel + 1) net self request =
          some (⟨net.routers, net.clock, net.draws + 1⟩,
            .ok ⟨EncodeAndEncryptAES E.aes E.gobReply e.sk (E.rand net.draws)
              (errReply "Unable to contact next router.")⟩))) := by
  refine ⟨fun request net1 msg => Init_never_err E fuel net net1 self request msg,
    fun request net1 msg => Teardown_never_err E fuel net net1 self request msg, ?_, ?_, ?_, ?_⟩
  · intro request net1 msg h
    rcases Send_returns E fuel net net1 self r request _ hr h with
      ⟨_, hno⟩ | ⟨ho, _⟩ | ⟨_, _, _, ho⟩
    · exact hno
    · simp at ho
    · simp at ho
  · intro request ht hdec
    rw [Init_rsa E fuel net self r request hr ht,
      DecodeAndDecryptRSA_undecodable E.rsa E.gobRequest r.PrivateKey request.Payload hdec]
    rfl
  · intro request p ht hopen hdec
    have hargs := DecodeAndDecryptAES_undecodable E.aes E.gobRequest _ _ p hopen hdec
    refine ⟨?_, ?_, ?_⟩
    · intro hdial
      exact Init_dial_none E fuel net self r request _ hr ht hargs hdial
    · intro hexit
      exact Teardown_exit E fuel net self r request _ hr ht hargs hexit
    · intro hfwd hdial
      exact Teardown_dial_none E fuel net self r request _ hr ht hargs hfwd hdial
  · intro request e p hsk hopen hdec
    have hargs := DecodeAndDecryptAES_undecodable E.aes E.gobRequest _ _ p hopen hdec
    refine ⟨?_, ?_⟩
    · intro hexit
      exact Send_exit E fuel net self r request e _ hr hsk hargs hexit
    · intro hfwd hdial
      exact Send_dial_none E fuel net self r request e _ hr hsk hargs hfwd hdial

/-- C21, amended, at a concrete input: the `Teardown` handler of the middle router of
`keyedNet`, given sixteen zero bytes as the payload, which open to the empty stream,
on which the decoder stores nothing. -/
theorem handlers_on_undecodable_payload_witness :
    RouterRPCListener.Teardown sampleEnv 1 (keyedNet "") "r2:1" ⟨"c", zeroBlockPayload, "AES"⟩ =
      some (⟨Function.update (keyedNet "").routers "r2:1"
          (some (router.Router.withoutKey ⟨2, [2], [("c", ⟨sampleKey 2, 300⟩)], 1, false⟩ "c")),
        (keyedNet "").clock, (keyedNet "").draws⟩, .ok ⟨[]⟩) :=
  ((handlers_on_undecodable_payload sampleEnv 0 (keyedNet "") "r2:1"
    ⟨2, [2], [("c", ⟨sampleKey 2, 300⟩)], 1, false⟩ (by decide)).2.2.2.2.1
    ⟨"c", zeroBlockPayload, "AES"⟩ [] rfl (by decide) (by decide)).2.1 rfl

/-! ## C30: ciphertexts shorter than one block -/

/-- C30: for every 16-byte key, `DecryptAES` returns a result, without the
slice-bounds fault of `ciphertext[:16]`, if and only if the ciphertext has at least
16 bytes, and so does `DecodeAndDecryptAES`, which hands the ciphertext on unchecked;
the nil ciphertext faults.  A router that holds no key for the client seals with the
nil key, which yields the nil payload; when the payload of an AES `Init` opens under
the nil key to bytes that do not decode, the handler returns nil with that nil
payload, and `SendSecurePayload`, checking the reply under a 16-byte key, faults. -/
theorem DecryptAES_faults_iff_short (E : Env) (key : Bytes) (hkey : key.length = 16) :
    (∀ ciphertext : Bytes,
      ((DecryptAES E.aes key ciphertext).isSome = true ↔ 16 ≤ ciphertext.length)
      ∧ ((DecodeAndDecryptAES E.aes E.gobReply key ciphertext).isSome = true
          ↔ 16 ≤ ciphertext.length))
    ∧ DecryptAES E.aes key [] = none
    ∧ DecodeAndDecryptAES E.aes E.gobReply key [] = none
    ∧ (∀ (iv : Block) (reply : STorRouterReply),
        EncodeAndEncryptAES E.aes E.gobReply [] iv reply = [])
    ∧ (∀ (fuel : Nat) (net : Net) (guard : String) (r : router.Router)
        (request : STorGeneralRouterPackageRequest) (a : String) (addr : List String)
        (keys : List Bytes),
        net.routers guard = some r → r.crashed = false →
        request.EncryptionType = "AES" →
        r.SharedKeyMap.lookup request.ClientId = none →
        E.gobRequest.decode [] = none →
        RouterRPCListener.Init E (fuel + 1) net guard request
            = some (⟨net.routers, net.clock, net.draws + 1⟩, .ok ⟨[]⟩)
        ∧ SendSecurePayload E (fuel + 1) net guard (a :: addr) (key :: keys) request
            = some (⟨net.routers, net.clock, net.draws + 1⟩, .fault)) := by
  have hv := validAESKey_of_length hkey
  have hD : ∀ ciphertext : Bytes,
      (DecryptAES E.aes key ciphertext).isSome = true ↔ 16 ≤ ciphertext.length := by
    intro ciphertext
    unfold DecryptAES
    rw [if_pos hv]
    by_cases h : 16 ≤ ciphertext.length
    · simp [h]
    · simp [h]
  have hnil : DecryptAES E.aes key [] = none := by
    simp [DecryptAES, hv]
  refine ⟨fun ciphertext => ⟨hD ciphertext, ?_⟩, hnil, ?_, ?_, ?_⟩
  · rw [← hD ciphertext]
    simp [DecodeAndDecryptAES]
  · simp [DecodeAndDecryptAES, hnil]
  · intro iv reply
    simp [EncodeAndEncryptAES, EncryptAES, validAESKey]
  · intro fuel net guard r request a addr keys hr hup ht hno hdec
    have hsk : r.SharedKeyMap.skOf request.ClientId = [] := by
      simp [SharedKeyMap.skOf, hno]
    have hopen : DecryptAES E.aes (r.SharedKeyMap.skOf request.ClientId) request.Payload
        = some [] := by
      rw [hsk]
      simp [DecryptAES, validAESKey]
    have hzero : DecodeAndDecryptAES E.aes E.gobRequest (r.SharedKeyMap.skOf request.ClientId)
        request.Payload = some default := by
      rw [DecodeAndDecryptAES_undecodable _ _ _ _ [] hopen hdec, E.gobRequest.onError_nil]
    have hinit := Init_dial_none E fuel net guard r request default hr ht hzero
      (show net.dial "" = none by simp [Net.dial])
    rw [hsk] at hinit
    have hseal : EncodeAndEncryptAES E.aes E.gobReply [] (E.rand net.draws)
        (errReply "Unable to contact next router.") = [] := by
      simp [EncodeAndEncryptAES, EncryptAES, validAESKey]
    rw [hseal] at hinit
    refine ⟨hinit, ?_⟩
    simp [SendSecurePayload, Net.isDown_of hr hup, hinit, checkInitReply, DecodeAndDecryptAES, hnil]

/-- C30 at a concrete input: the key made of sixteen bytes 1. -/
theorem DecryptAES_faults_iff_short_witness :
    DecryptAES sampleEnv.aes (sampleKey 1) [] = none
    ∧ DecodeAndDecryptAES sampleEnv.aes sampleEnv.gobReply (sampleKey 1) [] = none
    ∧ SendSecurePayload sampleEnv 1 sampleNet "r1:1" ["r2:1"] [sampleKey 1, sampleKey 2]
        ⟨"c", [], "AES"⟩
      = some (⟨sampleNet.routers, sampleNet.clock, sampleNet.draws + 1⟩, Outcome.fault) :=
  ⟨(DecryptAES_faults_iff_short sampleEnv (sampleKey 1) rfl).2.1,
    (DecryptAES_faults_iff_short sampleEnv (sampleKey 1) rfl).2.2.1,
    ((DecryptAES_faults_iff_short sampleEnv (sampleKey 1) rfl).2.2.2.2 0 sampleNet "r1:1"
      (sampleRouter 1 [1]) ⟨"c", [], "AES"⟩ "r2:1" [] [sampleKey 2]
      (by decide) rfl rfl (by decide) (by decide)).2⟩

/-! ## C26: the reply of a successful teardown -/

theorem EncryptAES_ne_nil (aes : Bytes → Block → Block) (key : Bytes) (iv : Block) (msg : Bytes)
    (hv : validAESKey key = true) : EncryptAES aes key iv msg ≠ [] := by
  intro h
  have hlen := congrArg List.length h
  have hiv := iv.property
  simp only [EncryptAES, hv, if_true, List.length_append, List.length_nil] at hlen
  omega

/-- C26: for a circuit whose three different reachable routers hold the 16-byte keys
`k0`, `k1`, `k2` for the client, the client's teardown message
(`constructTeardownMessage` with a nil payload) is handled by `Teardown` at the
guard and relayed to the middle and the exit router, each of which deletes its
entry; the guard returns nil with a reply on which
`deonionizeTeardownMessage(reply, [k0, k1, k2])` returns a nil payload and no
error. -/
theorem teardown_reply_deonionizes (E : Env) (fuel c : Nat) (net : Net) (R0 R1 R2 : Router)
    (r0 r1 r2 : router.Router) (e0 e1 e2 : SharedKey) (clientId : String)
    (hfuel : 3 ≤ fuel)
    (hd0 : net.dial R0.Addr = some r0) (hd1 : net.dial R1.Addr = some r1)
    (hd2 : net.dial R2.Addr = some r2)
    (h01 : R0.Addr ≠ R1.Addr) (h02 : R0.Addr ≠ R2.Addr) (h12 : R1.Addr ≠ R2.Addr)
    (hs0 : r0.SharedKeyMap.lookup clientId = some e0)
    (hs1 : r1.SharedKeyMap.lookup clientId = some e1)
    (hs2 : r2.SharedKeyMap.lookup clientId = some e2)
    (hk0 : e0.sk.length = 16) (hk1 : e1.sk.length = 16) (hk2 : e2.sk.length = 16) :
    ∃ msg c1 net1 response,
      constructTeardownMessage E c [e0.sk, e1.sk, e2.sk] [R0, R1, R2] [] clientId =
        some (msg, c1) ∧
      RouterRPCListener.Teardown E fuel net R0.Addr msg = some (net1, .ok response) ∧
      net1.sharedKey R0.Addr clientId = none ∧
      net1.sharedKey R1.Addr clientId = none ∧
      net1.sharedKey R2.Addr clientId = none ∧
      deonionizeTeardownMessage E response.Payload [e0.sk, e1.sk, e2.sk] = some (.ok []) := by
  obtain ⟨f, rfl⟩ : ∃ f, fuel = f + 3 := ⟨fuel - 3, by omega⟩
  have v0 := validAESKey_of_length hk0
  have v1 := validAESKey_of_length hk1
  have v2 := validAESKey_of_length hk2
  have hmsg : constructTeardownMessage E c [e0.sk, e1.sk, e2.sk] [R0, R1, R2] [] clientId = _ :=
    generateSecurePayload_teardown E c clientId e0.sk e1.sk e2.sk [] R1.Addr R2.Addr
  have htd := Teardown_circuit_eq E f net R0.Addr R1.Addr R2.Addr r0 r1 r2 clientId
    e0.sk e1.sk e2.sk [] (E.rand (c + 2)) (E.rand (c + 1)) (E.rand c) hd0 hd1 hd2 h01 h02 h12
    v0 v1 v2 (SharedKeyMap.skOf_of_lookup hs0) (SharedKeyMap.skOf_of_lookup hs1)
    (SharedKeyMap.skOf_of_lookup hs2)
  refine ⟨_, _, _, _, hmsg, htd, ?_, ?_, ?_, ?_⟩
  · simp [Net.sharedKey, withoutKey_lookup]
  · simp [Net.sharedKey, Function.update_noteq h01.symm, withoutKey_lookup]
  · simp [Net.sharedKey, Function.update_noteq h02.symm, Function.update_noteq h12.symm,
      withoutKey_lookup]
  · have hne : EncodeAndEncryptAES E.aes E.gobReply e1.sk (E.rand net.draws) (okReply []) ≠ [] :=
      EncryptAES_ne_nil _ _ _ _ v1
    simp [deonionizeTeardownMessage, deonionizeTeardownLoop,
      DecodeAndDecryptAES_EncodeAndEncryptAES, v0, v1, okReply, hne]

/-- C26 at a concrete input: the circuit of `keyedNet` with its three routers up. -/
theorem teardown_reply_deonionizes_witness :
    ∃ msg c1 net1 response,
      constructTeardownMessage sampleEnv 0 [sampleKey 1, sampleKey 2, sampleKey 3] sampleRing []
        "c" = some (msg, c1) ∧
      RouterRPCListener.Teardown sampleEnv 3 (keyedNet "") "r1:1" msg =
        some (net1, .ok response) ∧
      net1.sharedKey "r1:1" "c" = none ∧
      net1.sharedKey "r2:1" "c" = none ∧
      net1.sharedKey "r3:1" "c" = none ∧
      deonionizeTeardownMessage sampleEnv response.Payload
        [sampleKey 1, sampleKey 2, sampleKey 3] = some (.ok []) :=
  teardown_reply_deonionizes sampleEnv 3 0 (keyedNet "") ⟨1, [1], "r1:1"⟩ ⟨2, [2], "r2:1"⟩
    ⟨3, [3], "r3:1"⟩
    ⟨1, [1], [("c", ⟨sampleKey 1, 300⟩), ("old", ⟨sampleKey 9, 100⟩)], 2, false⟩
    ⟨2, [2], [("c", ⟨sampleKey 2, 300⟩)], 1, false⟩
    ⟨3, [3], [("c", ⟨sampleKey 3, 300⟩)], 1, false⟩
    ⟨sampleKey 1, 300⟩ ⟨sampleKey 2, 300⟩ ⟨sampleKey 3, 300⟩ "c" (le_refl 3)
    (by decide) (by decide) (by decide) (by decide) (by decide) (by decide)
    (by decide) (by decide) (by decide) rfl rfl rfl

/-! ## C29: the trace of a failed teardown -/

theorem handlerTeardown_exit_down (E : Env) (fuel : Nat) (net : Net) (R0 R1 R2 : Router)
    (r0 r1 : router.Router) (e0 e1 : SharedKey) (k2 : Bytes) (clientId : String)
    (hfuel : 2 ≤ fuel)
    (hd0 : net.dial R0.Addr = some r0) (hd1 : net.dial R1.Addr = some r1)
    (hs0 : r0.SharedKeyMap.lookup clientId = some e0)
    (hs1 : r1.SharedKeyMap.lookup clientId = some e1)
    (hk0 : e0.sk.length = 16) (hk1 : e1.sk.length = 16)
    (hn2 : R2.Addr ≠ "") (hd2 : net.dial R2.Addr = none) :
    (handlerTeardown E fuel net R0.Addr [e0.sk, e1.sk, k2] [R0, R1, R2] clientId).map
        (fun x => x.2.2)
      = some [.CircuitTeardown clientId,
          .CircuitTeardownFailed clientId "Unable to contact next router.",
          .CircuitTeardownComplete clientId] := by
  obtain ⟨f, rfl⟩ : ∃ f, fuel = f + 2 := ⟨fuel - 2, by omega⟩
  obtain ⟨hn0, hr0, hc0⟩ := Net.dial_eq_some hd0
  obtain ⟨hn1, hr1, hc1⟩ := Net.dial_eq_some hd1
  have v0 := validAESKey_of_length hk0
  have v1 := validAESKey_of_length hk1
  have hmsg : constructTeardownMessage E net.draws [e0.sk, e1.sk, k2] [R0, R1, R2] [] clientId
      = _ := generateSecurePayload_teardown E net.draws clientId e0.sk e1.sk k2 [] R1.Addr R2.Addr
  let l2 : STorEncryptedRouterRequest :=
    ⟨clientId, R2.Addr, EncodeAndEncryptAES E.aes E.gobRequest k2 (E.rand net.draws)
      ⟨clientId, "", [], ""⟩, "AES"⟩
  let l1 : STorEncryptedRouterRequest :=
    ⟨clientId, R1.Addr, EncodeAndEncryptAES E.aes E.gobRequest e1.sk (E.rand (net.draws + 1)) l2,
      "AES"⟩
  let net0 : Net := ⟨net.routers, net.clock, net.draws + 3⟩
  have hsk0 := SharedKeyMap.skOf_of_lookup hs0
  have hsk1 := SharedKeyMap.skOf_of_lookup hs1
  have hmid := Teardown_dial_none E f net0 R1.Addr r1
    ⟨clientId, EncodeAndEncryptAES E.aes E.gobRequest e1.sk (E.rand (net.draws + 1)) l2, "AES"⟩
    l2 hr1 rfl
    (by rw [hsk1]; exact DecodeAndDecryptAES_EncodeAndEncryptAES _ _ _ _ _ v1) hn2
    (by simpa [Net.dial] using hd2)
  have hd1b : net0.dial R1.Addr = some r1 := by simpa [Net.dial] using hd1
  have htop := Teardown_relay E (f + 1) net0 _ R0.Addr r0 r1 r0
    ⟨clientId, EncodeAndEncryptAES E.aes E.gobRequest e0.sk (E.rand (net.draws + 2)) l1, "AES"⟩
    l1 _ hr0 rfl
    (by rw [hsk0]; exact DecodeAndDecryptAES_EncodeAndEncryptAES _ _ _ _ _ v0) hn1 hd1b
    hmid hr0 hc0
  have hdown : net.isDown R0.Addr = false := Net.isDown_of hr0 hc0
  simp only [handlerTeardown, hmsg, hdown, Bool.false_eq_true, if_false]
  rw [show ({ net with draws := net.draws + 3 } : Net) = net0 from rfl, htop]
  have hne : ∀ (iv : Block) (reply : STorRouterReply),
      EncodeAndEncryptAES E.aes E.gobReply e1.sk iv reply ≠ [] :=
    fun _ _ => EncryptAES_ne_nil _ _ _ _ v1
  simp [deonionizeTeardownMessage, deonionizeTeardownLoop,
    DecodeAndDecryptAES_EncodeAndEncryptAES, v0, v1, okReply, errReply, hsk0, hsk1, hne]

/-- C29, the code at a failing input: the circuit of `keyedNet` with nothing
listening at the address of the exit.  The guard relays the teardown to the middle
router, which cannot dial the exit; the reply de-onionizes to the error
`"Unable to contact next router."`, and the handler records `CircuitTeardownFailed`
and then `CircuitTeardownComplete` for the same client id. -/
theorem handlerTeardown_failed_then_complete :
    (handlerTeardown sampleEnv 3 (keyedNet "r3:1") "r1:1"
        [sampleKey 1, sampleKey 2, sampleKey 3] sampleRing "c").map (fun x => x.2.2)
      = some [.CircuitTeardown "c",
          .CircuitTeardownFailed "c" "Unable to contact next router.",
          .CircuitTeardownComplete "c"] :=
  handlerTeardown_exit_down sampleEnv 3 (keyedNet "r3:1") ⟨1, [1], "r1:1"⟩ ⟨2, [2], "r2:1"⟩
    ⟨3, [3], "r3:1"⟩
    ⟨1, [1], [("c", ⟨sampleKey 1, 300⟩), ("old", ⟨sampleKey 9, 100⟩)], 2, false⟩
    ⟨2, [2], [("c", ⟨sampleKey 2, 300⟩)], 1, false⟩
    ⟨sampleKey 1, 300⟩ ⟨sampleKey 2, 300⟩ (sampleKey 3) "c" (by decide)
    (by decide) (by decide) (by decide) (by decide) rfl rfl (by decide) (by decide)

/-! ## C24, C25: the two consumers of the coordinator -/

/-- C24, as stated, fails: `RegisterRouter` tells routers apart by their public keys,
so two routers with the router id 1 register; after `FailureDetected{1}` the
registry still holds the second of them, and `removeRouterInfo` differs from the
registry with the entries of id 1 filtered out. -/
theorem removeRouterInfo_leaves_second_match :
    routerIds (Coord.run goGrowCap sampleJoinsSharedId).Routers = [1, 1, 3]
    ∧ routerIds (handleRouterFailures (Coord.run goGrowCap sampleJoinsSharedId) 1).Routers
        = [1, 3]
    ∧ routerIds ((Coord.run goGrowCap sampleJoinsSharedId).Routers.filter
        (fun v => v.routerId ≠ 1)) = [3]
    ∧ removeRouterInfo (Coord.run goGrowCap sampleJoinsSharedId).Routers 1
        ≠ (Coord.run goGrowCap sampleJoinsSharedId).Routers.filter (fun v => v.routerId ≠ 1) := by
  refine ⟨by decide, by decide, by decide, by decide⟩

theorem removeRouterInfo_of_not_mem (routers : List RouterInfo) (id : Int)
    (h : ∀ v ∈ routers, v.routerId ≠ id) : removeRouterInfo routers id = routers := by
  induction routers with
  | nil => rfl
  | cons v t ih =>
    have hv : v.routerId ≠ id := h v (List.mem_cons_self _ _)
    simp only [removeRouterInfo, if_neg hv]
    rw [ih (fun x hx => h x (List.mem_cons_of_mem _ hx))]

theorem removeRouterInfo_split (l1 : List RouterInfo) (v : RouterInfo) (l2 : List RouterInfo)
    (id : Int) (hv : v.routerId = id) (h1 : ∀ x ∈ l1, x.routerId ≠ id) :
    removeRouterInfo (l1 ++ v :: l2) id = l1 ++ l2 := by
  induction l1 with
  | nil => simp [removeRouterInfo, hv]
  | cons x t ih =>
    have hx : x.routerId ≠ id := h1 x (List.mem_cons_self _ _)
    have hrec := ih (fun y hy => h1 y (List.mem_cons_of_mem _ hy))
    rw [List.cons_append, List.cons_append]
    simp only [removeRouterInfo, if_neg hx]
    exact congrArg (List.cons x) hrec

theorem filter_ne_of_count_zero (routers : List RouterInfo) (id : Int)
    (h : (routerIds routers).count id = 0) :
    routers.filter (fun v => v.routerId ≠ id) = routers := by
  rw [List.filter_eq_self]
  intro v hv
  have hnot : id ∉ routerIds routers := List.count_eq_zero.mp h
  have : v.routerId ≠ id := fun he => hnot (he ▸ List.mem_map_of_mem _ hv)
  simpa using this

theorem removeRouterInfo_eq_filter (routers : List RouterInfo) (id : Int)
    (h : (routerIds routers).count id ≤ 1) :
    removeRouterInfo routers id = routers.filter (fun v => v.routerId ≠ id) := by
  induction routers with
  | nil => rfl
  | cons v t ih =>
    by_cases hv : v.routerId = id
    · have hc : (routerIds t).count id = 0 := by
        simp only [routerIds, List.map_cons, hv, List.count_cons_self] at h
        simp only [routerIds]
        omega
      simp only [removeRouterInfo, if_pos hv]
      rw [List.filter_cons_of_neg (by simpa using hv), filter_ne_of_count_zero t id hc]
    · have hc : (routerIds t).count id ≤ 1 := by
        simp only [routerIds, List.map_cons] at h
        rw [List.count_cons_of_ne (fun he => hv he.symm)] at h
        exact h
      simp only [removeRouterInfo, if_neg hv]
      rw [List.filter_cons_of_pos (by simpa using hv), ih hc]

/-- C24, amended: the failure consumer, on `FailureDetected{id}`, replaces the
registry by `removeRouterInfo(routers, id)`, which cuts out the first entry whose
router id is `id` and keeps every other entry in its order (and is the registry
itself when no entry has that id).  When at most one entry has the router id `id`,
as when router ids are pairwise distinct, the result is the registry with the
entries of `id` filtered out and holds no entry with that id. -/
theorem removeRouterInfo_first_match (c : Coord) (id : Int) :
    (handleRouterFailures c id).Routers = removeRouterInfo c.Routers id
    ∧ ((∀ v ∈ c.Routers, v.routerId ≠ id) → removeRouterInfo c.Routers id = c.Routers)
    ∧ (∀ l1 v l2, c.Routers = l1 ++ v :: l2 → v.routerId = id →
        (∀ x ∈ l1, x.routerId ≠ id) → removeRouterInfo c.Routers id = l1 ++ l2)
    ∧ ((routerIds c.Routers).count id ≤ 1 →
        removeRouterInfo c.Routers id = c.Routers.filter (fun v => v.routerId ≠ id)
        ∧ ∀ v ∈ (handleRouterFailures c id).Routers, v.routerId ≠ id) := by
  have hfirst : (handleRouterFailures c id).Routers = removeRouterInfo c.Routers id := by
    unfold handleRouterFailures
    split
    · rfl
    · rename_i hany
      rw [removeRouterInfo_of_not_mem]
      intro v hv he
      exact hany (List.any_eq_true.mpr ⟨v, hv, by simpa using he⟩)
  refine ⟨hfirst, removeRouterInfo_of_not_mem _ _, ?_, ?_⟩
  · intro l1 v l2 hsplit hv h1
    rw [hsplit]
    exact removeRouterInfo_split l1 v l2 id hv h1
  · intro hcount
    have hf := removeRouterInfo_eq_filter c.Routers id hcount
    refine ⟨hf, ?_⟩
    intro v hv
    rw [hfirst, hf] at hv
    simpa using (List.mem_filter.mp hv).2

/-- C24, amended, at a concrete input: three routers with the ids 1, 2, 3 and the
failure of router 2. -/
theorem removeRouterInfo_first_match_witness :
    removeRouterInfo
        (Coord.run goGrowCap
          [.register (sampleJoin 1), .register (sampleJoin 2), .register (sampleJoin 3)]).Routers 2
      = (Coord.run goGrowCap
          [.register (sampleJoin 1), .register (sampleJoin 2), .register (sampleJoin 3)]).Routers.filter
          (fun v => v.routerId ≠ 2)
    ∧ ∀ v ∈ (handleRouterFailures
        (Coord.run goGrowCap
          [.register (sampleJoin 1), .register (sampleJoin 2), .register (sampleJoin 3)]) 2).Routers,
        v.routerId ≠ 2 :=
  (removeRouterInfo_first_match
    (Coord.run goGrowCap
      [.register (sampleJoin 1), .register (sampleJoin 2), .register (sampleJoin 3)]) 2).2.2.2
    (by decide)

theorem updateCount_of_not_mem (routers : List RouterInfo) (id n : Int)
    (h : ∀ v ∈ routers, v.routerId ≠ id) : updateCount routers id n = routers := by
  induction routers with
  | nil => rfl
  | cons v t ih =>
    have hv : v.routerId ≠ id := h v (List.mem_cons_self _ _)
    simp only [updateCount, if_neg hv]
    rw [ih (fun x hx => h x (List.mem_cons_of_mem _ hx))]

theorem updateCount_split (l1 : List RouterInfo) (v : RouterInfo) (l2 : List RouterInfo)
    (id n : Int) (hv : v.routerId = id) (h1 : ∀ x ∈ l1, x.routerId ≠ id) :
    updateCount (l1 ++ v :: l2) id n = l1 ++ { v with activeChainCount := n } :: l2 := by
  induction l1 with
  | nil =>
    by_cases hn : v.activeChainCount = n
    · simp [updateCount, hv, hn]
      cases v
      simp_all
    · simp [updateCount, hv, hn]
  | cons x t ih =>
    have hx : x.routerId ≠ id := h1 x (List.mem_cons_self _ _)
    have hrec := ih (fun y hy => h1 y (List.mem_cons_of_mem _ hy))
    rw [List.cons_append, List.cons_append]
    simp only [updateCount, if_neg hx]
    exact congrArg (List.cons x) hrec

theorem updateCount_identity (routers : List RouterInfo) (id n : Int) :
    (updateCount routers id n).map RouterInfo.identity = routers.map RouterInfo.identity := by
  induction routers with
  | nil => rfl
  | cons v t ih =>
    by_cases hv : v.routerId = id
    · by_cases hn : v.activeChainCount = n
      · simp [updateCount, hv, hn]
      · simp [updateCount, hv, hn, RouterInfo.identity]
    · simp only [updateCount, if_neg hv, List.map_cons, ih]

/-- C25: on `RouterCircuitCount{id, n}`, `updateActiveChainCounts` sets the
`activeChainCount` of the registered router with the router id `id` (the first entry
with that id) to `n` and changes nothing else: the spare cells and the ready flag,
the length and the order of the registry, the other fields of every entry, and every
other entry are as before; when no entry has that id the registry is unchanged. -/
theorem updateActiveChainCounts_frame (c : Coord) (id n : Int) :
    (updateActiveChainCounts c id n).spare = c.spare
    ∧ (updateActiveChainCounts c id n).RoutersReady = c.RoutersReady
    ∧ (updateActiveChainCounts c id n).Routers.length = c.Routers.length
    ∧ (updateActiveChainCounts c id n).Routers.map RouterInfo.identity
        = c.Routers.map RouterInfo.identity
    ∧ ((∀ v ∈ c.Routers, v.routerId ≠ id) → (updateActiveChainCounts c id n).Routers = c.Routers)
    ∧ (∀ l1 v l2, c.Routers = l1 ++ v :: l2 → v.routerId = id →
        (∀ x ∈ l1, x.routerId ≠ id) →
        (updateActiveChainCounts c id n).Routers
          = l1 ++ { v with activeChainCount := n } :: l2) := by
  refine ⟨rfl, rfl, updateCount_length _ _ _, updateCount_identity _ _ _,
    updateCount_of_not_mem _ _ _, ?_⟩
  intro l1 v l2 hsplit hv h1
  simp only [updateActiveChainCounts, hsplit]
  exact updateCount_split l1 v l2 id n hv h1

/-- C25 at a concrete input: routers 1, 2, 3 are registered and the count 5 arrives
for router 2. -/
theorem updateActiveChainCounts_frame_witness :
    (updateActiveChainCounts
        (Coord.run goGrowCap
          [.register (sampleJoin 1), .register (sampleJoin 2), .register (sampleJoin 3)]) 2 5).Routers
      = [sampleInfo 1] ++ { sampleInfo 2 with activeChainCount := 5 } :: [sampleInfo 3] :=
  (updateActiveChainCounts_frame
    (Coord.run goGrowCap
      [.register (sampleJoin 1), .register (sampleJoin 2), .register (sampleJoin 3)]) 2 5).2.2.2.2.2
    [sampleInfo 1] (sampleInfo 2) [sampleInfo 3] (by decide) (by decide) (by decide)

/-! ## C27: ties between equally loaded routers -/

theorem inRing_shuffleTo (S : SortSlice) (c : Coord) (a : RouterInfo) (p : List RouterInfo)
    (hlen : 3 ≤ c.Routers.length) (ha : a ∈ c.Routers)
    (hkeys : (c.Routers.map (fun v => v.publicKey)).Nodup) (hp : p.Perm c.Routers) :
    inRing (shuffleTo p) S c a = decide (a ∈ (S.sort p).take 3) := by
  have hsl : (S.sort p).length = c.Routers.length := ((S.perm p).trans hp).length_eq
  have hperm : (S.sort p).Perm c.Routers := (S.perm p).trans hp
  have hinj : ∀ x ∈ c.Routers, x.toRouter = a.toRouter → x = a := by
    intro x hx hxa
    have hk : x.publicKey = a.publicKey := congrArg Router.PublicKey hxa
    exact List.inj_on_of_nodup_map hkeys hx ha hk
  simp only [inRing, createOnionRing, shuffleTo, if_pos hp]
  rw [if_neg (by rw [List.length_append]; omega), List.take_append_of_le_length (by omega)]
  simp only [List.mem_map, decide_eq_decide]
  constructor
  · rintro ⟨x, hx, hxa⟩
    have hxr : x ∈ c.Routers := hperm.subset (List.mem_of_mem_take hx)
    rw [← hinj x hxr hxa]
    exact hx
  · intro h
    exact ⟨a, h, rfl⟩

theorem map_swap_perm (l : List RouterInfo) (a b : RouterInfo) (hl : l.Nodup)
    (ha : a ∈ l) (hb : b ∈ l) : (l.map (Equiv.swap a b)).Perm l := by
  rw [List.perm_ext_iff_of_nodup (hl.map (Equiv.swap a b).injective) hl]
  intro x
  simp only [List.mem_map]
  constructor
  · rintro ⟨y, hy, rfl⟩
    rw [Equiv.swap_apply_def]
    split
    · exact hb
    · split
      · exact ha
      · exact hy
  · intro hx
    refine ⟨Equiv.swap a b x, ?_, Equiv.swap_apply_self a b x⟩
    rw [Equiv.swap_apply_def]
    split
    · exact hb
    · split
      · exact ha
      · exact hx

/-- C27: for every registry of at least three routers (with pairwise different public
keys, as `RegisterRouter` keeps them) and any two registered routers `a` and `b` with
equal `activeChainCount`, the number of outcomes of the shuffle for which `a` is in
the ring returned by `createOnionRing` equals the number for which `b` is in it, out
of `n!` outcomes for `n` routers; so under a uniform shuffle the two are selected
with equal probability.  The sort may be any comparison sort, stable or not. -/
theorem createOnionRing_ties_equally_likely (S : LessSort) (c : Coord) (a b : RouterInfo)
    (hlen : 3 ≤ c.Routers.length) (ha : a ∈ c.Routers) (hb : b ∈ c.Routers)
    (hkeys : (c.Routers.map (fun v => v.publicKey)).Nodup)
    (htie : a.activeChainCount = b.activeChainCount) :
    ringCount S.toSortSlice c a = ringCount S.toSortSlice c b
    ∧ c.Routers.permutations.length = c.Routers.length.factorial := by
  refine ⟨?_, List.length_permutations _⟩
  have hl : c.Routers.Nodup := List.Nodup.of_map _ hkeys
  have hf : ∀ x, (Equiv.swap a b x).activeChainCount = x.activeChainCount := by
    intro x
    rw [Equiv.swap_apply_def]
    split
    · rename_i h; rw [h, htie]
    · split
      · rename_i h; rw [h, htie]
      · rfl
  have hswap := map_swap_perm c.Routers a b hl ha hb
  have hA : ∀ p ∈ c.Routers.permutations,
      (inRing (shuffleTo p) S.toSortSlice c a = true ↔ a ∈ (S.sort p).take 3) := by
    intro p hp
    rw [inRing_shuffleTo S.toSortSlice c a p hlen ha hkeys (List.mem_permutations.mp hp)]
    simp
  have hB : ∀ p ∈ c.Routers.permutations,
      (inRing (shuffleTo p) S.toSortSlice c b = true ↔ b ∈ (S.sort p).take 3) := by
    intro p hp
    rw [inRing_shuffleTo S.toSortSlice c b p hlen hb hkeys (List.mem_permutations.mp hp)]
    simp
  simp only [ringCount, ← List.countP_eq_length_filter]
  rw [← List.Perm.countP_eq _ hswap.permutations, ← List.map_permutations, List.countP_map]
  apply List.countP_congr
  intro p hp
  have hp2 : p.map (Equiv.swap a b) ∈ c.Routers.permutations := by
    rw [List.mem_permutations]
    have h1 : (p.map (Equiv.swap a b)).Perm (c.Routers.map (Equiv.swap a b)) :=
      (List.mem_permutations.mp hp).map _
    exact h1.trans hswap
  simp only [Function.comp_apply]
  rw [hA _ hp2, hB p hp, S.natural _ hf, ← List.map_take, List.mem_map]
  constructor
  · rintro ⟨y, hy, hya⟩
    have : y = b := by
      have := congrArg (Equiv.swap a b) hya
      rw [Equiv.swap_apply_self, Equiv.swap_apply_left] at this
      exact this
    rw [← this]
    exact hy
  · intro h
    exact ⟨b, h, Equiv.swap_apply_right a b⟩

/-- C27 at a concrete input: four routers of which the last three are idle, insertion
sort, and the idle routers 2 and 3. -/
theorem createOnionRing_ties_equally_likely_witness :
    ringCount insertionSortSlice sampleTied (sampleInfo 2)
      = ringCount insertionSortSlice sampleTied (sampleInfo 3)
    ∧ sampleTied.Routers.permutations.length = sampleTied.Routers.length.factorial :=
  createOnionRing_ties_equally_likely insertionLessSort sampleTied (sampleInfo 2) (sampleInfo 3)
    (by decide) (by decide) (by decide) (by decide) (by decide)

end STor
